import Mathlib

/-!
asdx11 (ProjectAsura/d3d11_samples): verification development.

Shallow embedding of the parts of the asdx11 framework that carry logic:
the undo/redo parameter history, the editor controls, the presentation
stand-by machine, the MCI sound manager, the camera and the viewer camera,
the depth-stencil descriptor table, the FNV-1 hash, the render targets, the
buffer wrappers, the device creation loop and the resize event.

Conventions.
* A C++ pointer `T*` into an object of type `S` is a `Ref S T`: a reader and
  a writer of one location of `S`.
* Calls into the operating system (DXGI, MCI) are answered by an explicit
  responder argument and recorded in a list of effects, in program order.
* The camera's `float` code is embedded over an arbitrary ordered field `F`;
  theorems about distances instantiate `F` with the real numbers.
* The resize code takes its `float` operations as a `FloatArith` argument;
  `binary32` is the IEEE 754 instance, with round to nearest, ties to even.
* Unsigned machine integers are natural numbers; a narrowing conversion to
  `w` bits is `% 2^w`, and `int` arithmetic that can leave its range goes
  through `wrapInt32`.
-/

namespace asdx

/-! ## Mutable locations -/

/-- A mutable location of type `T` inside a state `S` (the C++ `T*`). -/
structure Ref (S T : Type) where
  /-- Dereference for reading: `*p`. -/
  read : S → T
  /-- Dereference for writing: `*p = v`. -/
  write : T → S → S

/-- The laws of a memory cell: a read sees the last write, and a write
overwrites the one before it. -/
structure Ref.Lawful {S T : Type} (r : Ref S T) : Prop where
  read_write : ∀ v s, r.read (r.write v s) = v
  write_write : ∀ v w s, r.write v (r.write w s) = r.write v s

/-- A state that is one cell and nothing else. -/
def Ref.cell (T : Type) : Ref T T where
  read := fun s => s
  write := fun v _ => v

/-! ## asdxParamHistory.h / asdxEditParam.cpp : `ParamHistory<T>` -/

/-- `template<typename T> class ParamHistory : public IHistory`. -/
structure ParamHistory (S T : Type) where
  /-- `T* m_pTarget` -/
  m_pTarget : Ref S T
  /-- `T m_Prev` -/
  m_Prev : T
  /-- `T m_Curr` -/
  m_Curr : T

namespace ParamHistory

variable {S T : Type}

/-- `ParamHistory(T* target, const T& value)`:
`m_pTarget(target), m_Curr(value), m_Prev(*target)`; `s` is the state in
which the constructor runs. -/
def mk2 (target : Ref S T) (value : T) (s : S) : ParamHistory S T where
  m_pTarget := target
  m_Curr := value
  m_Prev := target.read s

/-- `ParamHistory(T* target, const T& nextValue, const T& prevValue)`:
`m_pTarget(target), m_Curr(nextValue), m_Prev(prevValue)`. -/
def mk3 (target : Ref S T) (nextValue prevValue : T) : ParamHistory S T where
  m_pTarget := target
  m_Curr := nextValue
  m_Prev := prevValue

/-- `void Redo() override { *m_pTarget = m_Curr; }` -/
def Redo (h : ParamHistory S T) (s : S) : S :=
  h.m_pTarget.write h.m_Curr s

/-- `void Undo() override { *m_pTarget = m_Prev; }` -/
def Undo (h : ParamHistory S T) (s : S) : S :=
  h.m_pTarget.write h.m_Prev s

end ParamHistory

/-! ## asdxMath.h value types used by the controls and the camera -/

/-- `asdx::Vector2` -/
structure Vector2 (F : Type) where
  x : F
  y : F

/-- `asdx::Vector3` -/
structure Vector3 (F : Type) where
  x : F
  y : F
  z : F

/-- `asdx::Vector4` -/
structure Vector4 (F : Type) where
  x : F
  y : F
  z : F
  w : F

/-! ## asdxEditParam.cpp : the editor controls -/

/-- `class EditBool` -/
structure EditBool where
  m_Value : Bool

/-- `class EditInt` -/
structure EditInt where
  m_Value : Int
  m_Prev : Int
  m_Dragged : Bool

/-- `class EditFloat` -/
structure EditFloat (F : Type) where
  m_Value : F
  m_Prev : F
  m_Dragged : Bool

/-- `class EditFloat2` -/
structure EditFloat2 (F : Type) where
  m_Value : Vector2 F
  m_Prev : Vector2 F
  m_Dragged : Bool

/-- `class EditFloat3` -/
structure EditFloat3 (F : Type) where
  m_Value : Vector3 F
  m_Prev : Vector3 F
  m_Dragged : Bool

/-- `class EditFloat4` -/
structure EditFloat4 (F : Type) where
  m_Value : Vector4 F
  m_Prev : Vector4 F
  m_Dragged : Bool

/-- `class EditColor3` -/
structure EditColor3 (F : Type) where
  m_Value : Vector3 F
  m_Prev : Vector3 F
  m_Dragged : Bool

/-- `class EditColor4` -/
structure EditColor4 (F : Type) where
  m_Value : Vector4 F
  m_Prev : Vector4 F
  m_Dragged : Bool

/-- `class EditBit32`; `m_Value` is a `uint32_t`. -/
structure EditBit32 where
  m_Value : Nat
  m_Prev : Nat
  m_Dragged : Bool

namespace EditBool

/-- `&m_Value` -/
def valueRef : Ref EditBool Bool where
  read := fun e => e.m_Value
  write := fun v e => { e with m_Value := v }

/-- `bool EditBool::GetValue() const { return m_Value; }` -/
def GetValue (e : EditBool) : Bool := e.m_Value

/-- `EditBool::CreateHistory`: `new ParamHistory<bool>(&m_Value, value)`. -/
def CreateHistory (e : EditBool) (value : Bool) : ParamHistory EditBool Bool :=
  ParamHistory.mk2 valueRef value e

end EditBool

namespace EditInt

/-- `&m_Value` -/
def valueRef : Ref EditInt Int where
  read := fun e => e.m_Value
  write := fun v e => { e with m_Value := v }

/-- `int EditInt::GetValue() const { return m_Value; }` -/
def GetValue (e : EditInt) : Int := e.m_Value

/-- `EditInt::CreateHistory`:
`new ParamHistory<int>(&m_Value, m_Value, value)`. -/
def CreateHistory (e : EditInt) (value : Int) : ParamHistory EditInt Int :=
  ParamHistory.mk3 valueRef e.m_Value value

end EditInt

namespace EditFloat

variable {F : Type}

/-- `&m_Value` -/
def valueRef : Ref (EditFloat F) F where
  read := fun e => e.m_Value
  write := fun v e => { e with m_Value := v }

/-- `float EditFloat::GetValue() const { return m_Value; }` -/
def GetValue (e : EditFloat F) : F := e.m_Value

/-- `EditFloat::CreateHistory`: `new ParamHistory<float>(&m_Value, value)`. -/
def CreateHistory (e : EditFloat F) (value : F) : ParamHistory (EditFloat F) F :=
  ParamHistory.mk2 valueRef value e

end EditFloat

namespace EditFloat2

variable {F : Type}

/-- `&m_Value` -/
def valueRef : Ref (EditFloat2 F) (Vector2 F) where
  read := fun e => e.m_Value
  write := fun v e => { e with m_Value := v }

/-- `const asdx::Vector2& EditFloat2::GetValue() const { return m_Value; }` -/
def GetValue (e : EditFloat2 F) : Vector2 F := e.m_Value

/-- `EditFloat2::CreateHistory`:
`new ParamHistory<asdx::Vector2>(&m_Value, value)`. -/
def CreateHistory (e : EditFloat2 F) (value : Vector2 F) :
    ParamHistory (EditFloat2 F) (Vector2 F) :=
  ParamHistory.mk2 valueRef value e

end EditFloat2

namespace EditFloat3

variable {F : Type}

/-- `&m_Value` -/
def valueRef : Ref (EditFloat3 F) (Vector3 F) where
  read := fun e => e.m_Value
  write := fun v e => { e with m_Value := v }

/-- `const asdx::Vector3& EditFloat3::GetValue() const { return m_Value; }` -/
def GetValue (e : EditFloat3 F) : Vector3 F := e.m_Value

/-- `EditFloat3::CreateHistory`:
`new ParamHistory<asdx::Vector3>(&m_Value, value)`. -/
def CreateHistory (e : EditFloat3 F) (value : Vector3 F) :
    ParamHistory (EditFloat3 F) (Vector3 F) :=
  ParamHistory.mk2 valueRef value e

end EditFloat3

namespace EditFloat4

variable {F : Type}

/-- `&m_Value` -/
def valueRef : Ref (EditFloat4 F) (Vector4 F) where
  read := fun e => e.m_Value
  write := fun v e => { e with m_Value := v }

/-- `const asdx::Vector4& EditFloat4::GetValue() const { return m_Value; }` -/
def GetValue (e : EditFloat4 F) : Vector4 F := e.m_Value

/-- `EditFloat4::CreateHistory`:
`new ParamHistory<asdx::Vector4>(&m_Value, value)`. -/
def CreateHistory (e : EditFloat4 F) (value : Vector4 F) :
    ParamHistory (EditFloat4 F) (Vector4 F) :=
  ParamHistory.mk2 valueRef value e

end EditFloat4

namespace EditColor3

variable {F : Type}

/-- `&m_Value` -/
def valueRef : Ref (EditColor3 F) (Vector3 F) where
  read := fun e => e.m_Value
  write := fun v e => { e with m_Value := v }

/-- `const asdx::Vector3& EditColor3::GetValue() const { return m_Value; }` -/
def GetValue (e : EditColor3 F) : Vector3 F := e.m_Value

/-- `EditColor3::CreateHistory`:
`new ParamHistory<asdx::Vector3>(&m_Value, value)`. -/
def CreateHistory (e : EditColor3 F) (value : Vector3 F) :
    ParamHistory (EditColor3 F) (Vector3 F) :=
  ParamHistory.mk2 valueRef value e

end EditColor3

namespace EditColor4

variable {F : Type}

/-- `&m_Value` -/
def valueRef : Ref (EditColor4 F) (Vector4 F) where
  read := fun e => e.m_Value
  write := fun v e => { e with m_Value := v }

/-- `const asdx::Vector4& EditColor4::GetValue() const { return m_Value; }` -/
def GetValue (e : EditColor4 F) : Vector4 F := e.m_Value

/-- `EditColor4::CreateHistory`:
`new ParamHistory<asdx::Vector4>(&m_Value, value)`. -/
def CreateHistory (e : EditColor4 F) (value : Vector4 F) :
    ParamHistory (EditColor4 F) (Vector4 F) :=
  ParamHistory.mk2 valueRef value e

end EditColor4

namespace EditBit32

/-- `&m_Value` -/
def valueRef : Ref EditBit32 Nat where
  read := fun e => e.m_Value
  write := fun v e => { e with m_Value := v }

/-- `uint32_t EditBit32::GetValue() const { return m_Value; }` -/
def GetValue (e : EditBit32) : Nat := e.m_Value

/-- `EditBit32::CreateHistory`:
`new ParamHistory<uint32_t>(&m_Value, m_Value, value)`. -/
def CreateHistory (e : EditBit32) (value : Nat) : ParamHistory EditBit32 Nat :=
  ParamHistory.mk3 valueRef e.m_Value value

end EditBit32

/-! ## asdxApp.cpp : `Application::Present` -/

/-- `HRESULT`, as its 32-bit pattern. -/
abbrev HRESULT := Nat

/-- `S_OK` (winerror.h) -/
def S_OK : HRESULT := 0
/-- `DXGI_STATUS_OCCLUDED` (winerror.h) -/
def DXGI_STATUS_OCCLUDED : HRESULT := 0x087A0001
/-- `DXGI_ERROR_DEVICE_REMOVED` (winerror.h) -/
def DXGI_ERROR_DEVICE_REMOVED : HRESULT := 0x887A0005
/-- `DXGI_ERROR_DEVICE_RESET` (winerror.h) -/
def DXGI_ERROR_DEVICE_RESET : HRESULT := 0x887A0007
/-- `DXGI_PRESENT_TEST` (dxgi.h) -/
def DXGI_PRESENT_TEST : Nat := 1

/-- What `Application::Present` does to the outside world. -/
inductive AppEffect where
  /-- `pSwapChain->Present(syncInterval, flags)`; `onSwapChain4` tells which
  of the two swap chain interfaces received the call. -/
  | present (onSwapChain4 : Bool) (syncInterval flags : Nat)
  /-- `ELOG(...)` -/
  | elog (message : String)
  /-- `MessageBoxW(m_hWnd, text, caption, MB_OK | MB_ICONERROR)` -/
  | messageBox (text caption : String)
  /-- `PostQuitMessage(exitCode)` -/
  | postQuitMessage (exitCode : Int)
  deriving DecidableEq, Repr

/-- The members of `Application` that `Present` reads or writes. -/
structure Application where
  /-- `m_pSwapChain4.GetPtr()` is not null. -/
  hasSwapChain4 : Bool
  /-- `bool m_IsStandbyMode` -/
  m_IsStandbyMode : Bool
  deriving DecidableEq, Repr

namespace Application

/-- `bool Application::IsStandByMode() const { return m_IsStandbyMode; }` -/
def IsStandByMode (app : Application) : Bool := app.m_IsStandbyMode

/-- `void Application::Present(uint32_t syncInterval)`.
`swapChain syncInterval flags` is the `HRESULT` that `IDXGISwapChain::Present`
returns for the call. The result is the application after the call and the
effects in program order. -/
def Present (swapChain : Nat → Nat → HRESULT) (syncInterval : Nat)
    (app : Application) : Application × List AppEffect :=
  let pSwapChain := app.hasSwapChain4
  if app.m_IsStandbyMode then
    let hr := swapChain syncInterval DXGI_PRESENT_TEST
    let app1 := if hr = S_OK then { app with m_IsStandbyMode := false } else app
    (app1, [AppEffect.present pSwapChain syncInterval DXGI_PRESENT_TEST])
  else
    let hr := swapChain syncInterval 0
    let presented := [AppEffect.present pSwapChain syncInterval 0]
    if hr = DXGI_ERROR_DEVICE_RESET then
      (app, presented ++
        [AppEffect.elog
          "Fatal Error : IDXGISwapChain::Present() Failed. ErrorCode = DXGI_ERROR_DEVICE_RESET.",
         AppEffect.messageBox "A Fatal Error Occured. Shutting down." "FATAL ERROR",
         AppEffect.postQuitMessage 1])
    else if hr = DXGI_ERROR_DEVICE_REMOVED then
      (app, presented ++
        [AppEffect.elog
          "Fatal Error : IDXGISwapChain::Present() Failed. ErrorCode = DXGI_ERROR_DEVICE_REMOVED.",
         AppEffect.messageBox "A Fatal Error Occured. Shutting down." "FATAL ERROR",
         AppEffect.postQuitMessage 2])
    else if hr = DXGI_STATUS_OCCLUDED then
      ({ app with m_IsStandbyMode := true }, presented)
    else if hr = S_OK then
      (app, presented)
    else
      (app, presented)

end Application

/-- The calls to `IDXGISwapChain::Present` among the effects, as
`(syncInterval, flags)`. -/
def presentCalls : List AppEffect → List (Nat × Nat)
  | [] => []
  | AppEffect.present _ i f :: es => (i, f) :: presentCalls es
  | _ :: es => presentCalls es

/-- The exit codes passed to `PostQuitMessage` among the effects. -/
def quitCodes : List AppEffect → List Int
  | [] => []
  | AppEffect.postQuitMessage c :: es => c :: quitCodes es
  | _ :: es => quitCodes es

/-! ## asdxSound.cpp : `SndMgr` -/

/-- `std::map<uint32_t, V>`: a partial function on the keys. -/
abbrev Map (V : Type) := Nat → Option V

namespace Map

variable {V : Type}

/-- `m.find(k)`; `none` stands for `m.end()`. -/
def find (m : Map V) (k : Nat) : Option V := m k

/-- `m[k] = v` -/
def insert (m : Map V) (k : Nat) (v : V) : Map V :=
  fun j => if j = k then some v else m j

/-- `m.erase(k)` -/
def erase (m : Map V) (k : Nat) : Map V :=
  fun j => if j = k then none else m j

/-- The map after evaluating `m[k]`: `operator[]` inserts the
value-initialised `zero` when `k` is absent. -/
def touch (m : Map V) (zero : V) (k : Nat) : Map V :=
  match m k with
  | some _ => m
  | none => m.insert k zero

/-- The element `m[k]` refers to. -/
def index (m : Map V) (zero : V) (k : Nat) : V :=
  match m k with
  | some v => v
  | none => zero

end Map

/-- `enum SndState` (asdxSound.h), with the enumerators asdxSound.cpp names. -/
inductive SndState where
  | Error
  | Stop
  | Play
  | Pause
  | Done
  deriving DecidableEq, Repr

/-- `MCIERROR` -/
abbrev MCIERROR := Nat

/-- `MCI_NOTIFY_SUCCESSFUL` (mmsystem.h) -/
def MCI_NOTIFY_SUCCESSFUL : Nat := 0x0001
/-- `MCI_NOTIFY_FAILURE` (mmsystem.h) -/
def MCI_NOTIFY_FAILURE : Nat := 0x0008

/-- `SndMgr::Status` (asdxSound.h), with the fields asdxSound.cpp uses. The
loop counts receive `int loopCount` and are compared with `-1`. -/
structure Status where
  DeviceId : Nat
  State : SndState
  CurLoopCount : Int
  MaxLoopCount : Int
  deriving DecidableEq, Repr

/-- A value-initialised `Status` (what `m_Status[key]` inserts for an absent
key): every field zero. `zeroState` is the `SndState` whose value is 0; the
enumerator values are in asdxSound.h. -/
def Status.zero (zeroState : SndState) : Status where
  DeviceId := 0
  State := zeroState
  CurLoopCount := 0
  MaxLoopCount := 0

/-- An `int` after an arithmetic step, in two-complement 32-bit wrap-around. -/
def wrapInt32 (x : Int) : Int := (x + 2 ^ 31) % 2 ^ 32 - 2 ^ 31

/-- The `lpstrDeviceType` of an `MCI_OPEN`. -/
inductive MciDeviceType where
  /-- `(LPCSTR)MCI_DEVTYPE_WAVEFORM_AUDIO` -/
  | waveformAudio
  /-- `(LPCSTR)MCI_DEVTYPE_SEQUENCER` -/
  | sequencer
  /-- `"MPEGVideo"` -/
  | mpegVideo
  deriving DecidableEq, Repr

/-- One `mciSendCommand` call of asdxSound.cpp. -/
inductive MciCommand where
  /-- `mciSendCommandA(0, MCI_OPEN, MCI_OPEN_TYPE | MCI_OPEN_ELEMENT, &param)`,
  with `MCI_OPEN_TYPE_ID` among the flags when `typeId`. -/
  | MCI_OPEN (deviceType : MciDeviceType) (typeId : Bool) (elementName : String)
  /-- `mciSendCommandW(device, MCI_CLOSE, 0, 0)` -/
  | MCI_CLOSE (device : Nat)
  /-- `mciSendCommandW(device, MCI_PLAY, MCI_NOTIFY, &param)` with
  `param.dwCallback = callback` -/
  | MCI_PLAY (device : Nat) (callback : Nat)
  /-- `mciSendCommandW(device, MCI_STOP, 0, 0)` -/
  | MCI_STOP (device : Nat)
  /-- `mciSendCommandW(device, MCI_SEEK, MCI_SEEK_TO_START, 0)` -/
  | MCI_SEEK (device : Nat)
  /-- `mciSendCommandW(device, MCI_PAUSE, 0, 0)` -/
  | MCI_PAUSE (device : Nat)
  /-- `mciSendCommandW(device, MCI_RESUME, 0, 0)` -/
  | MCI_RESUME (device : Nat)
  deriving DecidableEq, Repr

/-- The answers of MCI to the commands of one call: the return value of
`mciSendCommand`, and the `wDeviceID` it writes into the parameters of an
`MCI_OPEN`. -/
structure MciDriver where
  send : MciCommand → MCIERROR
  wDeviceID : MciCommand → Nat

/-- What the sound manager does to the outside world. -/
inductive SndEffect where
  /-- A command sent with `mciSendCommand`. -/
  | mci (command : MciCommand)
  /-- The `mciGetErrorStringA` / `ELOGA` of `ShowError` for a non-zero code. -/
  | errorLog (ret : MCIERROR)
  deriving DecidableEq, Repr

/-- `void ShowError(uint32_t ret)`: nothing for 0, an error log otherwise. -/
def ShowError (ret : MCIERROR) : List SndEffect :=
  if ret = 0 then [] else [SndEffect.errorLog ret]

/-- `class SndMgr` -/
structure SndMgr where
  /-- `std::map<uint32_t, Status> m_Status` -/
  m_Status : Map Status
  /-- `std::map<uint32_t, uint32_t> m_UserIds` -/
  m_UserIds : Map Nat
  /-- `HWND m_Handle` -/
  m_Handle : Nat

namespace SndMgr

/-- The manager after `m_Status[id]` has been evaluated. -/
def touchStatus (zeroState : SndState) (s : SndMgr) (id : Nat) : SndMgr :=
  { s with m_Status := s.m_Status.touch (Status.zero zeroState) id }

/-- The `Status` that `m_Status[id]` refers to. -/
def statusAt (zeroState : SndState) (s : SndMgr) (id : Nat) : Status :=
  s.m_Status.index (Status.zero zeroState) id

/-- An assignment `m_Status[id].field = ...`, given as the update `f` of the
element. -/
def setStatus (zeroState : SndState) (s : SndMgr) (id : Nat)
    (f : Status → Status) : SndMgr :=
  { s with m_Status := s.m_Status.insert id (f (statusAt zeroState s id)) }

/-- The `MCI_OPEN` that `SndMgr::Open` sends for a file with extension
`ext`, or `none` in the final `else { return false; }`. -/
def openCommand (ext filename : String) : Option MciCommand :=
  if ext = "wave" ∨ ext = "wav" then
    some (MciCommand.MCI_OPEN MciDeviceType.waveformAudio true filename)
  else if ext = "midi" ∨ ext = "mid" then
    some (MciCommand.MCI_OPEN MciDeviceType.sequencer true filename)
  else if ext = "mp3" then
    some (MciCommand.MCI_OPEN MciDeviceType.mpegVideo false filename)
  else
    none

/-- `bool SndMgr::Open(uint32_t id, const char* filename)`. `GetExtA` is
the helper of asdxMisc.h that yields the extension of a path; a null
`filename` is `none`. -/
def Open (GetExtA : String → String) (mci : MciDriver) (id : Nat)
    (filename : Option String) (s : SndMgr) : Bool × SndMgr × List SndEffect :=
  match filename with
  | none => (false, s, [])
  | some filename =>
    match s.m_Status.find id with
    | some _ => (false, s, [])
    | none =>
      match openCommand (GetExtA filename) filename with
      | none => (false, s, [])
      | some command =>
        let ret := mci.send command
        if ret ≠ 0 then
          (false, s, SndEffect.mci command :: ShowError ret)
        else
          let status : Status :=
            { CurLoopCount := 0
              MaxLoopCount := 0
              State := SndState.Stop
              DeviceId := mci.wDeviceID command }
          (true,
           { s with
             m_Status := s.m_Status.insert id status
             m_UserIds := s.m_UserIds.insert status.DeviceId id },
           [SndEffect.mci command])

/-- `void SndMgr::Close(uint32_t id)` -/
def Close (zeroState : SndState) (mci : MciDriver) (id : Nat) (s : SndMgr) :
    SndMgr × List SndEffect :=
  match s.m_Status.find id with
  | none => (s, [])
  | some _ =>
    let s := touchStatus zeroState s id
    let command := MciCommand.MCI_CLOSE (statusAt zeroState s id).DeviceId
    let ret := mci.send command
    let s := touchStatus zeroState s id
    let s := { s with m_UserIds := s.m_UserIds.erase (statusAt zeroState s id).DeviceId }
    let s := { s with m_Status := s.m_Status.erase id }
    (s, SndEffect.mci command :: ShowError ret)

/-- `void SndMgr::Play(uint32_t id, int loopCount)` -/
def Play (zeroState : SndState) (mci : MciDriver) (id : Nat) (loopCount : Int)
    (s : SndMgr) : SndMgr × List SndEffect :=
  match s.m_Status.find id with
  | none => (s, [])
  | some _ =>
    let s := touchStatus zeroState s id
    let command := MciCommand.MCI_PLAY (statusAt zeroState s id).DeviceId s.m_Handle
    let ret := mci.send command
    let s :=
      if ret = 0 then
        let s := setStatus zeroState s id (fun st => { st with State := SndState.Play })
        let s := setStatus zeroState s id (fun st => { st with MaxLoopCount := loopCount })
        setStatus zeroState s id (fun st => { st with CurLoopCount := 0 })
      else s
    (s, SndEffect.mci command :: ShowError ret)

/-- `void SndMgr::Stop(uint32_t id)` -/
def Stop (zeroState : SndState) (mci : MciDriver) (id : Nat) (s : SndMgr) :
    SndMgr × List SndEffect :=
  match s.m_Status.find id with
  | none => (s, [])
  | some _ =>
    let s := touchStatus zeroState s id
    let stop := MciCommand.MCI_STOP (statusAt zeroState s id).DeviceId
    let ret := mci.send stop
    let s :=
      if ret = 0 then
        setStatus zeroState s id (fun st => { st with State := SndState.Stop })
      else s
    let log1 := if ret ≠ 0 then ShowError ret else []
    let s := touchStatus zeroState s id
    let seek := MciCommand.MCI_SEEK (statusAt zeroState s id).DeviceId
    let ret := mci.send seek
    (s, SndEffect.mci stop :: log1 ++ SndEffect.mci seek :: ShowError ret)

/-- `void SndMgr::Pause(uint32_t id)` -/
def Pause (zeroState : SndState) (mci : MciDriver) (id : Nat) (s : SndMgr) :
    SndMgr × List SndEffect :=
  match s.m_Status.find id with
  | none => (s, [])
  | some _ =>
    let s := touchStatus zeroState s id
    let command := MciCommand.MCI_PAUSE (statusAt zeroState s id).DeviceId
    let ret := mci.send command
    let s :=
      if ret = 0 then
        setStatus zeroState s id (fun st => { st with State := SndState.Pause })
      else s
    (s, SndEffect.mci command :: ShowError ret)

/-- `void SndMgr::Resume(uint32_t id)` -/
def Resume (zeroState : SndState) (mci : MciDriver) (id : Nat) (s : SndMgr) :
    SndMgr × List SndEffect :=
  match s.m_Status.find id with
  | none => (s, [])
  | some _ =>
    let s := touchStatus zeroState s id
    let command := MciCommand.MCI_RESUME (statusAt zeroState s id).DeviceId
    let ret := mci.send command
    let s :=
      if ret = 0 then
        setStatus zeroState s id (fun st => { st with State := SndState.Play })
      else s
    (s, SndEffect.mci command :: ShowError ret)

/-- `SndState SndMgr::GetState(uint32_t id)`; the method is not `const`, so
the manager after the call is returned as well. -/
def GetState (zeroState : SndState) (id : Nat) (s : SndMgr) : SndState × SndMgr :=
  match s.m_Status.find id with
  | none => (SndState.Error, s)
  | some _ =>
    let s := touchStatus zeroState s id
    ((statusAt zeroState s id).State, s)

/-- `void SndMgr::SetHandle(HWND handle) { m_Handle = handle; }` -/
def SetHandle (handle : Nat) (s : SndMgr) : SndMgr :=
  { s with m_Handle := handle }

/-- `void SndMgr::OnNofity(uint32_t id, uint32_t param)`; `id` is the MCI
device id of the notification. The return value of the `MCI_SEEK` is not
looked at. -/
def OnNofity (zeroState : SndState) (mci : MciDriver) (id param : Nat)
    (s : SndMgr) : SndMgr × List SndEffect :=
  match s.m_UserIds.find id with
  | none => (s, [])
  | some key =>
    if param = MCI_NOTIFY_SUCCESSFUL then
      let s := touchStatus zeroState s key
      let seek := MciCommand.MCI_SEEK (statusAt zeroState s key).DeviceId
      let s := setStatus zeroState s key
        (fun st => { st with CurLoopCount := wrapInt32 (st.CurLoopCount + 1) })
      if (statusAt zeroState s key).CurLoopCount < (statusAt zeroState s key).MaxLoopCount
          ∨ (statusAt zeroState s key).MaxLoopCount = -1 then
        let play := MciCommand.MCI_PLAY (statusAt zeroState s key).DeviceId s.m_Handle
        let ret := mci.send play
        let s :=
          if ret = 0 then
            setStatus zeroState s key (fun st => { st with State := SndState.Play })
          else s
        (s, SndEffect.mci seek :: SndEffect.mci play :: ShowError ret)
      else
        (setStatus zeroState s key (fun st => { st with State := SndState.Done }),
         [SndEffect.mci seek])
    else if param = MCI_NOTIFY_FAILURE then
      (setStatus zeroState s key (fun st => { st with State := SndState.Error }), [])
    else
      (s, [])

/-- The first `k` notifications `OnNofity(device, MCI_NOTIFY_SUCCESSFUL)`
in a row: the manager after them and all their effects in order. -/
def notifySuccessful (zeroState : SndState) (mci : MciDriver) (device : Nat) :
    Nat → SndMgr → SndMgr × List SndEffect
  | 0, s => (s, [])
  | k + 1, s =>
    let before := notifySuccessful zeroState mci device k s
    let last := OnNofity zeroState mci device MCI_NOTIFY_SUCCESSFUL before.1
    (last.1, before.2 ++ last.2)

end SndMgr

/-- The number of `MCI_PLAY` commands among the effects. -/
def playCount : List SndEffect → Nat
  | [] => 0
  | SndEffect.mci (MciCommand.MCI_PLAY _ _) :: es => playCount es + 1
  | _ :: es => playCount es

/-- The MCI commands among the effects. -/
def mciCommands : List SndEffect → List MciCommand
  | [] => []
  | SndEffect.mci c :: es => c :: mciCommands es
  | _ :: es => mciCommands es

/-- An MCI that accepts every command and hands out device id 42. -/
def mciAlwaysOk : MciDriver where
  send := fun _ => 0
  wDeviceID := fun _ => 42

/-- A manager in which nothing is registered. -/
def SndMgr.empty : SndMgr where
  m_Status := fun _ => none
  m_UserIds := fun _ => none
  m_Handle := 0

/-- The manager after `Open(7, "a.wav")` on the empty manager, with an MCI
that accepts the file. -/
def SndMgr.opened7 : SndMgr :=
  (SndMgr.Open (fun _ => "wav") mciAlwaysOk 7 (some "a.wav") SndMgr.empty).2.1

/-! ## asdxPipelineState.h / asdxPipelineState.cpp : `GetDepthStencilDesc` -/

/-- `enum DepthState` (asdxPipelineState.h). The header documents
`Default` as depth test on, depth write on; `ReadOnly` as test on, write
off; `WriteOnly` as test off, write on; `None` as test off, write off. -/
inductive DepthState where
  | Default
  | ReadOnly
  | WriteOnly
  | None
  | NumDepthType
  deriving DecidableEq, Repr

/-- `D3D11_COMPARISON_FUNC` (d3d11.h) -/
inductive D3D11_COMPARISON_FUNC where
  | D3D11_COMPARISON_NEVER
  | D3D11_COMPARISON_LESS
  | D3D11_COMPARISON_EQUAL
  | D3D11_COMPARISON_LESS_EQUAL
  | D3D11_COMPARISON_GREATER
  | D3D11_COMPARISON_NOT_EQUAL
  | D3D11_COMPARISON_GREATER_EQUAL
  | D3D11_COMPARISON_ALWAYS
  deriving DecidableEq, Repr

/-- `D3D11_DEPTH_WRITE_MASK` (d3d11.h) -/
inductive D3D11_DEPTH_WRITE_MASK where
  | D3D11_DEPTH_WRITE_MASK_ZERO
  | D3D11_DEPTH_WRITE_MASK_ALL
  deriving DecidableEq, Repr

/-- `D3D11_STENCIL_OP` (d3d11.h) -/
inductive D3D11_STENCIL_OP where
  | D3D11_STENCIL_OP_KEEP
  | D3D11_STENCIL_OP_ZERO
  | D3D11_STENCIL_OP_REPLACE
  | D3D11_STENCIL_OP_INCR_SAT
  | D3D11_STENCIL_OP_DECR_SAT
  | D3D11_STENCIL_OP_INVERT
  | D3D11_STENCIL_OP_INCR
  | D3D11_STENCIL_OP_DECR
  deriving DecidableEq, Repr

/-- `D3D11_DEPTH_STENCILOP_DESC` (d3d11.h) -/
structure D3D11_DEPTH_STENCILOP_DESC where
  StencilFailOp : D3D11_STENCIL_OP
  StencilDepthFailOp : D3D11_STENCIL_OP
  StencilPassOp : D3D11_STENCIL_OP
  StencilFunc : D3D11_COMPARISON_FUNC
  deriving DecidableEq, Repr

/-- `D3D11_DEPTH_STENCIL_DESC` (d3d11.h); `BOOL` fields are `Bool` with
`TRUE = true`. -/
structure D3D11_DEPTH_STENCIL_DESC where
  DepthEnable : Bool
  DepthWriteMask : D3D11_DEPTH_WRITE_MASK
  DepthFunc : D3D11_COMPARISON_FUNC
  StencilEnable : Bool
  StencilReadMask : Nat
  StencilWriteMask : Nat
  FrontFace : D3D11_DEPTH_STENCILOP_DESC
  BackFace : D3D11_DEPTH_STENCILOP_DESC
  deriving DecidableEq, Repr

/-- `D3D11_DEFAULT_STENCIL_READ_MASK` (d3d11.h) -/
def D3D11_DEFAULT_STENCIL_READ_MASK : Nat := 0xff
/-- `D3D11_DEFAULT_STENCIL_WRITE_MASK` (d3d11.h) -/
def D3D11_DEFAULT_STENCIL_WRITE_MASK : Nat := 0xff

/-- `D3D11_DEPTH_STENCIL_DESC GetDepthStencilDesc(DepthState type,
D3D11_COMPARISON_FUNC compare)`. The `switch` sets `depthEnable` and
`depthWriteMask`; its `default:` label shares the `Default` case. -/
def GetDepthStencilDesc (type : DepthState) (compare : D3D11_COMPARISON_FUNC) :
    D3D11_DEPTH_STENCIL_DESC :=
  let sw : Bool × D3D11_DEPTH_WRITE_MASK :=
    match type with
    | DepthState.None => (false, D3D11_DEPTH_WRITE_MASK.D3D11_DEPTH_WRITE_MASK_ZERO)
    | DepthState.ReadOnly => (true, D3D11_DEPTH_WRITE_MASK.D3D11_DEPTH_WRITE_MASK_ZERO)
    | DepthState.WriteOnly => (false, D3D11_DEPTH_WRITE_MASK.D3D11_DEPTH_WRITE_MASK_ZERO)
    | _ => (true, D3D11_DEPTH_WRITE_MASK.D3D11_DEPTH_WRITE_MASK_ALL)
  let depthEnable := sw.1
  let depthWriteMask := sw.2
  let frontFace : D3D11_DEPTH_STENCILOP_DESC :=
    { StencilFailOp := D3D11_STENCIL_OP.D3D11_STENCIL_OP_KEEP
      StencilDepthFailOp := D3D11_STENCIL_OP.D3D11_STENCIL_OP_KEEP
      StencilPassOp := D3D11_STENCIL_OP.D3D11_STENCIL_OP_KEEP
      StencilFunc := D3D11_COMPARISON_FUNC.D3D11_COMPARISON_ALWAYS }
  { DepthEnable := depthEnable
    DepthWriteMask := depthWriteMask
    DepthFunc := compare
    StencilEnable := false
    StencilReadMask := D3D11_DEFAULT_STENCIL_READ_MASK
    StencilWriteMask := D3D11_DEFAULT_STENCIL_WRITE_MASK
    FrontFace := frontFace
    BackFace := frontFace }

/-! ## asdxCamera.h / asdxCamera.cpp : `Camera`

`float` is an ordered field `F`. The functions of `<cmath>` and the constant
`F_PI` are the fields of a `FloatFns F`; the distance theorems take
`sqrtf` to be the real square root and leave the others arbitrary. -/

/-- The `<cmath>` functions and the constant `asdx::F_PI` used by the
camera. -/
structure FloatFns (F : Type) where
  sqrtf : F → F
  sinf : F → F
  cosf : F → F
  asinf : F → F
  F_PI : F

section CameraModel

variable {F : Type} [LinearOrderedField F]

/-- `FLT_EPSILON` (`<cfloat>`): 2^-23. -/
def FLT_EPSILON : F := 1 / 8388608

namespace Vector2

/-- Modelled from the spec: asdxMath.h is not among the sources;
`Vector2::operator+=` is the componentwise sum. -/
def add (a b : Vector2 F) : Vector2 F := ⟨a.x + b.x, a.y + b.y⟩

end Vector2

namespace Vector3

/-- Modelled from the spec: asdxMath.h is not among the sources;
`Vector3::operator+` is the componentwise sum. -/
def add (a b : Vector3 F) : Vector3 F := ⟨a.x + b.x, a.y + b.y, a.z + b.z⟩

/-- Modelled from the spec: asdxMath.h is not among the sources;
`Vector3::operator-` is the componentwise difference. -/
def sub (a b : Vector3 F) : Vector3 F := ⟨a.x - b.x, a.y - b.y, a.z - b.z⟩

/-- Modelled from the spec: asdxMath.h is not among the sources;
`Vector3 * float` scales every component. -/
def scale (a : Vector3 F) (k : F) : Vector3 F := ⟨a.x * k, a.y * k, a.z * k⟩

/-- Modelled from the spec: asdxMath.h is not among the sources;
`Vector3::LengthSq()` is the squared Euclidean length. -/
def LengthSq (a : Vector3 F) : F := a.x * a.x + a.y * a.y + a.z * a.z

/-- Modelled from the spec: asdxMath.h is not among the sources;
`Vector3::Length()` is the Euclidean length. -/
def Length (m : FloatFns F) (a : Vector3 F) : F := m.sqrtf (LengthSq a)

/-- Modelled from the spec: asdxMath.h is not among the sources;
`Vector3::Normalize()` divides every component by the length. -/
def Normalize (m : FloatFns F) (a : Vector3 F) : Vector3 F :=
  ⟨a.x / Length m a, a.y / Length m a, a.z / Length m a⟩

/-- Modelled from the spec: asdxMath.h is not among the sources;
`Vector3::Distance(a, b)` is the Euclidean distance between the points, the
distance the camera range is about. -/
def Distance (m : FloatFns F) (a b : Vector3 F) : F := Length m (sub a b)

end Vector3

/-- `struct CameraEvent` -/
structure CameraEvent (F : Type) where
  Rotate : Vector2 F
  PanTilt : Vector2 F
  Truck : Vector3 F
  Twist : F
  Dolly : F
  Flags : Nat

/-- `CameraEvent::EVENT_ROTATE` -/
def EVENT_ROTATE : Nat := 0x000001 <<< 0
/-- `CameraEvent::EVENT_DOLLY` -/
def EVENT_DOLLY : Nat := 0x000001 <<< 1
/-- `CameraEvent::EVENT_TRUCK` -/
def EVENT_TRUCK : Nat := 0x000001 <<< 2
/-- `CameraEvent::EVENT_TWIST` -/
def EVENT_TWIST : Nat := 0x000001 <<< 3
/-- `CameraEvent::EVENT_PANTILT` -/
def EVENT_PANTILT : Nat := 0x000001 <<< 4
/-- `CameraEvent::EVENT_RESET` -/
def EVENT_RESET : Nat := 0x000001 <<< 5

/-- `struct Camera::Param` -/
structure Param (F : Type) where
  Position : Vector3 F
  Target : Vector3 F
  Upward : Vector3 F
  Rotate : Vector2 F
  PanTilt : Vector2 F
  Twist : F
  MinDist : F
  MaxDist : F

/-- `class Camera`: the parameters `m_Param` and `m_Preset`. The view matrix
`m_View` is written by `Update()` alone, which reads `m_Param` and changes
nothing else; it is left out, and `Update()` is the identity here. -/
structure Camera (F : Type) where
  m_Param : Param F
  m_Preset : Param F

/-- `static inline float GetAngle(float sin, float cos)` -/
def GetAngle (m : FloatFns F) (sin cos : F) : F :=
  let angle := m.asinf sin
  if cos < FLT_EPSILON then m.F_PI - angle else angle

/-- `static inline void ToAngle(const Vector3& dir, Vector2& angle)`; the
result is the new `angle`. -/
def ToAngle (m : FloatFns F) (dir : Vector3 F) : Vector2 F :=
  let v1 : Vector3 F := ⟨-dir.x, 0, -dir.z⟩
  let v2 := Vector3.Normalize m v1
  let angleX := GetAngle m v2.x v2.z
  let dist := Vector3.Length m v1
  let v1 : Vector3 F := ⟨dist, -dir.y, 0⟩
  let v2 := Vector3.Normalize m v1
  let angleY := GetAngle m v2.y v2.x
  ⟨angleX, angleY⟩

/-- `static inline void ToVector(const Vector2& angle, Vector3* pLookDir,
Vector3* pUpward)`; the result is `(*pLookDir, *pUpward)`. -/
def ToVector (m : FloatFns F) (angle : Vector2 F) : Vector3 F × Vector3 F :=
  let sinH := m.sinf angle.x
  let cosH := m.cosf angle.x
  let sinV := m.sinf angle.y
  let cosV := m.cosf angle.y
  (⟨-cosV * sinH, -sinV, -cosV * cosH⟩, ⟨-sinV * sinH, cosV, -sinV * cosH⟩)

namespace Camera

/-- `void Camera::ComputePosition()` -/
def ComputePosition (m : FloatFns F) (p : Param F) : Param F :=
  let dist := Vector3.Distance m p.Position p.Target
  let lookDir := (ToVector m p.Rotate).1
  let upward := (ToVector m p.Rotate).2
  { p with
    Position := ⟨p.Target.x + dist * lookDir.x, p.Target.y + dist * lookDir.y,
      p.Target.z + dist * lookDir.z⟩
    Upward := upward }

/-- `void Camera::ComputeTarget()` -/
def ComputeTarget (m : FloatFns F) (p : Param F) : Param F :=
  let dist := Vector3.Distance m p.Target p.Position
  let lookDir := (ToVector m p.PanTilt).1
  let upward := (ToVector m p.PanTilt).2
  { p with
    Target := ⟨p.Position.x - dist * lookDir.x, p.Position.y - dist * lookDir.y,
      p.Position.z - dist * lookDir.z⟩
    Upward := upward }

/-- `void Camera::ComputeAngle()` -/
def ComputeAngle (m : FloatFns F) (p : Param F) : Param F :=
  let dir := Vector3.Normalize m (Vector3.sub p.Position p.Target)
  let p : Param F := { p with Rotate := ToAngle m dir }
  let p : Param F := { p with PanTilt := ToAngle m dir }
  let upward := (ToVector m p.Rotate).2
  let p : Param F := { p with Upward := upward }
  let p : Param F := ComputePosition m p
  ComputeTarget m p

/-- `void Camera::ClampDist()` -/
def ClampDist (m : FloatFns F) (p : Param F) : Param F :=
  let dist := Vector3.Distance m p.Position p.Target
  let dir := Vector3.sub p.Position p.Target
  -- if ( dist > m_Param.MaxDist )
  let dir1 :=
    if dist > p.MaxDist then
      (if Vector3.LengthSq dir > FLT_EPSILON then Vector3.Normalize m dir else dir)
    else dir
  let p1 :=
    if dist > p.MaxDist then
      { p with Position := Vector3.add p.Target (Vector3.scale dir1 p.MaxDist) }
    else p
  -- if ( dist < m_Param.MinDist )
  let dir2 :=
    if dist < p1.MinDist then
      (if Vector3.LengthSq dir1 > FLT_EPSILON then Vector3.Normalize m dir1 else dir1)
    else dir1
  if dist < p1.MinDist then
    { p1 with Position := Vector3.add p1.Target (Vector3.scale dir2 p1.MinDist) }
  else p1

/-- `void Camera::SetPosition(const Vector3& position)` -/
def SetPosition (m : FloatFns F) (position : Vector3 F) (c : Camera F) : Camera F :=
  { c with m_Param := (ComputeAngle m (ClampDist m { c.m_Param with Position := position })) }

/-- `void Camera::SetTarget(const Vector3& target)` -/
def SetTarget (m : FloatFns F) (target : Vector3 F) (c : Camera F) : Camera F :=
  { c with m_Param := (ComputeAngle m (ClampDist m { c.m_Param with Target := target })) }

/-- `void Camera::SetRange(const float minDist, const float maxDist)` -/
def SetRange (m : FloatFns F) (minDist maxDist : F) (c : Camera F) : Camera F :=
  { c with m_Param := (ComputeAngle m
      (ClampDist m { c.m_Param with MinDist := minDist, MaxDist := maxDist })) }

/-- `void Camera::Preset() { m_Preset = m_Param; }` -/
def Preset (c : Camera F) : Camera F := { c with m_Preset := c.m_Param }

/-- `void Camera::Reset()` -/
def Reset (m : FloatFns F) (c : Camera F) : Camera F :=
  { c with m_Param := ComputeAngle m (ClampDist m c.m_Preset) }

/-- `void Camera::UpdateByEvent(const CameraEvent& camEvent)`. The final
`if (isProcess) Update();` writes the view matrix only. -/
def UpdateByEvent (m : FloatFns F) (camEvent : CameraEvent F) (c : Camera F) :
    Camera F :=
  -- EVENT_ROTATE
  let c : Camera F :=
    if camEvent.Flags &&& EVENT_ROTATE ≠ 0 then
      let p : Param F := c.m_Param
      let p : Param F := { p with Rotate := Vector2.add p.Rotate camEvent.Rotate }
      let p : Param F := if p.Rotate.y > 1564 / 1000 then
        { p with Rotate := ⟨p.Rotate.x, 1564 / 1000⟩ } else p
      let p : Param F := if p.Rotate.y < -(1564 / 1000) then
        { p with Rotate := ⟨p.Rotate.x, -(1564 / 1000)⟩ } else p
      let p : Param F := ComputePosition m p
      let dir := Vector3.Normalize m (Vector3.sub p.Position p.Target)
      let p : Param F := { p with Rotate := ToAngle m dir }
      let p : Param F := { p with PanTilt := ToAngle m dir }
      { c with m_Param := p }
    else c
  -- EVENT_DOLLY
  let c : Camera F :=
    if camEvent.Flags &&& EVENT_DOLLY ≠ 0 then
      let p : Param F := c.m_Param
      let dir := Vector3.sub p.Position p.Target
      let dist := Vector3.Distance m p.Position p.Target
      let dir :=
        if dist > FLT_EPSILON then
          let invDist := 1 / dist
          (⟨dir.x * invDist, dir.y * invDist, dir.z * invDist⟩ : Vector3 F)
        else dir
      let dist := dist + camEvent.Dolly
      let dist := if p.MinDist > dist then p.MinDist else dist
      let dist := if p.MaxDist < dist then p.MaxDist else dist
      let p : Param F :=
        { p with Position := Vector3.add p.Target (Vector3.scale dir dist) }
      { c with m_Param := p }
    else c
  -- EVENT_TRUCK
  let c : Camera F :=
    if camEvent.Flags &&& EVENT_TRUCK ≠ 0 then
      let p : Param F := c.m_Param
      let p : Param F := { p with Position := Vector3.add p.Position camEvent.Truck }
      let p : Param F := { p with Target := Vector3.add p.Target camEvent.Truck }
      { c with m_Param := p }
    else c
  -- EVENT_PANTILT
  let c : Camera F :=
    if camEvent.Flags &&& EVENT_PANTILT ≠ 0 then
      let p : Param F := c.m_Param
      let p : Param F := { p with PanTilt := Vector2.add p.PanTilt camEvent.PanTilt }
      let p : Param F := if p.PanTilt.y > 1564 / 1000 then
        { p with PanTilt := ⟨p.PanTilt.x, 1564 / 1000⟩ } else p
      let p : Param F := if p.PanTilt.y < -(1564 / 1000) then
        { p with PanTilt := ⟨p.PanTilt.x, -(1564 / 1000)⟩ } else p
      let p : Param F := ComputeTarget m p
      let dir := Vector3.Normalize m (Vector3.sub p.Position p.Target)
      let p : Param F := { p with Rotate := ToAngle m dir }
      let p : Param F := { p with PanTilt := ToAngle m dir }
      { c with m_Param := p }
    else c
  -- EVENT_TWIST
  let c : Camera F :=
    if camEvent.Flags &&& EVENT_TWIST ≠ 0 then
      { c with m_Param := { c.m_Param with Twist := c.m_Param.Twist + camEvent.Twist } }
    else c
  -- EVENT_RESET
  let c : Camera F :=
    if camEvent.Flags &&& EVENT_RESET ≠ 0 then Reset m c else c
  c

end Camera

end CameraModel

/-- `Camera::Param::Param()`: the default parameters; `MinDist = 0.01f` is
taken as 1/100. -/
def Param.default {F : Type} [LinearOrderedField F] : Param F where
  Position := ⟨0, 0, 5⟩
  Target := ⟨0, 0, 0⟩
  Upward := ⟨0, 1, 0⟩
  Rotate := ⟨0, 0⟩
  PanTilt := ⟨0, 0⟩
  Twist := 0
  MinDist := 1 / 100
  MaxDist := 1000

/-- Parameters with the camera on its target: `Position = Target = 0`,
range `[1, 2]`. -/
def Param.onTarget {F : Type} [LinearOrderedField F] : Param F where
  Position := ⟨0, 0, 0⟩
  Target := ⟨0, 0, 0⟩
  Upward := ⟨0, 1, 0⟩
  Rotate := ⟨0, 0⟩
  PanTilt := ⟨0, 0⟩
  Twist := 0
  MinDist := 1
  MaxDist := 2

/-- A `CameraEvent()` with `Flags = EVENT_DOLLY` and the given amount. -/
def CameraEvent.dolly {F : Type} [LinearOrderedField F] (amount : F) :
    CameraEvent F where
  Rotate := ⟨0, 0⟩
  PanTilt := ⟨0, 0⟩
  Truck := ⟨0, 0, 0⟩
  Twist := 0
  Dolly := amount
  Flags := EVENT_DOLLY

/-! ## asdxHash.h : `CalcFnv1` -/

/-- `buffer[i]` for a `const uint8_t* buffer` whose bytes are the list
`buffer`. The source reads `buffer[i]` for `i < size` only; past the end of
the list the model reads 0. -/
def readByte (buffer : List (Fin 256)) (i : Nat) : Nat :=
  (buffer.getD i 0).val

/-- The loop `for (i = 0; i < size; ++i) { hash = (kPrime * hash) ^ buffer[i]; }`
of both `CalcFnv1` overloads, from index `i` with `remaining = size - i`
iterations to go. The product is taken in the `w`-bit unsigned type of
`hash`. -/
def fnv1Loop (kPrime w : Nat) (buffer : List (Fin 256)) :
    (remaining : Nat) → (i : Nat) → (hash : Nat) → Nat
  | 0, _, hash => hash
  | remaining + 1, i, hash =>
    fnv1Loop kPrime w buffer remaining (i + 1)
      (((kPrime * hash) % 2 ^ w) ^^^ readByte buffer i)

/-- `inline uint32_t CalcFnv1(const uint8_t* buffer, uint32_t size)` -/
def CalcFnv1_u32 (buffer : List (Fin 256)) (size : Nat) : Nat :=
  let kOffset := 0x811c9dc5
  let kPrime := 0x01000193
  fnv1Loop kPrime 32 buffer size 0 kOffset

/-- `inline uint64_t CalcFnv1(const uint8_t* buffer, uint64_t size)` -/
def CalcFnv1_u64 (buffer : List (Fin 256)) (size : Nat) : Nat :=
  let kOffset := 0xcbf29ce484222325
  let kPrime := 0x100000001b3
  fnv1Loop kPrime 64 buffer size 0 kOffset

/-- The FNV-1 hash as the specification words it: the left fold over the
bytes from the offset basis with step `h -> ((h * prime) mod 2^w) xor byte`. -/
def Fnv1Spec (w offsetBasis prime : Nat) (b : List (Fin 256)) : Nat :=
  b.foldl (fun h x => ((h * prime) % 2 ^ w) ^^^ x.val) offsetBasis

/-- A `CameraEvent()` with `Flags = EVENT_TRUCK` and the given truck vector. -/
def CameraEvent.truck {F : Type} [LinearOrderedField F] (t : Vector3 F) :
    CameraEvent F where
  Rotate := ⟨0, 0⟩
  PanTilt := ⟨0, 0⟩
  Truck := t
  Twist := 0
  Dolly := 0
  Flags := EVENT_TRUCK

/-- Stand-ins for the `<cmath>` functions over the rationals, for running the
camera code on inputs where their values do not matter. -/
def FloatFns.rational : FloatFns ℚ where
  sqrtf := fun x => x
  sinf := fun _ => 0
  cosf := fun _ => 1
  asinf := fun _ => 0
  F_PI := 355 / 113

/-! ## asdxCamera.h / asdxCamera.cpp : `ViewerCamera` -/

section ViewerCameraModel

variable {F : Type} [LinearOrderedField F]

/-- `CameraEvent::CameraEvent()`: every field zero. -/
def CameraEvent.default : CameraEvent F where
  Rotate := ⟨0, 0⟩
  PanTilt := ⟨0, 0⟩
  Truck := ⟨0, 0, 0⟩
  Twist := 0
  Dolly := 0
  Flags := 0

/-- `enum ViewerCamera::CONTROL_TYPE` -/
inductive CONTROL_TYPE where
  /-- `CONTROL_TYPE_TARGET = 0` -/
  | CONTROL_TYPE_TARGET
  /-- `CONTROL_TYPE_FREE` -/
  | CONTROL_TYPE_FREE
  deriving DecidableEq, Repr

/-- `struct ViewerCamera::Gain` -/
structure Gain (F : Type) where
  Dolly : F
  Rotate : F
  Move : F
  Wheel : F

/-- `struct ViewerCamera::MouseState`; the coordinates are `int`. -/
structure MouseState where
  X : Int
  Y : Int
  prevX : Int
  prevY : Int
  isClick : Bool
  isPrevClick : Bool
  deriving DecidableEq, Repr

namespace MouseState

/-- `MouseState::MouseState()` and `void MouseState::Reset()` -/
def Reset : MouseState where
  X := 0
  Y := 0
  prevX := 0
  prevY := 0
  isClick := false
  isPrevClick := false

end MouseState

/-- `struct ViewerCamera::ProjParam` -/
structure ProjParam (F : Type) where
  FieldOfView : F
  AspectRatio : F

/-- `class ViewerCamera : public Camera`. `m_Gain[0]` and `m_Gain[1]` are the
two elements of `Gain m_Gain[2]`; the projection matrix `m_Proj` is left
out. -/
structure ViewerCamera (F : Type) where
  toCamera : Camera F
  m_MouseLeft : MouseState
  m_MouseRight : MouseState
  m_MouseMiddle : MouseState
  m_Gain0 : Gain F
  m_Gain1 : Gain F
  m_Type : CONTROL_TYPE
  m_ProjParam : ProjParam F
  m_ProjPreset : ProjParam F

namespace ViewerCamera

/-- `CameraEvent ViewerCamera::MakeEventFromKey(uint32_t nChar, bool
isKeyDown, bool isAltDown)` -/
def MakeEventFromKey (nChar : Nat) (isKeyDown isAltDown : Bool) : CameraEvent F :=
  let result : CameraEvent F := CameraEvent.default
  if nChar = 0x46 then
    if isKeyDown then { result with Flags := result.Flags ||| EVENT_RESET }
    else result
  else result

/-- `void ViewerCamera::OnKey(uint32_t nChar, bool isKeyDown, bool
isAltDown)` -/
def OnKey (m : FloatFns F) (nChar : Nat) (isKeyDown isAltDown : Bool)
    (vc : ViewerCamera F) : ViewerCamera F :=
  let e : CameraEvent F := MakeEventFromKey nChar isKeyDown isAltDown
  let vc : ViewerCamera F := { vc with toCamera := Camera.UpdateByEvent m e vc.toCamera }
  if e.Flags &&& EVENT_RESET ≠ 0 then { vc with m_ProjParam := vc.m_ProjPreset }
  else vc

end ViewerCamera

end ViewerCameraModel

/-- Modelled from the spec: asdxMath.h is not among the sources;
`Vector2::operator==` is equality of all components. -/
instance Vector2.instDecidableEq {F : Type} [DecidableEq F] : DecidableEq (Vector2 F) :=
  fun a b =>
    if h : a.x = b.x ∧ a.y = b.y then
      isTrue (by cases a; cases b; simp_all)
    else
      isFalse (by intro hab; subst hab; exact h ⟨rfl, rfl⟩)

/-- Modelled from the spec: asdxMath.h is not among the sources;
`Vector3::operator==` is equality of all components. -/
instance Vector3.instDecidableEq {F : Type} [DecidableEq F] : DecidableEq (Vector3 F) :=
  fun a b =>
    if h : a.x = b.x ∧ a.y = b.y ∧ a.z = b.z then
      isTrue (by cases a; cases b; simp_all)
    else
      isFalse (by intro hab; subst hab; exact h ⟨rfl, rfl, rfl⟩)

/-- Modelled from the spec: asdxMath.h is not among the sources;
`Vector4::operator==` is equality of all components. -/
instance Vector4.instDecidableEq {F : Type} [DecidableEq F] : DecidableEq (Vector4 F) :=
  fun a b =>
    if h : a.x = b.x ∧ a.y = b.y ∧ a.z = b.z ∧ a.w = b.w then
      isTrue (by cases a; cases b; simp_all)
    else
      isFalse (by intro hab; subst hab; exact h ⟨rfl, rfl, rfl, rfl⟩)

/-- The macro `FAILED(hr)`: the sign bit of the 32-bit `HRESULT` is set. -/
def FAILED (hr : HRESULT) : Bool := decide (2 ^ 31 ≤ hr % 2 ^ 32)

/-- The macro `SUCCEEDED(hr)`. -/
def SUCCEEDED (hr : HRESULT) : Bool := decide (hr % 2 ^ 32 < 2 ^ 31)

/-- The answer of the device to one creation call. -/
structure DeviceResult where
  hr : HRESULT
  ptr : Nat
  deriving DecidableEq, Repr

/-- What a creation call leaves in the output parameter. -/
def DeviceResult.out (r : DeviceResult) : Option Nat :=
  if FAILED r.hr then none else some r.ptr

/-- `enum DXGI_FORMAT` (dxgiformat.h), as the value of the enumerator. -/
abbrev DXGI_FORMAT := Nat

/-- `DXGI_FORMAT_UNKNOWN` (dxgiformat.h) -/
def DXGI_FORMAT_UNKNOWN : DXGI_FORMAT := 0
/-- `DXGI_FORMAT_R32G32B32A32_TYPELESS` (dxgiformat.h) -/
def DXGI_FORMAT_R32G32B32A32_TYPELESS : DXGI_FORMAT := 1
/-- `DXGI_FORMAT_R32G32B32A32_FLOAT` (dxgiformat.h) -/
def DXGI_FORMAT_R32G32B32A32_FLOAT : DXGI_FORMAT := 2
/-- `DXGI_FORMAT_R32G32B32A32_UINT` (dxgiformat.h) -/
def DXGI_FORMAT_R32G32B32A32_UINT : DXGI_FORMAT := 3
/-- `DXGI_FORMAT_R32G32B32A32_SINT` (dxgiformat.h) -/
def DXGI_FORMAT_R32G32B32A32_SINT : DXGI_FORMAT := 4
/-- `DXGI_FORMAT_R32G32B32_TYPELESS` (dxgiformat.h) -/
def DXGI_FORMAT_R32G32B32_TYPELESS : DXGI_FORMAT := 5
/-- `DXGI_FORMAT_R32G32B32_FLOAT` (dxgiformat.h) -/
def DXGI_FORMAT_R32G32B32_FLOAT : DXGI_FORMAT := 6
/-- `DXGI_FORMAT_R32G32B32_UINT` (dxgiformat.h) -/
def DXGI_FORMAT_R32G32B32_UINT : DXGI_FORMAT := 7
/-- `DXGI_FORMAT_R32G32B32_SINT` (dxgiformat.h) -/
def DXGI_FORMAT_R32G32B32_SINT : DXGI_FORMAT := 8
/-- `DXGI_FORMAT_R16G16B16A16_TYPELESS` (dxgiformat.h) -/
def DXGI_FORMAT_R16G16B16A16_TYPELESS : DXGI_FORMAT := 9
/-- `DXGI_FORMAT_R16G16B16A16_FLOAT` (dxgiformat.h) -/
def DXGI_FORMAT_R16G16B16A16_FLOAT : DXGI_FORMAT := 10
/-- `DXGI_FORMAT_R16G16B16A16_UNORM` (dxgiformat.h) -/
def DXGI_FORMAT_R16G16B16A16_UNORM : DXGI_FORMAT := 11
/-- `DXGI_FORMAT_R16G16B16A16_UINT` (dxgiformat.h) -/
def DXGI_FORMAT_R16G16B16A16_UINT : DXGI_FORMAT := 12
/-- `DXGI_FORMAT_R16G16B16A16_SNORM` (dxgiformat.h) -/
def DXGI_FORMAT_R16G16B16A16_SNORM : DXGI_FORMAT := 13
/-- `DXGI_FORMAT_R16G16B16A16_SINT` (dxgiformat.h) -/
def DXGI_FORMAT_R16G16B16A16_SINT : DXGI_FORMAT := 14
/-- `DXGI_FORMAT_R32G32_TYPELESS` (dxgiformat.h) -/
def DXGI_FORMAT_R32G32_TYPELESS : DXGI_FORMAT := 15
/-- `DXGI_FORMAT_R32G32_FLOAT` (dxgiformat.h) -/
def DXGI_FORMAT_R32G32_FLOAT : DXGI_FORMAT := 16
/-- `DXGI_FORMAT_R32G32_UINT` (dxgiformat.h) -/
def DXGI_FORMAT_R32G32_UINT : DXGI_FORMAT := 17
/-- `DXGI_FORMAT_R32G32_SINT` (dxgiformat.h) -/
def DXGI_FORMAT_R32G32_SINT : DXGI_FORMAT := 18
/-- `DXGI_FORMAT_R32G8X24_TYPELESS` (dxgiformat.h) -/
def DXGI_FORMAT_R32G8X24_TYPELESS : DXGI_FORMAT := 19
/-- `DXGI_FORMAT_D32_FLOAT_S8X24_UINT` (dxgiformat.h) -/
def DXGI_FORMAT_D32_FLOAT_S8X24_UINT : DXGI_FORMAT := 20
/-- `DXGI_FORMAT_R32_FLOAT_X8X24_TYPELESS` (dxgiformat.h) -/
def DXGI_FORMAT_R32_FLOAT_X8X24_TYPELESS : DXGI_FORMAT := 21
/-- `DXGI_FORMAT_X32_TYPELESS_G8X24_UINT` (dxgiformat.h) -/
def DXGI_FORMAT_X32_TYPELESS_G8X24_UINT : DXGI_FORMAT := 22
/-- `DXGI_FORMAT_R10G10B10A2_TYPELESS` (dxgiformat.h) -/
def DXGI_FORMAT_R10G10B10A2_TYPELESS : DXGI_FORMAT := 23
/-- `DXGI_FORMAT_R10G10B10A2_UNORM` (dxgiformat.h) -/
def DXGI_FORMAT_R10G10B10A2_UNORM : DXGI_FORMAT := 24
/-- `DXGI_FORMAT_R10G10B10A2_UINT` (dxgiformat.h) -/
def DXGI_FORMAT_R10G10B10A2_UINT : DXGI_FORMAT := 25
/-- `DXGI_FORMAT_R8G8B8A8_TYPELESS` (dxgiformat.h) -/
def DXGI_FORMAT_R8G8B8A8_TYPELESS : DXGI_FORMAT := 27
/-- `DXGI_FORMAT_R8G8B8A8_UNORM` (dxgiformat.h) -/
def DXGI_FORMAT_R8G8B8A8_UNORM : DXGI_FORMAT := 28
/-- `DXGI_FORMAT_R8G8B8A8_UNORM_SRGB` (dxgiformat.h) -/
def DXGI_FORMAT_R8G8B8A8_UNORM_SRGB : DXGI_FORMAT := 29
/-- `DXGI_FORMAT_R8G8B8A8_UINT` (dxgiformat.h) -/
def DXGI_FORMAT_R8G8B8A8_UINT : DXGI_FORMAT := 30
/-- `DXGI_FORMAT_R8G8B8A8_SNORM` (dxgiformat.h) -/
def DXGI_FORMAT_R8G8B8A8_SNORM : DXGI_FORMAT := 31
/-- `DXGI_FORMAT_R8G8B8A8_SINT` (dxgiformat.h) -/
def DXGI_FORMAT_R8G8B8A8_SINT : DXGI_FORMAT := 32
/-- `DXGI_FORMAT_R16G16_TYPELESS` (dxgiformat.h) -/
def DXGI_FORMAT_R16G16_TYPELESS : DXGI_FORMAT := 33
/-- `DXGI_FORMAT_R16G16_FLOAT` (dxgiformat.h) -/
def DXGI_FORMAT_R16G16_FLOAT : DXGI_FORMAT := 34
/-- `DXGI_FORMAT_R16G16_UNORM` (dxgiformat.h) -/
def DXGI_FORMAT_R16G16_UNORM : DXGI_FORMAT := 35
/-- `DXGI_FORMAT_R16G16_UINT` (dxgiformat.h) -/
def DXGI_FORMAT_R16G16_UINT : DXGI_FORMAT := 36
/-- `DXGI_FORMAT_R16G16_SNORM` (dxgiformat.h) -/
def DXGI_FORMAT_R16G16_SNORM : DXGI_FORMAT := 37
/-- `DXGI_FORMAT_R16G16_SINT` (dxgiformat.h) -/
def DXGI_FORMAT_R16G16_SINT : DXGI_FORMAT := 38
/-- `DXGI_FORMAT_R32_TYPELESS` (dxgiformat.h) -/
def DXGI_FORMAT_R32_TYPELESS : DXGI_FORMAT := 39
/-- `DXGI_FORMAT_D32_FLOAT` (dxgiformat.h) -/
def DXGI_FORMAT_D32_FLOAT : DXGI_FORMAT := 40
/-- `DXGI_FORMAT_R32_FLOAT` (dxgiformat.h) -/
def DXGI_FORMAT_R32_FLOAT : DXGI_FORMAT := 41
/-- `DXGI_FORMAT_R32_UINT` (dxgiformat.h) -/
def DXGI_FORMAT_R32_UINT : DXGI_FORMAT := 42
/-- `DXGI_FORMAT_R32_SINT` (dxgiformat.h) -/
def DXGI_FORMAT_R32_SINT : DXGI_FORMAT := 43
/-- `DXGI_FORMAT_R24G8_TYPELESS` (dxgiformat.h) -/
def DXGI_FORMAT_R24G8_TYPELESS : DXGI_FORMAT := 44
/-- `DXGI_FORMAT_D24_UNORM_S8_UINT` (dxgiformat.h) -/
def DXGI_FORMAT_D24_UNORM_S8_UINT : DXGI_FORMAT := 45
/-- `DXGI_FORMAT_R24_UNORM_X8_TYPELESS` (dxgiformat.h) -/
def DXGI_FORMAT_R24_UNORM_X8_TYPELESS : DXGI_FORMAT := 46
/-- `DXGI_FORMAT_X24_TYPELESS_G8_UINT` (dxgiformat.h) -/
def DXGI_FORMAT_X24_TYPELESS_G8_UINT : DXGI_FORMAT := 47
/-- `DXGI_FORMAT_R8G8_TYPELESS` (dxgiformat.h) -/
def DXGI_FORMAT_R8G8_TYPELESS : DXGI_FORMAT := 48
/-- `DXGI_FORMAT_R8G8_UNORM` (dxgiformat.h) -/
def DXGI_FORMAT_R8G8_UNORM : DXGI_FORMAT := 49
/-- `DXGI_FORMAT_R8G8_UINT` (dxgiformat.h) -/
def DXGI_FORMAT_R8G8_UINT : DXGI_FORMAT := 50
/-- `DXGI_FORMAT_R8G8_SNORM` (dxgiformat.h) -/
def DXGI_FORMAT_R8G8_SNORM : DXGI_FORMAT := 51
/-- `DXGI_FORMAT_R8G8_SINT` (dxgiformat.h) -/
def DXGI_FORMAT_R8G8_SINT : DXGI_FORMAT := 52
/-- `DXGI_FORMAT_R16_TYPELESS` (dxgiformat.h) -/
def DXGI_FORMAT_R16_TYPELESS : DXGI_FORMAT := 53
/-- `DXGI_FORMAT_R16_FLOAT` (dxgiformat.h) -/
def DXGI_FORMAT_R16_FLOAT : DXGI_FORMAT := 54
/-- `DXGI_FORMAT_D16_UNORM` (dxgiformat.h) -/
def DXGI_FORMAT_D16_UNORM : DXGI_FORMAT := 55
/-- `DXGI_FORMAT_R16_UNORM` (dxgiformat.h) -/
def DXGI_FORMAT_R16_UNORM : DXGI_FORMAT := 56
/-- `DXGI_FORMAT_R16_UINT` (dxgiformat.h) -/
def DXGI_FORMAT_R16_UINT : DXGI_FORMAT := 57
/-- `DXGI_FORMAT_R16_SNORM` (dxgiformat.h) -/
def DXGI_FORMAT_R16_SNORM : DXGI_FORMAT := 58
/-- `DXGI_FORMAT_R16_SINT` (dxgiformat.h) -/
def DXGI_FORMAT_R16_SINT : DXGI_FORMAT := 59
/-- `DXGI_FORMAT_R8_TYPELESS` (dxgiformat.h) -/
def DXGI_FORMAT_R8_TYPELESS : DXGI_FORMAT := 60
/-- `DXGI_FORMAT_R8_UNORM` (dxgiformat.h) -/
def DXGI_FORMAT_R8_UNORM : DXGI_FORMAT := 61
/-- `DXGI_FORMAT_R8_UINT` (dxgiformat.h) -/
def DXGI_FORMAT_R8_UINT : DXGI_FORMAT := 62
/-- `DXGI_FORMAT_R8_SNORM` (dxgiformat.h) -/
def DXGI_FORMAT_R8_SNORM : DXGI_FORMAT := 63
/-- `DXGI_FORMAT_R8_SINT` (dxgiformat.h) -/
def DXGI_FORMAT_R8_SINT : DXGI_FORMAT := 64
/-- `DXGI_FORMAT_BC1_TYPELESS` (dxgiformat.h) -/
def DXGI_FORMAT_BC1_TYPELESS : DXGI_FORMAT := 70
/-- `DXGI_FORMAT_BC1_UNORM` (dxgiformat.h) -/
def DXGI_FORMAT_BC1_UNORM : DXGI_FORMAT := 71
/-- `DXGI_FORMAT_BC1_UNORM_SRGB` (dxgiformat.h) -/
def DXGI_FORMAT_BC1_UNORM_SRGB : DXGI_FORMAT := 72
/-- `DXGI_FORMAT_BC2_TYPELESS` (dxgiformat.h) -/
def DXGI_FORMAT_BC2_TYPELESS : DXGI_FORMAT := 73
/-- `DXGI_FORMAT_BC2_UNORM` (dxgiformat.h) -/
def DXGI_FORMAT_BC2_UNORM : DXGI_FORMAT := 74
/-- `DXGI_FORMAT_BC2_UNORM_SRGB` (dxgiformat.h) -/
def DXGI_FORMAT_BC2_UNORM_SRGB : DXGI_FORMAT := 75
/-- `DXGI_FORMAT_BC3_TYPELESS` (dxgiformat.h) -/
def DXGI_FORMAT_BC3_TYPELESS : DXGI_FORMAT := 76
/-- `DXGI_FORMAT_BC3_UNORM` (dxgiformat.h) -/
def DXGI_FORMAT_BC3_UNORM : DXGI_FORMAT := 77
/-- `DXGI_FORMAT_BC3_UNORM_SRGB` (dxgiformat.h) -/
def DXGI_FORMAT_BC3_UNORM_SRGB : DXGI_FORMAT := 78
/-- `DXGI_FORMAT_BC4_TYPELESS` (dxgiformat.h) -/
def DXGI_FORMAT_BC4_TYPELESS : DXGI_FORMAT := 79
/-- `DXGI_FORMAT_BC4_UNORM` (dxgiformat.h) -/
def DXGI_FORMAT_BC4_UNORM : DXGI_FORMAT := 80
/-- `DXGI_FORMAT_BC4_SNORM` (dxgiformat.h) -/
def DXGI_FORMAT_BC4_SNORM : DXGI_FORMAT := 81
/-- `DXGI_FORMAT_BC5_TYPELESS` (dxgiformat.h) -/
def DXGI_FORMAT_BC5_TYPELESS : DXGI_FORMAT := 82
/-- `DXGI_FORMAT_BC5_UNORM` (dxgiformat.h) -/
def DXGI_FORMAT_BC5_UNORM : DXGI_FORMAT := 83
/-- `DXGI_FORMAT_BC5_SNORM` (dxgiformat.h) -/
def DXGI_FORMAT_BC5_SNORM : DXGI_FORMAT := 84
/-- `DXGI_FORMAT_B8G8R8A8_TYPELESS` (dxgiformat.h) -/
def DXGI_FORMAT_B8G8R8A8_TYPELESS : DXGI_FORMAT := 90
/-- `DXGI_FORMAT_B8G8R8A8_UNORM_SRGB` (dxgiformat.h) -/
def DXGI_FORMAT_B8G8R8A8_UNORM_SRGB : DXGI_FORMAT := 91
/-- `DXGI_FORMAT_B8G8R8X8_TYPELESS` (dxgiformat.h) -/
def DXGI_FORMAT_B8G8R8X8_TYPELESS : DXGI_FORMAT := 92
/-- `DXGI_FORMAT_B8G8R8X8_UNORM_SRGB` (dxgiformat.h) -/
def DXGI_FORMAT_B8G8R8X8_UNORM_SRGB : DXGI_FORMAT := 93
/-- `DXGI_FORMAT_BC6H_TYPELESS` (dxgiformat.h) -/
def DXGI_FORMAT_BC6H_TYPELESS : DXGI_FORMAT := 94
/-- `DXGI_FORMAT_BC6H_UF16` (dxgiformat.h) -/
def DXGI_FORMAT_BC6H_UF16 : DXGI_FORMAT := 95
/-- `DXGI_FORMAT_BC6H_SF16` (dxgiformat.h) -/
def DXGI_FORMAT_BC6H_SF16 : DXGI_FORMAT := 96
/-- `DXGI_FORMAT_BC7_TYPELESS` (dxgiformat.h) -/
def DXGI_FORMAT_BC7_TYPELESS : DXGI_FORMAT := 97
/-- `DXGI_FORMAT_BC7_UNORM` (dxgiformat.h) -/
def DXGI_FORMAT_BC7_UNORM : DXGI_FORMAT := 98
/-- `DXGI_FORMAT_BC7_UNORM_SRGB` (dxgiformat.h) -/
def DXGI_FORMAT_BC7_UNORM_SRGB : DXGI_FORMAT := 99

/-- `void ConvertDepthFormat(const DXGI_FORMAT& format, DXGI_FORMAT&
textureFormat, DXGI_FORMAT& resourceFormat)`; the result is
`(textureFormat, resourceFormat)`. Both start as `format`; the `switch`
replaces them for the four depth formats. -/
def ConvertDepthFormat (format : DXGI_FORMAT) : DXGI_FORMAT × DXGI_FORMAT :=
  if format = DXGI_FORMAT_D16_UNORM then
    (DXGI_FORMAT_R16_TYPELESS, DXGI_FORMAT_R16_UNORM)
  else if format = DXGI_FORMAT_D24_UNORM_S8_UINT then
    (DXGI_FORMAT_R24G8_TYPELESS, DXGI_FORMAT_R24_UNORM_X8_TYPELESS)
  else if format = DXGI_FORMAT_D32_FLOAT then
    (DXGI_FORMAT_R32_TYPELESS, DXGI_FORMAT_R32_FLOAT)
  else if format = DXGI_FORMAT_D32_FLOAT_S8X24_UINT then
    (DXGI_FORMAT_R32G8X24_TYPELESS, DXGI_FORMAT_R32_FLOAT_X8X24_TYPELESS)
  else
    (format, format)

/-- `void ConvertColorFormat(const DXGI_FORMAT& format, DXGI_FORMAT&
textureFormat)`; the result is `textureFormat`. It starts as `format`; the
`switch` replaces it by the typeless format of the group. -/
def ConvertColorFormat (format : DXGI_FORMAT) : DXGI_FORMAT :=
  if format = DXGI_FORMAT_R32G32B32A32_FLOAT
      ∨ format = DXGI_FORMAT_R32G32B32A32_UINT
      ∨ format = DXGI_FORMAT_R32G32B32A32_SINT then
    DXGI_FORMAT_R32G32B32A32_TYPELESS
  else if format = DXGI_FORMAT_R32G32B32_FLOAT
      ∨ format = DXGI_FORMAT_R32G32B32_UINT
      ∨ format = DXGI_FORMAT_R32G32B32_SINT then
    DXGI_FORMAT_R32G32B32_TYPELESS
  else if format = DXGI_FORMAT_R16G16B16A16_FLOAT
      ∨ format = DXGI_FORMAT_R16G16B16A16_UNORM
      ∨ format = DXGI_FORMAT_R16G16B16A16_UINT
      ∨ format = DXGI_FORMAT_R16G16B16A16_SNORM
      ∨ format = DXGI_FORMAT_R16G16B16A16_SINT then
    DXGI_FORMAT_R16G16B16A16_TYPELESS
  else if format = DXGI_FORMAT_R32G32_FLOAT
      ∨ format = DXGI_FORMAT_R32G32_UINT
      ∨ format = DXGI_FORMAT_R32G32_SINT then
    DXGI_FORMAT_R32G32_TYPELESS
  else if format = DXGI_FORMAT_R32_FLOAT_X8X24_TYPELESS then
    DXGI_FORMAT_X32_TYPELESS_G8X24_UINT
  else if format = DXGI_FORMAT_R10G10B10A2_UNORM
      ∨ format = DXGI_FORMAT_R10G10B10A2_UINT then
    DXGI_FORMAT_R10G10B10A2_TYPELESS
  else if format = DXGI_FORMAT_R8G8B8A8_UNORM
      ∨ format = DXGI_FORMAT_R8G8B8A8_UNORM_SRGB
      ∨ format = DXGI_FORMAT_R8G8B8A8_UINT
      ∨ format = DXGI_FORMAT_R8G8B8A8_SNORM
      ∨ format = DXGI_FORMAT_R8G8B8A8_SINT then
    DXGI_FORMAT_R8G8B8A8_TYPELESS
  else if format = DXGI_FORMAT_R16G16_FLOAT
      ∨ format = DXGI_FORMAT_R16G16_UNORM
      ∨ format = DXGI_FORMAT_R16G16_UINT
      ∨ format = DXGI_FORMAT_R16G16_SNORM
      ∨ format = DXGI_FORMAT_R16G16_SINT then
    DXGI_FORMAT_R16G16_TYPELESS
  else if format = DXGI_FORMAT_R32_FLOAT
      ∨ format = DXGI_FORMAT_R32_UINT
      ∨ format = DXGI_FORMAT_R32_SINT then
    DXGI_FORMAT_R32_TYPELESS
  else if format = DXGI_FORMAT_X24_TYPELESS_G8_UINT then
    DXGI_FORMAT_R24_UNORM_X8_TYPELESS
  else if format = DXGI_FORMAT_R8G8_UNORM
      ∨ format = DXGI_FORMAT_R8G8_UINT
      ∨ format = DXGI_FORMAT_R8G8_SNORM
      ∨ format = DXGI_FORMAT_R8G8_SINT then
    DXGI_FORMAT_R8G8_TYPELESS
  else if format = DXGI_FORMAT_R16_FLOAT
      ∨ format = DXGI_FORMAT_R16_UNORM
      ∨ format = DXGI_FORMAT_R16_UINT
      ∨ format = DXGI_FORMAT_R16_SNORM
      ∨ format = DXGI_FORMAT_R16_SINT then
    DXGI_FORMAT_R16_TYPELESS
  else if format = DXGI_FORMAT_R8_UNORM
      ∨ format = DXGI_FORMAT_R8_UINT
      ∨ format = DXGI_FORMAT_R8_SNORM
      ∨ format = DXGI_FORMAT_R8_SINT then
    DXGI_FORMAT_R8_TYPELESS
  else if format = DXGI_FORMAT_BC1_UNORM
      ∨ format = DXGI_FORMAT_BC1_UNORM_SRGB then
    DXGI_FORMAT_BC1_TYPELESS
  else if format = DXGI_FORMAT_BC2_UNORM
      ∨ format = DXGI_FORMAT_BC2_UNORM_SRGB then
    DXGI_FORMAT_BC2_TYPELESS
  else if format = DXGI_FORMAT_BC3_UNORM
      ∨ format = DXGI_FORMAT_BC3_UNORM_SRGB then
    DXGI_FORMAT_BC3_TYPELESS
  else if format = DXGI_FORMAT_BC4_UNORM
      ∨ format = DXGI_FORMAT_BC4_SNORM then
    DXGI_FORMAT_BC4_TYPELESS
  else if format = DXGI_FORMAT_BC5_UNORM
      ∨ format = DXGI_FORMAT_BC5_SNORM then
    DXGI_FORMAT_BC5_TYPELESS
  else if format = DXGI_FORMAT_B8G8R8A8_UNORM_SRGB then
    DXGI_FORMAT_B8G8R8A8_TYPELESS
  else if format = DXGI_FORMAT_B8G8R8X8_UNORM_SRGB then
    DXGI_FORMAT_B8G8R8X8_TYPELESS
  else if format = DXGI_FORMAT_BC6H_UF16
      ∨ format = DXGI_FORMAT_BC6H_SF16 then
    DXGI_FORMAT_BC6H_TYPELESS
  else if format = DXGI_FORMAT_BC7_UNORM
      ∨ format = DXGI_FORMAT_BC7_UNORM_SRGB then
    DXGI_FORMAT_BC7_TYPELESS
  else
    format

/-- `enum D3D11_USAGE` (d3d11.h) -/
inductive D3D11_USAGE where
  | D3D11_USAGE_DEFAULT
  | D3D11_USAGE_IMMUTABLE
  | D3D11_USAGE_DYNAMIC
  | D3D11_USAGE_STAGING
  deriving DecidableEq, Repr

/-- `D3D11_BIND_VERTEX_BUFFER` (d3d11.h) -/
def D3D11_BIND_VERTEX_BUFFER : Nat := 0x1
/-- `D3D11_BIND_INDEX_BUFFER` (d3d11.h) -/
def D3D11_BIND_INDEX_BUFFER : Nat := 0x2
/-- `D3D11_BIND_CONSTANT_BUFFER` (d3d11.h) -/
def D3D11_BIND_CONSTANT_BUFFER : Nat := 0x4
/-- `D3D11_BIND_SHADER_RESOURCE` (d3d11.h) -/
def D3D11_BIND_SHADER_RESOURCE : Nat := 0x8
/-- `D3D11_BIND_RENDER_TARGET` (d3d11.h) -/
def D3D11_BIND_RENDER_TARGET : Nat := 0x20
/-- `D3D11_BIND_DEPTH_STENCIL` (d3d11.h) -/
def D3D11_BIND_DEPTH_STENCIL : Nat := 0x40
/-- `D3D11_BIND_UNORDERED_ACCESS` (d3d11.h) -/
def D3D11_BIND_UNORDERED_ACCESS : Nat := 0x80
/-- `D3D11_CPU_ACCESS_WRITE` (d3d11.h) -/
def D3D11_CPU_ACCESS_WRITE : Nat := 0x10000
/-- `D3D11_RESOURCE_MISC_BUFFER_ALLOW_RAW_VIEWS` (d3d11.h) -/
def D3D11_RESOURCE_MISC_BUFFER_ALLOW_RAW_VIEWS : Nat := 0x20
/-- `D3D11_RESOURCE_MISC_BUFFER_STRUCTURED` (d3d11.h) -/
def D3D11_RESOURCE_MISC_BUFFER_STRUCTURED : Nat := 0x40
/-- `D3D11_BUFFEREX_SRV_FLAG_RAW` (d3d11.h) -/
def D3D11_BUFFEREX_SRV_FLAG_RAW : Nat := 0x1
/-- `D3D11_BUFFER_UAV_FLAG_RAW` (d3d11.h) -/
def D3D11_BUFFER_UAV_FLAG_RAW : Nat := 0x1

/-- `DXGI_SAMPLE_DESC` (dxgicommon.h) -/
structure DXGI_SAMPLE_DESC where
  Count : Nat
  Quality : Nat
  deriving DecidableEq, Repr

/-- `D3D11_TEXTURE2D_DESC` (d3d11.h) -/
structure D3D11_TEXTURE2D_DESC where
  Width : Nat
  Height : Nat
  MipLevels : Nat
  ArraySize : Nat
  Format : DXGI_FORMAT
  SampleDesc : DXGI_SAMPLE_DESC
  Usage : D3D11_USAGE
  BindFlags : Nat
  CPUAccessFlags : Nat
  MiscFlags : Nat
  deriving DecidableEq, Repr

/-- `D3D11_TEXTURE3D_DESC` (d3d11.h) -/
structure D3D11_TEXTURE3D_DESC where
  Width : Nat
  Height : Nat
  Depth : Nat
  MipLevels : Nat
  Format : DXGI_FORMAT
  Usage : D3D11_USAGE
  BindFlags : Nat
  CPUAccessFlags : Nat
  MiscFlags : Nat
  deriving DecidableEq, Repr

/-- `D3D11_BUFFER_DESC` (d3d11.h) -/
structure D3D11_BUFFER_DESC where
  ByteWidth : Nat
  Usage : D3D11_USAGE
  BindFlags : Nat
  CPUAccessFlags : Nat
  MiscFlags : Nat
  StructureByteStride : Nat
  deriving DecidableEq, Repr

/-- The `ViewDimension` of a view descriptor: the enumerator of
`D3D11_RTV_DIMENSION`, `D3D11_DSV_DIMENSION`, `D3D11_SRV_DIMENSION` or
`D3D11_UAV_DIMENSION` with the given suffix; `UNKNOWN` is the value 0 a
zero-initialised descriptor holds. -/
inductive ViewDimension where
  | UNKNOWN
  | BUFFER
  | BUFFEREX
  | TEXTURE2D
  | TEXTURE2DARRAY
  | TEXTURE2DMS
  | TEXTURE2DMSARRAY
  | TEXTURE3D
  deriving DecidableEq, Repr

/-- A view descriptor (`D3D11_RENDER_TARGET_VIEW_DESC`,
`D3D11_DEPTH_STENCIL_VIEW_DESC`, `D3D11_SHADER_RESOURCE_VIEW_DESC`,
`D3D11_UNORDERED_ACCESS_VIEW_DESC`) with the members of its union written
side by side; a member the code does not set is 0. -/
structure ViewDesc where
  Format : DXGI_FORMAT
  ViewDimension : ViewDimension := ViewDimension.UNKNOWN
  MipSlice : Nat := 0
  MipLevels : Nat := 0
  MostDetailedMip : Nat := 0
  ArraySize : Nat := 0
  FirstArraySlice : Nat := 0
  FirstWSlice : Nat := 0
  WSize : Nat := 0
  FirstElement : Nat := 0
  NumElements : Nat := 0
  Flags : Nat := 0
  deriving DecidableEq, Repr

/-- What the resource wrappers do to the outside world. -/
inductive DeviceEffect where
  /-- `pDevice->CreateTexture2D(&td, nullptr, ...)` -/
  | CreateTexture2D (td : D3D11_TEXTURE2D_DESC)
  /-- `pDevice->CreateTexture3D(&td, nullptr, ...)` -/
  | CreateTexture3D (td : D3D11_TEXTURE3D_DESC)
  /-- `pDevice->CreateBuffer(&desc, pInitialData, ...)`; `hasInitData` tells
  whether `pInitialData` is non-null. -/
  | CreateBuffer (desc : D3D11_BUFFER_DESC) (hasInitData : Bool)
  /-- `pDevice->CreateRenderTargetView(resource, &desc, ...)` -/
  | CreateRenderTargetView (resource : Option Nat) (desc : ViewDesc)
  /-- `pDevice->CreateDepthStencilView(resource, &desc, ...)` -/
  | CreateDepthStencilView (resource : Option Nat) (desc : ViewDesc)
  /-- `pDevice->CreateShaderResourceView(resource, &desc, ...)` -/
  | CreateShaderResourceView (resource : Option Nat) (desc : ViewDesc)
  /-- `pDevice->CreateUnorderedAccessView(resource, &desc, ...)` -/
  | CreateUnorderedAccessView (resource : Option Nat) (desc : ViewDesc)
  /-- `ELOG(...)` -/
  | ELOG (message : String)
  deriving DecidableEq, Repr

/-- The effects that are calls on the device (everything but the log). -/
def deviceCalls : List DeviceEffect → List DeviceEffect
  | [] => []
  | DeviceEffect.ELOG _ :: es => deviceCalls es
  | e :: es => e :: deviceCalls es

/-! ## asdxTarget.cpp : `ColorTarget2D`, `ColorTarget3D`, `DepthTarget2D` -/

/-- `struct TargetDesc2D` (asdxTarget.h), with the fields asdxTarget.cpp
uses. -/
structure TargetDesc2D where
  Width : Nat
  Height : Nat
  ArraySize : Nat
  MipLevels : Nat
  Format : DXGI_FORMAT
  SampleDesc : DXGI_SAMPLE_DESC
  CPUAccessFlags : Nat
  MiscFlags : Nat
  deriving DecidableEq, Repr

/-- `struct TargetDesc3D` (asdxTarget.h), with the fields asdxTarget.cpp
uses. -/
structure TargetDesc3D where
  Width : Nat
  Height : Nat
  Depth : Nat
  MipLevels : Nat
  Format : DXGI_FORMAT
  CPUAccessFlags : Nat
  MiscFlags : Nat
  deriving DecidableEq, Repr

/-- `class ColorTarget2D` -/
structure ColorTarget2D where
  m_pTexture : Option Nat
  m_pSRV : Option Nat
  m_pRTV : Option Nat
  m_Desc : TargetDesc2D
  deriving DecidableEq, Repr

/-- `class ColorTarget3D` -/
structure ColorTarget3D where
  m_pTexture : Option Nat
  m_pSRV : Option Nat
  m_pRTV : Option Nat
  m_Desc : TargetDesc3D
  deriving DecidableEq, Repr

/-- `class DepthTarget2D` -/
structure DepthTarget2D where
  m_pTexture : Option Nat
  m_pSRV : Option Nat
  m_pDSV : Option Nat
  m_Desc : TargetDesc2D
  deriving DecidableEq, Repr

/-- The target view descriptor of a 2D target (`rtvd` in
`ColorTarget2D::Create`, `dsvd` in `DepthTarget2D::Create`), by array size
and sample count. -/
def targetViewDesc2D (desc : TargetDesc2D) : ViewDesc :=
  if desc.ArraySize = 1 then
    if desc.SampleDesc.Count ≤ 1 then
      { Format := desc.Format, ViewDimension := ViewDimension.TEXTURE2D, MipSlice := 0 }
    else
      { Format := desc.Format, ViewDimension := ViewDimension.TEXTURE2DMS }
  else
    if desc.SampleDesc.Count ≤ 1 then
      { Format := desc.Format, ViewDimension := ViewDimension.TEXTURE2DARRAY,
        ArraySize := desc.ArraySize, FirstArraySlice := 0, MipSlice := 0 }
    else
      { Format := desc.Format, ViewDimension := ViewDimension.TEXTURE2DMSARRAY,
        ArraySize := desc.ArraySize, FirstArraySlice := 0 }

/-- The shader resource view descriptor of a 2D target (`srvd`), with the
given view format, by array size and sample count. -/
def shaderViewDesc2D (format : DXGI_FORMAT) (desc : TargetDesc2D) : ViewDesc :=
  if desc.ArraySize = 1 then
    if desc.SampleDesc.Count ≤ 1 then
      { Format := format, ViewDimension := ViewDimension.TEXTURE2D,
        MipLevels := desc.MipLevels, MostDetailedMip := 0 }
    else
      { Format := format, ViewDimension := ViewDimension.TEXTURE2DMS }
  else
    if desc.SampleDesc.Count ≤ 1 then
      { Format := format, ViewDimension := ViewDimension.TEXTURE2DARRAY,
        ArraySize := desc.ArraySize, FirstArraySlice := 0,
        MipLevels := desc.MipLevels, MostDetailedMip := 0 }
    else
      { Format := format, ViewDimension := ViewDimension.TEXTURE2DMSARRAY,
        ArraySize := desc.ArraySize, FirstArraySlice := 0 }

namespace ColorTarget2D

/-- The body of `ColorTarget2D::Create` after its `assert`. `texture`,
`view` and `srv` are the answers of the device to `CreateTexture2D`,
`CreateRenderTargetView` and `CreateShaderResourceView`, for the calls that
are made. The result is the return value, the target after the call and the
effects in order. -/
def CreateBody (texture view srv : DeviceResult) (desc : TargetDesc2D)
    (t : ColorTarget2D) : Bool × ColorTarget2D × List DeviceEffect :=
  let textureFormat := ConvertColorFormat desc.Format
  let td : D3D11_TEXTURE2D_DESC :=
    { Width := desc.Width
      Height := desc.Height
      MipLevels := desc.MipLevels
      ArraySize := desc.ArraySize
      Format := textureFormat
      SampleDesc := ⟨desc.SampleDesc.Count, desc.SampleDesc.Quality⟩
      Usage := D3D11_USAGE.D3D11_USAGE_DEFAULT
      BindFlags := D3D11_BIND_RENDER_TARGET ||| D3D11_BIND_SHADER_RESOURCE
      CPUAccessFlags := desc.CPUAccessFlags
      MiscFlags := desc.MiscFlags }
  let t : ColorTarget2D := { t with m_pTexture := texture.out }
  let fx := [DeviceEffect.CreateTexture2D td]
  if FAILED texture.hr then
    (false, t, fx ++ [DeviceEffect.ELOG
      "Error : ID3D11Device::CreateTexture2D() Failed. call from ColorTarget2D::Create(), errcode = 0x%x"])
  else
    let rtvd := targetViewDesc2D desc
    let fx := fx ++ [DeviceEffect.CreateRenderTargetView t.m_pTexture rtvd]
    let t : ColorTarget2D := { t with m_pRTV := view.out }
    if FAILED view.hr then
      let t : ColorTarget2D := { t with m_pTexture := none }
      (false, t, fx ++ [DeviceEffect.ELOG
        "Error : ID3D11Device::CreateRenderTargetView() Failed. call from ColorTarget::Create()"])
    else
      let srvd := shaderViewDesc2D desc.Format desc
      let fx := fx ++ [DeviceEffect.CreateShaderResourceView t.m_pTexture srvd]
      let t : ColorTarget2D := { t with m_pSRV := srv.out }
      if FAILED srv.hr then
        let t : ColorTarget2D := { t with m_pTexture := none }
        let t : ColorTarget2D := { t with m_pRTV := none }
        (false, t, fx ++ [DeviceEffect.ELOG
          "Error : ID3D11Device::CreateShaderResourceView() Failed. call from ColorTarget::Create()"])
      else
        (true, { t with m_Desc := desc }, fx)

/-- `bool ColorTarget2D::Create(ID3D11Device* pDevice, const TargetDesc2D&
desc)`; `none` when `assert(desc.ArraySize >= 1)` fails. -/
def Create (texture view srv : DeviceResult) (desc : TargetDesc2D)
    (t : ColorTarget2D) : Option (Bool × ColorTarget2D × List DeviceEffect) :=
  if desc.ArraySize ≥ 1 then some (CreateBody texture view srv desc t) else none

/-- `TargetDesc2D ColorTarget2D::GetDesc() const { return m_Desc; }` -/
def GetDesc (t : ColorTarget2D) : TargetDesc2D := t.m_Desc

end ColorTarget2D

namespace ColorTarget3D

/-- `bool ColorTarget3D::Create(ID3D11Device* pDevice, const TargetDesc3D&
desc)`. `texture`, `view` and `srv` are the answers of the device to
`CreateTexture3D`, `CreateRenderTargetView` and `CreateShaderResourceView`. -/
def Create (texture view srv : DeviceResult) (desc : TargetDesc3D)
    (t : ColorTarget3D) : Bool × ColorTarget3D × List DeviceEffect :=
  let textureFormat := ConvertColorFormat desc.Format
  let td : D3D11_TEXTURE3D_DESC :=
    { Width := desc.Width
      Height := desc.Height
      Depth := desc.Depth
      MipLevels := desc.MipLevels
      Format := textureFormat
      Usage := D3D11_USAGE.D3D11_USAGE_DEFAULT
      BindFlags := D3D11_BIND_RENDER_TARGET ||| D3D11_BIND_SHADER_RESOURCE
      CPUAccessFlags := desc.CPUAccessFlags
      MiscFlags := desc.MiscFlags }
  let t : ColorTarget3D := { t with m_pTexture := texture.out }
  let fx := [DeviceEffect.CreateTexture3D td]
  if FAILED texture.hr then
    (false, t, fx ++ [DeviceEffect.ELOG
      "Error : ID3D11Device::CreateTexture2D() Failed. call from ColorTarget::Create()"])
  else
    let rtvd : ViewDesc :=
      { Format := desc.Format, ViewDimension := ViewDimension.TEXTURE3D,
        FirstWSlice := 0, MipSlice := 0, WSize := desc.Depth }
    let fx := fx ++ [DeviceEffect.CreateRenderTargetView t.m_pTexture rtvd]
    let t : ColorTarget3D := { t with m_pRTV := view.out }
    if FAILED view.hr then
      let t : ColorTarget3D := { t with m_pTexture := none }
      (false, t, fx ++ [DeviceEffect.ELOG
        "Error : ID3D11Device::CreateRenderTargetView() Failed. call from ColorTarget::Create()"])
    else
      let srvd : ViewDesc :=
        { Format := desc.Format, MipLevels := desc.MipLevels, MostDetailedMip := 0 }
      let fx := fx ++ [DeviceEffect.CreateShaderResourceView t.m_pTexture srvd]
      let t : ColorTarget3D := { t with m_pSRV := srv.out }
      if FAILED srv.hr then
        let t : ColorTarget3D := { t with m_pTexture := none }
        let t : ColorTarget3D := { t with m_pRTV := none }
        (false, t, fx ++ [DeviceEffect.ELOG
          "Error : ID3D11Device::CreateShaderResourceView() Failed. call from ColorTarget::Create()"])
      else
        (true, { t with m_Desc := desc }, fx)

/-- `TargetDesc3D ColorTarget3D::GetDesc() const { return m_Desc; }` -/
def GetDesc (t : ColorTarget3D) : TargetDesc3D := t.m_Desc

end ColorTarget3D

namespace DepthTarget2D

/-- The body of `DepthTarget2D::Create` after its `assert`. `texture`,
`view` and `srv` are the answers of the device to `CreateTexture2D`,
`CreateDepthStencilView` and `CreateShaderResourceView`. -/
def CreateBody (texture view srv : DeviceResult) (desc : TargetDesc2D)
    (t : DepthTarget2D) : Bool × DepthTarget2D × List DeviceEffect :=
  let textureFormat := (ConvertDepthFormat desc.Format).1
  let resourceFormat := (ConvertDepthFormat desc.Format).2
  let td : D3D11_TEXTURE2D_DESC :=
    { Width := desc.Width
      Height := desc.Height
      MipLevels := desc.MipLevels
      ArraySize := desc.ArraySize
      Format := textureFormat
      SampleDesc := ⟨desc.SampleDesc.Count, desc.SampleDesc.Quality⟩
      Usage := D3D11_USAGE.D3D11_USAGE_DEFAULT
      BindFlags := D3D11_BIND_DEPTH_STENCIL ||| D3D11_BIND_SHADER_RESOURCE
      CPUAccessFlags := desc.CPUAccessFlags
      MiscFlags := desc.MiscFlags }
  let t : DepthTarget2D := { t with m_pTexture := texture.out }
  let fx := [DeviceEffect.CreateTexture2D td]
  if FAILED texture.hr then
    (false, t, fx ++ [DeviceEffect.ELOG
      "Error : ID3D11Device::CreateTexture2D() Failed. call from DepthTarget::Create()"])
  else
    let dsvd := targetViewDesc2D desc
    let fx := fx ++ [DeviceEffect.CreateDepthStencilView t.m_pTexture dsvd]
    let t : DepthTarget2D := { t with m_pDSV := view.out }
    if FAILED view.hr then
      let t : DepthTarget2D := { t with m_pTexture := none }
      (false, t, fx ++ [DeviceEffect.ELOG
        "Error : ID3D11Device::CreateDepthStencilView() Failed. call from DepthTarget::Create()"])
    else
      let srvd := shaderViewDesc2D resourceFormat desc
      let fx := fx ++ [DeviceEffect.CreateShaderResourceView t.m_pTexture srvd]
      let t : DepthTarget2D := { t with m_pSRV := srv.out }
      if FAILED srv.hr then
        let t : DepthTarget2D := { t with m_pTexture := none }
        let t : DepthTarget2D := { t with m_pDSV := none }
        (false, t, fx ++ [DeviceEffect.ELOG
          "Error : ID3D11Device::CreateShaderResourceView() Failed. call from DepthTarget::Create()"])
      else
        (true, { t with m_Desc := desc }, fx)

/-- `bool DepthTarget2D::Create(ID3D11Device* pDevice, const TargetDesc2D&
desc)`; `none` when `assert(desc.ArraySize >= 1)` fails. -/
def Create (texture view srv : DeviceResult) (desc : TargetDesc2D)
    (t : DepthTarget2D) : Option (Bool × DepthTarget2D × List DeviceEffect) :=
  if desc.ArraySize ≥ 1 then some (CreateBody texture view srv desc t) else none

/-- `TargetDesc2D DepthTarget2D::GetDesc() const { return m_Desc; }` -/
def GetDesc (t : DepthTarget2D) : TargetDesc2D := t.m_Desc

end DepthTarget2D

/-! ## asdxBuffer.h / asdxBuffer.cpp : the buffer wrappers

`pDevice` and `pInitData` are `none` for a null pointer. `size_t` and
`uint32_t` arguments are natural numbers; a conversion `UINT(x)` or
`uint32_t(x)` is `x % 2^32`. -/

/-- `class VertexBuffer` -/
structure VertexBuffer where
  m_Buffer : Option Nat
  m_SRV : Option Nat
  /-- `uint32_t m_Stride` -/
  m_Stride : Nat
  deriving DecidableEq, Repr

/-- `class IndexBuffer` -/
structure IndexBuffer where
  m_Buffer : Option Nat
  m_SRV : Option Nat
  deriving DecidableEq, Repr

/-- `class ConstantBuffer` -/
structure ConstantBuffer where
  m_Buffer : Option Nat
  deriving DecidableEq, Repr

/-- `class StructuredBuffer` -/
structure StructuredBuffer where
  m_Buffer : Option Nat
  m_SRV : Option Nat
  m_UAV : Option Nat
  deriving DecidableEq, Repr

/-- `class RawBuffer` -/
structure RawBuffer where
  m_Buffer : Option Nat
  m_SRV : Option Nat
  m_UAV : Option Nat
  deriving DecidableEq, Repr

namespace VertexBuffer

/-- `bool VertexBuffer::Init(ID3D11Device* pDevice, size_t size, size_t
stride, const void* pInitData, bool isDynamic, bool isSRV)`. `buffer` and
`srv` are the answers of the device to `CreateBuffer` and
`CreateShaderResourceView`. -/
def Init (buffer srv : DeviceResult) (pDevice : Option Nat) (size stride : Nat)
    (pInitData : Option Nat) (isDynamic isSRV : Bool) (b : VertexBuffer) :
    Bool × VertexBuffer × List DeviceEffect :=
  if pDevice = none ∨ size = 0 then
    (false, b, [DeviceEffect.ELOG "Error : Invalid Argument."])
  else
    let desc : D3D11_BUFFER_DESC :=
      { BindFlags := D3D11_BIND_VERTEX_BUFFER ||| D3D11_BIND_SHADER_RESOURCE
          ||| D3D11_BIND_UNORDERED_ACCESS
        Usage := if isDynamic then D3D11_USAGE.D3D11_USAGE_DYNAMIC
          else D3D11_USAGE.D3D11_USAGE_DEFAULT
        CPUAccessFlags := if isDynamic then D3D11_CPU_ACCESS_WRITE else 0
        ByteWidth := size % 2 ^ 32
        MiscFlags := D3D11_RESOURCE_MISC_BUFFER_ALLOW_RAW_VIEWS
        StructureByteStride := 0 }
    let fx := [DeviceEffect.CreateBuffer desc pInitData.isSome]
    let b : VertexBuffer := { b with m_Buffer := buffer.out }
    if FAILED buffer.hr then
      (false, b, fx ++ [DeviceEffect.ELOG "Error : ID3D11Device::CreateBuffer() Failed."])
    else if isSRV then
      let srvDesc : ViewDesc :=
        { ViewDimension := ViewDimension.BUFFEREX
          Format := DXGI_FORMAT_R32_TYPELESS
          Flags := D3D11_BUFFEREX_SRV_FLAG_RAW
          FirstElement := 0
          NumElements := desc.ByteWidth / 4 }
      let fx := fx ++ [DeviceEffect.CreateShaderResourceView b.m_Buffer srvDesc]
      let b : VertexBuffer := { b with m_SRV := srv.out }
      if FAILED srv.hr then
        (false, b, fx ++
          [DeviceEffect.ELOG "Error : ID3D11Device::CreateShaderResourceView() Failed."])
      else
        (true, { b with m_Stride := stride % 2 ^ 32 }, fx)
    else
      (true, { b with m_Stride := stride % 2 ^ 32 }, fx)

/-- `void VertexBuffer::Term()` -/
def Term (b : VertexBuffer) : VertexBuffer :=
  let b : VertexBuffer := { b with m_SRV := none }
  let b : VertexBuffer := { b with m_Buffer := none }
  { b with m_Stride := 0 }

/-- `uint32_t VertexBuffer::GetStride() const { return m_Stride; }` -/
def GetStride (b : VertexBuffer) : Nat := b.m_Stride

end VertexBuffer

namespace IndexBuffer

/-- `bool IndexBuffer::Init(ID3D11Device* pDevice, size_t size, const
uint32_t* pInitData, bool isDynamic)` -/
def Init (buffer srv : DeviceResult) (pDevice : Option Nat) (size : Nat)
    (pInitData : Option Nat) (isDynamic : Bool) (b : IndexBuffer) :
    Bool × IndexBuffer × List DeviceEffect :=
  if pDevice = none ∨ size = 0 then
    (false, b, [DeviceEffect.ELOG "Error : Invalid Argument."])
  else
    let desc : D3D11_BUFFER_DESC :=
      { BindFlags := D3D11_BIND_INDEX_BUFFER ||| D3D11_BIND_SHADER_RESOURCE
          ||| D3D11_BIND_UNORDERED_ACCESS
        ByteWidth := size % 2 ^ 32
        Usage := if isDynamic then D3D11_USAGE.D3D11_USAGE_DYNAMIC
          else D3D11_USAGE.D3D11_USAGE_DEFAULT
        CPUAccessFlags := if isDynamic then D3D11_CPU_ACCESS_WRITE else 0
        MiscFlags := D3D11_RESOURCE_MISC_BUFFER_ALLOW_RAW_VIEWS
        StructureByteStride := 0 }
    let fx := [DeviceEffect.CreateBuffer desc pInitData.isSome]
    let b : IndexBuffer := { b with m_Buffer := buffer.out }
    if FAILED buffer.hr then
      (false, b, fx ++ [DeviceEffect.ELOG "Error : ID3D11Device::CreateBuffer() Failed."])
    else
      let srvDesc : ViewDesc :=
        { ViewDimension := ViewDimension.BUFFEREX
          Format := DXGI_FORMAT_R32_TYPELESS
          FirstElement := 0
          Flags := D3D11_BUFFEREX_SRV_FLAG_RAW
          NumElements := desc.ByteWidth / 4 }
      let fx := fx ++ [DeviceEffect.CreateShaderResourceView b.m_Buffer srvDesc]
      let b : IndexBuffer := { b with m_SRV := srv.out }
      if FAILED srv.hr then
        (false, b, fx ++
          [DeviceEffect.ELOG "Error : ID3D11Device::CreateShaderResourceView() Failed."])
      else
        (true, b, fx)

end IndexBuffer

namespace ConstantBuffer

/-- `bool ConstantBuffer::Init(ID3D11Device* pDevice, size_t size, bool
mappable)` -/
def Init (buffer : DeviceResult) (pDevice : Option Nat) (size : Nat)
    (mappable : Bool) (b : ConstantBuffer) :
    Bool × ConstantBuffer × List DeviceEffect :=
  if pDevice = none ∨ size = 0 then
    (false, b, [DeviceEffect.ELOG "Error : Invalid Argument."])
  else
    let desc : D3D11_BUFFER_DESC :=
      { Usage := if mappable then D3D11_USAGE.D3D11_USAGE_DYNAMIC
          else D3D11_USAGE.D3D11_USAGE_DEFAULT
        BindFlags := D3D11_BIND_CONSTANT_BUFFER
        ByteWidth := size % 2 ^ 32
        CPUAccessFlags := if mappable then D3D11_CPU_ACCESS_WRITE else 0
        MiscFlags := 0
        StructureByteStride := 0 }
    let fx := [DeviceEffect.CreateBuffer desc false]
    let b : ConstantBuffer := { b with m_Buffer := buffer.out }
    if FAILED buffer.hr then
      (false, b, fx ++ [DeviceEffect.ELOG "Error : ID3D11Device::CreateBuffer() Failed."])
    else
      (true, b, fx)

end ConstantBuffer

namespace StructuredBuffer

/-- `bool StructuredBuffer::Init(ID3D11Device* pDevice, uint32_t size,
uint32_t stride, const void* pInitData, bool uav)`. `none` is the division
by a zero `StructureByteStride`, whose behaviour is undefined. -/
def Init (buffer srv uavView : DeviceResult) (pDevice : Option Nat) (size stride : Nat)
    (pInitData : Option Nat) (uav : Bool) (b : StructuredBuffer) :
    Option (Bool × StructuredBuffer × List DeviceEffect) :=
  if pDevice = none ∨ size = 0 then
    some (false, b, [DeviceEffect.ELOG "Error : Invalid Argument."])
  else
    let bindFlags := D3D11_BIND_SHADER_RESOURCE
    let bindFlags := if uav then bindFlags ||| D3D11_BIND_UNORDERED_ACCESS else bindFlags
    let desc : D3D11_BUFFER_DESC :=
      { BindFlags := bindFlags
        ByteWidth := size
        MiscFlags := D3D11_RESOURCE_MISC_BUFFER_STRUCTURED
        StructureByteStride := stride
        Usage := D3D11_USAGE.D3D11_USAGE_DEFAULT
        CPUAccessFlags := 0 }
    let fx := [DeviceEffect.CreateBuffer desc pInitData.isSome]
    let b : StructuredBuffer := { b with m_Buffer := buffer.out }
    if FAILED buffer.hr then
      some (false, b,
        fx ++ [DeviceEffect.ELOG "Error : ID3D11Device::CreateBuffer() Failed."])
    else if desc.StructureByteStride = 0 then
      none
    else
      let srvDesc : ViewDesc :=
        { ViewDimension := ViewDimension.BUFFEREX
          Format := DXGI_FORMAT_UNKNOWN
          FirstElement := 0
          NumElements := desc.ByteWidth / desc.StructureByteStride }
      let fx := fx ++ [DeviceEffect.CreateShaderResourceView b.m_Buffer srvDesc]
      let b : StructuredBuffer := { b with m_SRV := srv.out }
      if FAILED srv.hr then
        some (false, b, fx ++
          [DeviceEffect.ELOG "Error : ID3D11Device::CreateShaderResourceView() Failed."])
      else if uav then
        let uavDesc : ViewDesc :=
          { Format := DXGI_FORMAT_UNKNOWN
            ViewDimension := ViewDimension.BUFFER
            FirstElement := 0
            NumElements := desc.ByteWidth / desc.StructureByteStride }
        let fx := fx ++ [DeviceEffect.CreateUnorderedAccessView b.m_Buffer uavDesc]
        let b : StructuredBuffer := { b with m_UAV := uavView.out }
        if FAILED uavView.hr then
          some (false, b, fx ++
            [DeviceEffect.ELOG "Error : ID3D11Device::CreateUnorderedAccessView() Failed."])
        else
          some (true, b, fx)
      else
        some (true, b, fx)

end StructuredBuffer

namespace RawBuffer

/-- `bool RawBuffer::Init(ID3D11Device* pDevice, uint32_t size, const void*
pInitData, bool uav)` -/
def Init (buffer srv uavView : DeviceResult) (pDevice : Option Nat) (size : Nat)
    (pInitData : Option Nat) (uav : Bool) (b : RawBuffer) :
    Bool × RawBuffer × List DeviceEffect :=
  if pDevice = none ∨ size = 0 then
    (false, b, [DeviceEffect.ELOG "Error : Invalid Argument."])
  else
    let bindFlags := D3D11_BIND_SHADER_RESOURCE
    let bindFlags := if uav then bindFlags ||| D3D11_BIND_UNORDERED_ACCESS else bindFlags
    let desc : D3D11_BUFFER_DESC :=
      { BindFlags := bindFlags
        ByteWidth := size
        MiscFlags := 0
        StructureByteStride := 0
        Usage := D3D11_USAGE.D3D11_USAGE_DEFAULT
        CPUAccessFlags := 0 }
    let fx := [DeviceEffect.CreateBuffer desc pInitData.isSome]
    let b : RawBuffer := { b with m_Buffer := buffer.out }
    if FAILED buffer.hr then
      (false, b, fx ++ [DeviceEffect.ELOG "Error : ID3D11Device::CreateBuffer() Failed."])
    else
      let srvDesc : ViewDesc :=
        { ViewDimension := ViewDimension.BUFFEREX
          Format := DXGI_FORMAT_R32_TYPELESS
          FirstElement := 0
          NumElements := size / 4
          Flags := D3D11_BUFFEREX_SRV_FLAG_RAW }
      let fx := fx ++ [DeviceEffect.CreateShaderResourceView b.m_Buffer srvDesc]
      let b : RawBuffer := { b with m_SRV := srv.out }
      if FAILED srv.hr then
        (false, b, fx ++
          [DeviceEffect.ELOG "Error : ID3D11Device::CreateShaderResourceView() Failed."])
      else if uav then
        let uavDesc : ViewDesc :=
          { Format := DXGI_FORMAT_R32_TYPELESS
            ViewDimension := ViewDimension.BUFFER
            FirstElement := 0
            NumElements := size / 4
            Flags := D3D11_BUFFER_UAV_FLAG_RAW }
        let fx := fx ++ [DeviceEffect.CreateUnorderedAccessView b.m_Buffer uavDesc]
        let b : RawBuffer := { b with m_UAV := uavView.out }
        if FAILED uavView.hr then
          (false, b, fx ++
            [DeviceEffect.ELOG "Error : ID3D11Device::CreateUnorderedAccessView() Failed."])
        else
          (true, b, fx)
      else
        (true, b, fx)

end RawBuffer

/-! ## asdxDeviceContext.cpp : `DeviceContext::Init`

The build options are arguments: `on12` is `ASDX_ENABLE_D3D11ON12`, `debug`
is `defined(DEBUG) || defined(_DEBUG)`. The answers of Direct3D and DXGI come
from an `InitWorld`. -/

/-- `enum D3D_DRIVER_TYPE` (d3dcommon.h) -/
inductive D3D_DRIVER_TYPE where
  | D3D_DRIVER_TYPE_UNKNOWN
  | D3D_DRIVER_TYPE_HARDWARE
  | D3D_DRIVER_TYPE_REFERENCE
  | D3D_DRIVER_TYPE_NULL
  | D3D_DRIVER_TYPE_SOFTWARE
  | D3D_DRIVER_TYPE_WARP
  deriving DecidableEq, Repr

/-- `D3D11_CREATE_DEVICE_DEBUG` (d3d11.h) -/
def D3D11_CREATE_DEVICE_DEBUG : Nat := 0x2
/-- `D3D11_CREATE_DEVICE_BGRA_SUPPORT` (d3d11.h) -/
def D3D11_CREATE_DEVICE_BGRA_SUPPORT : Nat := 0x20

/-- The calls of `DeviceContext::Init` after the device creation loop that
can make it fail, in program order. -/
inductive InitStep where
  /-- `device->QueryInterface(IID_PPV_ARGS(m_pDevice.GetAddress()))` -/
  | queryDevice
  /-- `context->QueryInterface(IID_PPV_ARGS(m_pContext.GetAddress()))` -/
  | queryContext
  /-- `m_pDevice->QueryInterface(IID_PPV_ARGS(m_DXGIDevice.GetAddress()))` -/
  | queryDXGIDevice
  /-- `m_DXGIDevice->GetAdapter(m_DXGIAdapter.GetAddress())` -/
  | getAdapter
  /-- `m_DXGIAdapter->GetParent(IID_PPV_ARGS(m_DXGIFactory.GetAddress()))` -/
  | getParent
  /-- `m_pContext->QueryInterface(IID_PPV_ARGS(m_Annotation.GetAddress()))` -/
  | queryAnnotation
  /-- `m_pDevice->CreateRasterizerState(&desc, m_DefaultRS.GetAddress())` -/
  | createRasterizerState
  /-- `m_pDevice->CreateDepthStencilState(&desc, m_DefaultDSS.GetAddress())` -/
  | createDepthStencilState
  /-- `m_pDevice->CreateBlendState(&desc, m_DefaultBS.GetAddress())` -/
  | createBlendState
  deriving DecidableEq, Repr

/-- The answers of Direct3D and DXGI during one `DeviceContext::Init`. -/
structure InitWorld where
  /-- The return value of `InitD3D12()`. -/
  initD3D12 : Bool
  /-- The `HRESULT` of the device creation attempted while `m_DriverType`
  is the given type. -/
  createDevice : D3D_DRIVER_TYPE → HRESULT
  /-- The `HRESULT` of `m_pDevice->QueryInterface` for `m_pInfoQueue`. -/
  queryInfoQueue : HRESULT
  /-- The `HRESULT` of each later step. -/
  step : InitStep → HRESULT

/-- What `DeviceContext::Init` does to the outside world. -/
inductive InitEffect where
  /-- The call `InitD3D12()`. -/
  | InitD3D12
  /-- One device creation attempt: `D3D11CreateDevice(nullptr, m_DriverType,
  ...)`, or with `on12` the call `D3D11On12CreateDevice(...)`, which does not
  receive the driver type; `driverType` is `m_DriverType` during the call. -/
  | createDevice (on12 : Bool) (driverType : D3D_DRIVER_TYPE) (createDeviceFlags : Nat)
  /-- `m_pDevice->QueryInterface` for `m_pInfoQueue`. -/
  | queryInfoQueue
  /-- The two `m_pInfoQueue->SetBreakOnSeverity(..., TRUE)` calls. -/
  | setBreakOnSeverity
  /-- One of the later calls. -/
  | step (s : InitStep)
  /-- `m_pContext->RSSetState(m_DefaultRS.GetPtr())` -/
  | RSSetState
  /-- `ELOG(...)` -/
  | ELOG (message : String)
  deriving DecidableEq, Repr

/-- `class DeviceContext`: the member `m_DriverType`. The interface
pointers the calls fill in are not carried. -/
structure DeviceContext where
  m_DriverType : D3D_DRIVER_TYPE
  deriving DecidableEq, Repr

namespace DeviceContext

/-- `D3D_DRIVER_TYPE driverTypes[]` of `DeviceContext::Init`. -/
def driverTypes : List D3D_DRIVER_TYPE :=
  [D3D_DRIVER_TYPE.D3D_DRIVER_TYPE_HARDWARE, D3D_DRIVER_TYPE.D3D_DRIVER_TYPE_WARP,
   D3D_DRIVER_TYPE.D3D_DRIVER_TYPE_REFERENCE]

/-- The loop `for (i = 0; i < driverTypeCount; ++i) { m_DriverType =
driverTypes[i]; hr = ...CreateDevice(...); if (SUCCEEDED(hr)) break; }` over
the driver types still to try. `hr` and `dc` are the values before the
loop; the result is `hr`, the context and the effects after it. -/
def createLoop (world : InitWorld) (on12 : Bool) (createDeviceFlags : Nat) :
    List D3D_DRIVER_TYPE → HRESULT → DeviceContext →
      HRESULT × DeviceContext × List InitEffect
  | [], hr, dc => (hr, dc, [])
  | t :: rest, _, dc =>
    let dc : DeviceContext := { dc with m_DriverType := t }
    let hr := world.createDevice dc.m_DriverType
    let fx := [InitEffect.createDevice on12 dc.m_DriverType createDeviceFlags]
    if SUCCEEDED hr then
      (hr, dc, fx)
    else
      let r := createLoop world on12 createDeviceFlags rest hr dc
      (r.1, r.2.1, fx ++ r.2.2)

/-- The steps of `DeviceContext::Init` after the first `QueryInterface`, each
with the message logged when it fails: run in order until one fails. -/
def laterSteps (world : InitWorld) :
    List (InitStep × String) → Bool × List InitEffect
  | [] => (true, [])
  | (s, message) :: rest =>
    let hr := world.step s
    if FAILED hr then
      (false, [InitEffect.step s, InitEffect.ELOG message])
    else
      let after :=
        if s = InitStep.createRasterizerState then [InitEffect.RSSetState] else []
      let r := laterSteps world rest
      (r.1, InitEffect.step s :: after ++ r.2)

/-- `bool DeviceContext::Init()` -/
def Init (world : InitWorld) (on12 debug : Bool) (dc : DeviceContext) :
    Bool × DeviceContext × List InitEffect :=
  if on12 ∧ ¬ world.initD3D12 then
    (false, dc, [InitEffect.InitD3D12, InitEffect.ELOG "Error : InitD3D12() Failed."])
  else
    let fx0 := if on12 then [InitEffect.InitD3D12] else []
    let createDeviceFlags := 0
    let createDeviceFlags :=
      if debug then createDeviceFlags ||| D3D11_CREATE_DEVICE_DEBUG else createDeviceFlags
    let createDeviceFlags := createDeviceFlags ||| D3D11_CREATE_DEVICE_BGRA_SUPPORT
    let r := createLoop world on12 createDeviceFlags driverTypes S_OK dc
    let hr := r.1
    let dc := r.2.1
    let fx := fx0 ++ r.2.2
    if FAILED hr then
      (false, dc, fx ++
        [InitEffect.ELOG "Error : D3D11CreateDevice() Failed. errcode = 0x%x"])
    else if FAILED (world.step InitStep.queryDevice) then
      (false, dc, fx ++ [InitEffect.step InitStep.queryDevice,
        InitEffect.ELOG "Error : ID3D11Device::QueryInterface() Failed. errcode = 0x%x"])
    else
      let fx := fx ++ [InitEffect.step InitStep.queryDevice]
      let fx :=
        if debug then
          if SUCCEEDED world.queryInfoQueue then
            fx ++ [InitEffect.queryInfoQueue, InitEffect.setBreakOnSeverity]
          else fx ++ [InitEffect.queryInfoQueue]
        else fx
      let r := laterSteps world
        [(InitStep.queryContext,
            "Error : ID3D11DeviceContext::QueryInterface() Failed. errcode = 0x%x"),
         (InitStep.queryDXGIDevice,
            "Error : ID3D11Device::QueryInterface() Failed. errcode = 0x%x"),
         (InitStep.getAdapter, "Error : IDXGIDevice::GetAdapter() Failed. errcode = 0x%x"),
         (InitStep.getParent, "Error : IDXGIAdapter::GetParent() Failed. errcode = 0x%x"),
         (InitStep.queryAnnotation,
            "Error : ID3D11DeviceContext::QueryInterface() Failed. errcode = 0x%x"),
         (InitStep.createRasterizerState,
            "Error : ID3D11Device::CreateRasterizerState() Failed. errcode = 0x%x"),
         (InitStep.createDepthStencilState,
            "Error : ID3D11Device::CreateDepthStencilState() Failed. errcode = 0x%x"),
         (InitStep.createBlendState,
            "Error : ID3D11Device::CreateBlendState() Failed. errcode = 0x%x")]
      (r.1, dc, fx ++ r.2)

/-- `D3D_DRIVER_TYPE DeviceContext::GetDriverType() const` -/
def GetDriverType (dc : DeviceContext) : D3D_DRIVER_TYPE := dc.m_DriverType

end DeviceContext

/-- The driver types of the device creation attempts among the effects, in
order. -/
def createAttempts : List InitEffect → List D3D_DRIVER_TYPE
  | [] => []
  | InitEffect.createDevice _ t _ :: es => t :: createAttempts es
  | _ :: es => createAttempts es

/-! ## `float` arithmetic of asdxApp.cpp -/

/-- The `float` operations asdxApp.cpp applies in its resize code:
`ofUInt32 n` is the conversion `float(n)` / `(FLOAT)n` of a `uint32_t`,
`div a b` the quotient `a / b` of two `float`s, `zero` and `one` the
constants `0.0f` (also the `int` literal `0` stored in a `float`) and
`1.0f`. -/
structure FloatArith (F : Type) where
  ofUInt32 : Nat → F
  div : F → F → F
  zero : F
  one : F

/-- An IEEE 754 binary32 value, the `float` of the compilers the framework
is built with: a finite number given by its sign and its magnitude
(`finite true 0` is the negative zero), an infinity with its sign, or a NaN
(the payload is not modelled). -/
inductive Binary32 where
  | finite (negative : Bool) (magnitude : ℚ)
  | infinity (negative : Bool)
  | nan
  deriving DecidableEq, Repr

namespace Binary32

/-- The numerator of `n / d * 2^s`, over the denominator `scaleDen d s`. -/
def scaleNum (n : Nat) (s : Int) : Nat := n * 2 ^ s.toNat

/-- The denominator of `n / d * 2^s`, under the numerator `scaleNum n s`. -/
def scaleDen (d : Nat) (s : Int) : Nat := d * 2 ^ (-s).toNat

/-- The number of times `n` can be halved before it drops below 2, in at
most `fuel` steps. -/
def ilog2Fuel : Nat → Nat → Nat
  | 0, _ => 0
  | fuel + 1, n => if 2 ≤ n then ilog2Fuel fuel (n / 2) + 1 else 0

/-- The binary logarithm of a positive integer, rounded down: the position
of its leading bit. -/
def ilog2 (n : Nat) : Nat := ilog2Fuel n n

/-- The binary exponent of `n / d` for positive `n` and `d`: the `e` with
`2^e <= n / d < 2^(e+1)`. It is the difference of the logarithms of `n` and
`d`, or one less. -/
def exponent (n d : Nat) : Int :=
  let e0 : Int := (ilog2 n : Int) - (ilog2 d : Int)
  if scaleDen d (-e0) ≤ scaleNum n (-e0) then e0 else e0 - 1

/-- The magnitude of the binary32 nearest to `n / d` (positive `n`, `d`) in
the default rounding mode, round to nearest with ties to even, before the
check for overflow: a multiple of `2^(e-23)` with `e` the exponent of
`n / d`, not below the exponent -126 of the subnormal numbers. -/
def roundMagnitude (n d : Nat) : ℚ :=
  let e : Int := max (exponent n d) (-126)
  let s : Int := 23 - e
  let N := scaleNum n s
  let D := scaleDen d s
  let q := N / D
  let r := N % D
  let m :=
    if 2 * r < D then q
    else if D < 2 * r then q + 1
    else if q % 2 = 0 then q else q + 1
  (scaleNum m (-s) : ℚ) / (scaleDen 1 (-s) : ℚ)

/-- The binary32 that the exact value `n / d` (with `d > 0`) and the sign
`negative` round to: zero keeps its sign, a magnitude that rounds to `2^128`
or more overflows to infinity. -/
def round (negative : Bool) (n d : Nat) : Binary32 :=
  if n = 0 then finite negative 0
  else if 2 ^ 128 ≤ roundMagnitude n d then infinity negative
  else finite negative (roundMagnitude n d)

/-- The conversion of a `uint32_t` to `float`. -/
def ofUInt32 (n : Nat) : Binary32 := round false n 1

/-- The quotient `a / b` of two `float`s. -/
def div : Binary32 → Binary32 → Binary32
  | nan, _ => nan
  | _, nan => nan
  | infinity _, infinity _ => nan
  | infinity s, finite t _ => infinity (s != t)
  | finite s _, infinity t => finite (s != t) 0
  | finite s x, finite t y =>
    if y = 0 then (if x = 0 then nan else infinity (s != t))
    else round (s != t) (x.num.natAbs * y.den) (x.den * y.num.natAbs)

end Binary32

/-- The `float` arithmetic of IEEE 754 binary32. -/
def binary32 : FloatArith Binary32 where
  ofUInt32 := Binary32.ofUInt32
  div := Binary32.div
  zero := Binary32.finite false 0
  one := Binary32.finite false 1

/-! ## asdxApp.cpp : `WM_SIZE` and `Application::ResizeEvent` -/

/-- The macro `LOWORD(l)` (minwindef.h) -/
def LOWORD (l : Nat) : Nat := l % 65536

/-- The macro `HIWORD(l)` (minwindef.h) -/
def HIWORD (l : Nat) : Nat := (l / 65536) % 65536

/-- Modelled from the spec: asdxMath.h is not among the sources;
`asdx::Max(a, b)` is the larger of the two. -/
def Max (a b : Nat) : Nat := if a > b then a else b

/-- `struct ResizeEventArgs` (asdxApp.h), with the fields asdxApp.cpp uses. -/
structure ResizeEventArgs (F : Type) where
  /-- `uint32_t Width` -/
  Width : Nat
  /-- `uint32_t Height` -/
  Height : Nat
  /-- `float AspectRatio` -/
  AspectRatio : F

/-- `D3D11_VIEWPORT` (d3d11.h) -/
structure D3D11_VIEWPORT (F : Type) where
  TopLeftX : F
  TopLeftY : F
  Width : F
  Height : F
  MinDepth : F
  MaxDepth : F

/-- `RECT` / `D3D11_RECT` (windef.h) -/
structure RECT where
  left : Int
  top : Int
  right : Int
  bottom : Int
  deriving DecidableEq, Repr

/-- The members of `Application` that `ResizeEvent` reads or writes.
`hasSwapChain` and `hasDeviceContext` tell whether `m_pSwapChain` and
`m_pDeviceContext` are non-null. -/
structure AppWindow (F : Type) where
  m_Width : Nat
  m_Height : Nat
  m_AspectRatio : F
  hasSwapChain : Bool
  hasDeviceContext : Bool
  m_SwapChainCount : Nat
  m_SwapChainFormat : DXGI_FORMAT
  m_DepthStencilFormat : DXGI_FORMAT
  m_MultiSampleCount : Nat
  m_MultiSampleQuality : Nat
  m_Viewport : D3D11_VIEWPORT F
  m_ScissorRect : RECT

/-- What `ResizeEvent` does outside the members above, in program order.
The calls on the members `m_ColorTarget2D` and `m_DepthTarget2D` are single
effects. -/
inductive ResizeEffect (F : Type) where
  /-- `m_pSwapChain->Present(0, 0)` -/
  | Present (syncInterval flags : Nat)
  /-- `m_pDeviceContext->OMSetRenderTargets(1, ...)`, with null views when
  `unbind`. -/
  | OMSetRenderTargets (unbind : Bool)
  /-- `m_ColorTarget2D.Release()` -/
  | ReleaseColorTarget
  /-- `m_DepthTarget2D.Release()` -/
  | ReleaseDepthTarget
  /-- `m_pSwapChain->ResizeBuffers(count, 0, 0, format, 0)` -/
  | ResizeBuffers (count : Nat) (format : DXGI_FORMAT)
  /-- `m_ColorTarget2D.CreateFromBackBuffer(m_pDevice, m_pSwapChain)` -/
  | CreateFromBackBuffer
  /-- `m_DepthTarget2D.Create(m_pDevice, desc)` -/
  | CreateDepthTarget (desc : TargetDesc2D)
  /-- `m_pDeviceContext->RSSetViewports(1, &m_Viewport)` -/
  | RSSetViewports (viewport : D3D11_VIEWPORT F)
  /-- `m_pDeviceContext->RSSetScissorRects(1, &m_ScissorRect)` -/
  | RSSetScissorRects (rect : RECT)
  /-- `DLOG(...)` -/
  | DLOG (message : String)
  /-- The virtual call `OnResize(param)`. -/
  | OnResize (param : ResizeEventArgs F)

/-- The answers of DXGI and of the target members during one `ResizeEvent`. -/
structure ResizeWorld where
  resizeBuffers : HRESULT
  createFromBackBuffer : Bool
  createDepthTarget : Bool

section ResizeModel

variable {F : Type}

/-- The `ResizeEventArgs` built in the `WM_SIZE` case of
`Application::MsgProc` from `lp`. The last assignment is
`args.AspectRatio = float( args.Width ) / args.Height;`: both operands are
converted to `float` and divided as `float`s. -/
def resizeArgsOfSize (fl : FloatArith F) (lp : Nat) : ResizeEventArgs F :=
  let w := LOWORD lp
  let h := HIWORD lp
  let Width := Max w 8
  let Height := Max h 8
  { Width := Width
    Height := Height
    AspectRatio := fl.div (fl.ofUInt32 Width) (fl.ofUInt32 Height) }

/-- `void Application::ResizeEvent(const ResizeEventArgs& param)` -/
def ResizeEvent (fl : FloatArith F) (world : ResizeWorld) (param : ResizeEventArgs F)
    (app : AppWindow F) : AppWindow F × List (ResizeEffect F) :=
  if param.Width = 1 ∧ param.Height = 1 then
    (app, [])
  else
    let app : AppWindow F :=
      { app with
        m_Width := param.Width
        m_Height := param.Height
        m_AspectRatio := param.AspectRatio }
    if app.hasSwapChain ∧ app.hasDeviceContext then
      let fx : List (ResizeEffect F) :=
        [ResizeEffect.Present 0 0, ResizeEffect.OMSetRenderTargets true,
         ResizeEffect.ReleaseColorTarget, ResizeEffect.ReleaseDepthTarget,
         ResizeEffect.ResizeBuffers app.m_SwapChainCount app.m_SwapChainFormat]
      let fx := if FAILED world.resizeBuffers then
        fx ++ [ResizeEffect.DLOG "Error : IDXGISwapChain::ResizeBuffer() Failed."] else fx
      let fx := fx ++ [ResizeEffect.CreateFromBackBuffer]
      let fx := if ¬ world.createFromBackBuffer then
        fx ++ [ResizeEffect.DLOG "Error : RenderTarget2D::CreateFromBackBuffer() Failed."]
        else fx
      let desc : TargetDesc2D :=
        { Width := app.m_Width
          Height := app.m_Height
          MipLevels := 1
          ArraySize := 1
          Format := app.m_DepthStencilFormat
          SampleDesc := ⟨app.m_MultiSampleCount, app.m_MultiSampleQuality⟩
          CPUAccessFlags := 0
          MiscFlags := 0 }
      let fx := fx ++ [ResizeEffect.CreateDepthTarget desc]
      let fx := if ¬ world.createDepthTarget then
        fx ++ [ResizeEffect.DLOG "Error : DepthStencilTarget::Create() Failed."] else fx
      let fx := fx ++ [ResizeEffect.OMSetRenderTargets false]
      let app : AppWindow F :=
        { app with
          m_Viewport :=
            { Width := fl.ofUInt32 app.m_Width
              Height := fl.ofUInt32 app.m_Height
              MinDepth := fl.zero
              MaxDepth := fl.one
              TopLeftX := fl.zero
              TopLeftY := fl.zero }
          m_ScissorRect :=
            { left := 0
              right := wrapInt32 (app.m_Width : Int)
              top := 0
              bottom := wrapInt32 (app.m_Height : Int) } }
      let fx := fx ++ [ResizeEffect.RSSetViewports app.m_Viewport,
        ResizeEffect.RSSetScissorRects app.m_ScissorRect]
      (app, fx ++ [ResizeEffect.OnResize param])
    else
      (app, [ResizeEffect.OnResize param])

/-- The `case WM_SIZE:` of `Application::MsgProc`; `pInstance` is the
application registered with the window, `none` for a null pointer. -/
def MsgProc_WM_SIZE (fl : FloatArith F) (world : ResizeWorld) (lp : Nat)
    (pInstance : Option (AppWindow F)) : Option (AppWindow F) × List (ResizeEffect F) :=
  let args : ResizeEventArgs F := resizeArgsOfSize fl lp
  match pInstance with
  | some app =>
    (some (ResizeEvent fl world args app).1, (ResizeEvent fl world args app).2)
  | none => (none, [])

end ResizeModel

/-! ## Theorems -/

/-- The single-cell location obeys the cell laws. -/
theorem Ref.cell_lawful (T : Type) : (Ref.cell T).Lawful :=
  ⟨fun _ _ => rfl, fun _ _ _ => rfl⟩

/-- C1: a history built by the two-argument constructor on a target that
holds `p`, with value `v`. From any later state `s1` of the target, Redo
leaves the target at `v` and Undo leaves it at `p`; hence Redo then Undo gives
`p`, Undo then Redo gives `v`; Redo and Undo are idempotent on the state. -/
theorem C1_ParamHistory_redo_undo {S T : Type} (target : Ref S T)
    (hl : target.Lawful) (s0 s1 : S) (v : T) :
    target.read ((ParamHistory.mk2 target v s0).Redo s1) = v ∧
    target.read ((ParamHistory.mk2 target v s0).Undo s1) = target.read s0 ∧
    target.read ((ParamHistory.mk2 target v s0).Undo
      ((ParamHistory.mk2 target v s0).Redo s1)) = target.read s0 ∧
    target.read ((ParamHistory.mk2 target v s0).Redo
      ((ParamHistory.mk2 target v s0).Undo s1)) = v ∧
    (ParamHistory.mk2 target v s0).Redo ((ParamHistory.mk2 target v s0).Redo s1)
      = (ParamHistory.mk2 target v s0).Redo s1 ∧
    (ParamHistory.mk2 target v s0).Undo ((ParamHistory.mk2 target v s0).Undo s1)
      = (ParamHistory.mk2 target v s0).Undo s1 := by
  simp only [ParamHistory.Redo, ParamHistory.Undo, ParamHistory.mk2,
    hl.read_write, hl.write_write, and_self]

/-- C1 at a concrete cell: the target holds 7, the history is built with 3,
and the target holds 100 when Redo or Undo runs. -/
theorem C1_ParamHistory_redo_undo_witness :
    (Ref.cell Nat).read ((ParamHistory.mk2 (Ref.cell Nat) 3 7).Redo 100) = 3 ∧
    (Ref.cell Nat).read ((ParamHistory.mk2 (Ref.cell Nat) 3 7).Undo 100) = 7 :=
  ⟨(C1_ParamHistory_redo_undo (Ref.cell Nat) (Ref.cell_lawful Nat) 7 100 3).1,
   (C1_ParamHistory_redo_undo (Ref.cell Nat) (Ref.cell_lawful Nat) 7 100 3).2.1⟩

/-- C2 (the code at the failing input): an EditInt, and an EditBit32, holding
0 and asked for a history to 5. `CreateHistory` passes `m_Value` as the next
value and `value` as the previous one, so Redo leaves `GetValue()` at 0 and
the Undo after it yields 5: the recorded change runs from 5 to 0. -/
theorem C2_CreateHistory_int_bit32_swapped :
    ((EditInt.CreateHistory ⟨0, 0, false⟩ 5).Redo ⟨0, 0, false⟩).GetValue = 0 ∧
    ((EditInt.CreateHistory ⟨0, 0, false⟩ 5).Undo
      ((EditInt.CreateHistory ⟨0, 0, false⟩ 5).Redo ⟨0, 0, false⟩)).GetValue = 5 ∧
    ((EditBit32.CreateHistory ⟨0, 0, false⟩ 5).Redo ⟨0, 0, false⟩).GetValue = 0 ∧
    ((EditBit32.CreateHistory ⟨0, 0, false⟩ 5).Undo
      ((EditBit32.CreateHistory ⟨0, 0, false⟩ 5).Redo ⟨0, 0, false⟩)).GetValue = 5 := by
  refine ⟨rfl, rfl, rfl, rfl⟩

/-- C3: for EditBool, EditFloat, EditFloat2, EditFloat3, EditFloat4,
EditColor3 and EditColor4 holding `p`, the history returned by
`CreateHistory(v)` has Redo set the value of the control to `v` and Undo set
it to `p`, from whatever state `s` the control is in when they run (in
particular Undo after Redo gives back `p`). -/
theorem C3_CreateHistory_two_arg_controls {F : Type} :
    (∀ (e s : EditBool) (v : Bool),
      ((e.CreateHistory v).Redo s).GetValue = v ∧
      ((e.CreateHistory v).Undo s).GetValue = e.GetValue ∧
      ((e.CreateHistory v).Undo ((e.CreateHistory v).Redo e)).GetValue = e.GetValue) ∧
    (∀ (e s : EditFloat F) (v : F),
      ((e.CreateHistory v).Redo s).GetValue = v ∧
      ((e.CreateHistory v).Undo s).GetValue = e.GetValue ∧
      ((e.CreateHistory v).Undo ((e.CreateHistory v).Redo e)).GetValue = e.GetValue) ∧
    (∀ (e s : EditFloat2 F) (v : Vector2 F),
      ((e.CreateHistory v).Redo s).GetValue = v ∧
      ((e.CreateHistory v).Undo s).GetValue = e.GetValue ∧
      ((e.CreateHistory v).Undo ((e.CreateHistory v).Redo e)).GetValue = e.GetValue) ∧
    (∀ (e s : EditFloat3 F) (v : Vector3 F),
      ((e.CreateHistory v).Redo s).GetValue = v ∧
      ((e.CreateHistory v).Undo s).GetValue = e.GetValue ∧
      ((e.CreateHistory v).Undo ((e.CreateHistory v).Redo e)).GetValue = e.GetValue) ∧
    (∀ (e s : EditFloat4 F) (v : Vector4 F),
      ((e.CreateHistory v).Redo s).GetValue = v ∧
      ((e.CreateHistory v).Undo s).GetValue = e.GetValue ∧
      ((e.CreateHistory v).Undo ((e.CreateHistory v).Redo e)).GetValue = e.GetValue) ∧
    (∀ (e s : EditColor3 F) (v : Vector3 F),
      ((e.CreateHistory v).Redo s).GetValue = v ∧
      ((e.CreateHistory v).Undo s).GetValue = e.GetValue ∧
      ((e.CreateHistory v).Undo ((e.CreateHistory v).Redo e)).GetValue = e.GetValue) ∧
    (∀ (e s : EditColor4 F) (v : Vector4 F),
      ((e.CreateHistory v).Redo s).GetValue = v ∧
      ((e.CreateHistory v).Undo s).GetValue = e.GetValue ∧
      ((e.CreateHistory v).Undo ((e.CreateHistory v).Redo e)).GetValue = e.GetValue) := by
  refine ⟨?_, ?_, ?_, ?_, ?_, ?_, ?_⟩ <;> intro e s v <;> exact ⟨rfl, rfl, rfl⟩

/-- C4: `Application::Present` as the transition function of the stand-by
machine, for every `HRESULT` the swap chain returns. In stand-by the only
effect is one `DXGI_PRESENT_TEST` present, and stand-by is left exactly when
it returns `S_OK`. Out of stand-by exactly one real present (flags 0) is
issued and stand-by is entered exactly when it returns
`DXGI_STATUS_OCCLUDED`; `DXGI_ERROR_DEVICE_RESET` and
`DXGI_ERROR_DEVICE_REMOVED` post quit code 1 and 2 and leave the application
unchanged; no other result posts a quit message, and `S_OK` and every
remaining result change nothing. -/
theorem C4_Present_standby_machine (swapChain : Nat → Nat → HRESULT)
    (syncInterval : Nat) (app : Application) :
    (app.IsStandByMode = true →
      (app.Present swapChain syncInterval).2 =
        [AppEffect.present app.hasSwapChain4 syncInterval DXGI_PRESENT_TEST] ∧
      ((app.Present swapChain syncInterval).1.IsStandByMode = false ↔
        swapChain syncInterval DXGI_PRESENT_TEST = S_OK) ∧
      (app.Present swapChain syncInterval).1.hasSwapChain4 = app.hasSwapChain4) ∧
    (app.IsStandByMode = false →
      presentCalls (app.Present swapChain syncInterval).2 = [(syncInterval, 0)] ∧
      ((app.Present swapChain syncInterval).1.IsStandByMode = true ↔
        swapChain syncInterval 0 = DXGI_STATUS_OCCLUDED) ∧
      (swapChain syncInterval 0 = DXGI_ERROR_DEVICE_RESET →
        quitCodes (app.Present swapChain syncInterval).2 = [1] ∧
        (app.Present swapChain syncInterval).1 = app) ∧
      (swapChain syncInterval 0 = DXGI_ERROR_DEVICE_REMOVED →
        quitCodes (app.Present swapChain syncInterval).2 = [2] ∧
        (app.Present swapChain syncInterval).1 = app) ∧
      (swapChain syncInterval 0 ≠ DXGI_ERROR_DEVICE_RESET →
        swapChain syncInterval 0 ≠ DXGI_ERROR_DEVICE_REMOVED →
        quitCodes (app.Present swapChain syncInterval).2 = []) ∧
      (swapChain syncInterval 0 ≠ DXGI_ERROR_DEVICE_RESET →
        swapChain syncInterval 0 ≠ DXGI_ERROR_DEVICE_REMOVED →
        swapChain syncInterval 0 ≠ DXGI_STATUS_OCCLUDED →
        app.Present swapChain syncInterval =
          (app, [AppEffect.present app.hasSwapChain4 syncInterval 0]))) := by
  obtain ⟨sc4, standby⟩ := app
  constructor
  · intro hs
    simp only [Application.IsStandByMode] at hs
    subst hs
    by_cases h : swapChain syncInterval DXGI_PRESENT_TEST = S_OK <;>
      simp [Application.Present, Application.IsStandByMode, h]
  · intro hs
    simp only [Application.IsStandByMode] at hs
    subst hs
    have h1 : DXGI_ERROR_DEVICE_RESET ≠ DXGI_STATUS_OCCLUDED := by decide
    have h2 : DXGI_ERROR_DEVICE_REMOVED ≠ DXGI_STATUS_OCCLUDED := by decide
    have h3 : DXGI_ERROR_DEVICE_RESET ≠ DXGI_ERROR_DEVICE_REMOVED := by decide
    by_cases ha : swapChain syncInterval 0 = DXGI_ERROR_DEVICE_RESET
    · simp [Application.Present, Application.IsStandByMode, ha, h1, h3,
        presentCalls, quitCodes]
    · by_cases hb : swapChain syncInterval 0 = DXGI_ERROR_DEVICE_REMOVED
      · simp [Application.Present, Application.IsStandByMode, hb, h2, h3.symm,
          presentCalls, quitCodes]
      · by_cases hc : swapChain syncInterval 0 = DXGI_STATUS_OCCLUDED
        · simp [Application.Present, Application.IsStandByMode, hc, h1.symm,
            h2.symm, presentCalls, quitCodes]
        · simp [Application.Present, Application.IsStandByMode, ha, hb, hc,
            presentCalls, quitCodes]

/-- `Map.index` at a key that is present. -/
theorem Map.index_of_find {V : Type} {m : Map V} {k : Nat} {v : V} (zero : V)
    (h : m k = some v) : m.index zero k = v := by
  simp [Map.index, h]

/-- `Map.touch` at a key that is present changes nothing. -/
theorem Map.touch_of_find {V : Type} {m : Map V} {k : Nat} {v : V} (zero : V)
    (h : m k = some v) : m.touch zero k = m := by
  simp [Map.touch, h]

/-- Reading a key just inserted. -/
theorem Map.insert_self {V : Type} (m : Map V) (k : Nat) (v : V) :
    (m.insert k v) k = some v := by
  simp [Map.insert]

/-- Inserting twice at one key keeps the second value. -/
theorem Map.insert_insert {V : Type} (m : Map V) (k : Nat) (v w : V) :
    (m.insert k v).insert k w = m.insert k w := by
  funext j
  by_cases h : j = k <;> simp [Map.insert, h]

/-- The extensions for which `SndMgr::Open` sends an `MCI_OPEN`. -/
theorem SndMgr.openCommand_eq_none_iff (ext filename : String) :
    SndMgr.openCommand ext filename = none ↔
      ext ∉ ["wave", "wav", "midi", "mid", "mp3"] := by
  unfold SndMgr.openCommand
  by_cases h1 : ext = "wave" ∨ ext = "wav"
  · rcases h1 with h | h <;> simp [h]
  · by_cases h2 : ext = "midi" ∨ ext = "mid"
    · rcases h2 with h | h <;> simp [h]
    · by_cases h3 : ext = "mp3"
      · simp [h3]
      · rw [if_neg h1, if_neg h2, if_neg h3]
        simp only [not_or] at h1 h2
        simp [h1.1, h1.2, h2.1, h2.2, h3]

/-- C5: `SndMgr::Open`. A null file name fails and changes nothing. For a
file name `f`: when `id` is already registered, or the extension of `f` is
none of wave, wav, midi, mid, mp3, or the `MCI_OPEN` sent for it returns a
non-zero code, `Open` returns false and the manager is unchanged; in every
other case it returns true, looking `id` up in `m_Status` finds the status
with state Stop, both loop counts 0 and the device id MCI returned, looking
that device id up in `m_UserIds` finds `id`, every other key of the two maps
is found as before (the maps are the old ones with these two entries
stored), `GetState(id)` is Stop, and the one command sent is the `MCI_OPEN`. -/
theorem C5_Open (GetExtA : String → String) (mci : MciDriver) (id : Nat)
    (s : SndMgr) :
    ((SndMgr.Open GetExtA mci id none s).1 = false ∧
     (SndMgr.Open GetExtA mci id none s).2.1 = s) ∧
    ∀ f : String,
      (((s.m_Status.find id).isSome ∨
         GetExtA f ∉ ["wave", "wav", "midi", "mid", "mp3"] ∨
         (∃ c, SndMgr.openCommand (GetExtA f) f = some c ∧ mci.send c ≠ 0)) →
        (SndMgr.Open GetExtA mci id (some f) s).1 = false ∧
        (SndMgr.Open GetExtA mci id (some f) s).2.1 = s) ∧
      (¬ ((s.m_Status.find id).isSome ∨
         GetExtA f ∉ ["wave", "wav", "midi", "mid", "mp3"] ∨
         (∃ c, SndMgr.openCommand (GetExtA f) f = some c ∧ mci.send c ≠ 0)) →
        ∃ c, SndMgr.openCommand (GetExtA f) f = some c ∧
          (SndMgr.Open GetExtA mci id (some f) s).1 = true ∧
          (SndMgr.Open GetExtA mci id (some f) s).2.1.m_Status.find id =
            some { DeviceId := mci.wDeviceID c, State := SndState.Stop,
                   CurLoopCount := 0, MaxLoopCount := 0 } ∧
          (∀ k, k ≠ id →
            (SndMgr.Open GetExtA mci id (some f) s).2.1.m_Status.find k =
              s.m_Status.find k) ∧
          (SndMgr.Open GetExtA mci id (some f) s).2.1.m_UserIds.find
            (mci.wDeviceID c) = some id ∧
          (∀ d, d ≠ mci.wDeviceID c →
            (SndMgr.Open GetExtA mci id (some f) s).2.1.m_UserIds.find d =
              s.m_UserIds.find d) ∧
          (∀ zeroState, (SndMgr.GetState zeroState id
            (SndMgr.Open GetExtA mci id (some f) s).2.1).1 = SndState.Stop) ∧
          (SndMgr.Open GetExtA mci id (some f) s).2.1.m_Status =
            s.m_Status.insert id
              { DeviceId := mci.wDeviceID c, State := SndState.Stop,
                CurLoopCount := 0, MaxLoopCount := 0 } ∧
          (SndMgr.Open GetExtA mci id (some f) s).2.1.m_UserIds =
            s.m_UserIds.insert (mci.wDeviceID c) id ∧
          (SndMgr.Open GetExtA mci id (some f) s).2.1.m_Handle = s.m_Handle ∧
          (SndMgr.Open GetExtA mci id (some f) s).2.2 = [SndEffect.mci c]) := by
  refine ⟨⟨rfl, rfl⟩, fun f => ⟨?_, ?_⟩⟩
  · intro h
    cases hreg : s.m_Status.find id with
    | some st => simp [SndMgr.Open, hreg]
    | none =>
      cases hcmd : SndMgr.openCommand (GetExtA f) f with
      | none => simp [SndMgr.Open, hreg, hcmd]
      | some c =>
        rcases h with h | h | ⟨c1, hc1, hret⟩
        · rw [hreg] at h
          exact absurd h (by simp)
        · have hn := (SndMgr.openCommand_eq_none_iff (GetExtA f) f).2 h
          rw [hcmd] at hn
          exact absurd hn (by simp)
        · rw [hcmd] at hc1
          cases hc1
          simp [SndMgr.Open, hreg, hcmd, hret]
  · intro h
    simp only [not_or, not_exists, not_and, not_not] at h
    obtain ⟨hreg, hext, hret⟩ := h
    have hreg1 : s.m_Status.find id = none := by
      cases hx : s.m_Status.find id with
      | none => rfl
      | some st =>
        rw [hx] at hreg
        exact absurd rfl hreg
    cases hcmd : SndMgr.openCommand (GetExtA f) f with
    | none =>
      exact absurd hext ((SndMgr.openCommand_eq_none_iff (GetExtA f) f).1 hcmd)
    | some c =>
      refine ⟨c, rfl, ?_⟩
      have h0 : mci.send c = 0 := hret c hcmd
      have hopen : SndMgr.Open GetExtA mci id (some f) s =
          (true,
           { s with
             m_Status := s.m_Status.insert id
               { DeviceId := mci.wDeviceID c, State := SndState.Stop,
                 CurLoopCount := 0, MaxLoopCount := 0 }
             m_UserIds := s.m_UserIds.insert (mci.wDeviceID c) id },
           [SndEffect.mci c]) := by
        simp [SndMgr.Open, hreg1, hcmd, h0]
      rw [hopen]
      refine ⟨rfl, ?_, ?_, ?_, ?_, ?_, rfl, rfl, rfl, rfl⟩
      · simp [Map.find, Map.insert]
      · intro k hk
        simp [Map.find, Map.insert, hk]
      · simp [Map.find, Map.insert]
      · intro d hd
        simp [Map.find, Map.insert, hd]
      · intro zeroState
        simp [SndMgr.GetState, Map.find, Map.insert, SndMgr.touchStatus,
          SndMgr.statusAt, Map.touch, Map.index]

/-- C7: for an id that is not registered, `GetState` returns
`SndState::Error`, and `Play`, `Stop`, `Pause`, `Resume` and `Close` send
nothing and return the manager unchanged (no entry is created). For a
registered id with status `st`, after `Close` the id is not registered and
the device id of `st` is not in the device-id map. -/
theorem C7_unregistered_and_Close (zeroState : SndState) (mci : MciDriver)
    (id : Nat) (loopCount : Int) (s : SndMgr) :
    (s.m_Status.find id = none →
      SndMgr.GetState zeroState id s = (SndState.Error, s) ∧
      SndMgr.Play zeroState mci id loopCount s = (s, []) ∧
      SndMgr.Stop zeroState mci id s = (s, []) ∧
      SndMgr.Pause zeroState mci id s = (s, []) ∧
      SndMgr.Resume zeroState mci id s = (s, []) ∧
      SndMgr.Close zeroState mci id s = (s, [])) ∧
    (∀ st, s.m_Status.find id = some st →
      (SndMgr.Close zeroState mci id s).1.m_Status.find id = none ∧
      (SndMgr.Close zeroState mci id s).1.m_UserIds.find st.DeviceId = none ∧
      (SndMgr.GetState zeroState id (SndMgr.Close zeroState mci id s).1).1
        = SndState.Error) := by
  constructor
  · intro h
    simp [SndMgr.GetState, SndMgr.Play, SndMgr.Stop, SndMgr.Pause,
      SndMgr.Resume, SndMgr.Close, h]
  · intro st h
    have h1 : s.m_Status id = some st := h
    have hc : SndMgr.Close zeroState mci id s =
        ({ m_Status := s.m_Status.erase id,
           m_UserIds := s.m_UserIds.erase st.DeviceId,
           m_Handle := s.m_Handle },
         SndEffect.mci (MciCommand.MCI_CLOSE st.DeviceId) ::
           ShowError (mci.send (MciCommand.MCI_CLOSE st.DeviceId))) := by
      simp [SndMgr.Close, h, SndMgr.touchStatus, SndMgr.statusAt,
        Map.touch_of_find _ h1, Map.index_of_find _ h1]
    rw [hc]
    simp [SndMgr.GetState, Map.find, Map.erase]

/-- `wrapInt32` is the identity on the range of `int`. -/
theorem wrapInt32_of_range (x : Int) (h1 : -(2 ^ 31) ≤ x) (h2 : x < 2 ^ 31) :
    wrapInt32 x = x := by
  unfold wrapInt32
  omega

/-- `SndMgr::Play` on a registered id when MCI answers 0: the status becomes
Play with the loop count stored and the counter reset; one `MCI_PLAY` is
sent. -/
theorem SndMgr.Play_of_registered (zeroState : SndState) (mci : MciDriver)
    (hok : ∀ c, mci.send c = 0) (id : Nat) (loopCount : Int) (s : SndMgr)
    (st : Status) (hreg : s.m_Status.find id = some st) :
    SndMgr.Play zeroState mci id loopCount s =
      ({ s with m_Status := (s.m_Status.insert id
          ⟨st.DeviceId, SndState.Play, 0, loopCount⟩) },
       [SndEffect.mci (MciCommand.MCI_PLAY st.DeviceId s.m_Handle)]) := by
  have h1 : s.m_Status id = some st := hreg
  simp [SndMgr.Play, hreg, SndMgr.touchStatus, SndMgr.statusAt, SndMgr.setStatus,
    Map.touch_of_find _ h1, Map.index_of_find _ h1, hok, ShowError,
    Map.insert_insert, Map.index_of_find _ (Map.insert_self _ _ _)]

/-- One successful notification for device `d` of a sound `id` whose status
is `(d, x, c, m)`, when MCI answers 0: the counter is incremented; if it is
below `m`, or `m` is -1, the sound is played again, otherwise it is Done. -/
theorem SndMgr.OnNofity_successful (zeroState : SndState) (mci : MciDriver)
    (hok : ∀ c, mci.send c = 0) (id d : Nat) (s : SndMgr) (x : SndState)
    (c m : Int) (hdev : s.m_UserIds.find d = some id)
    (hreg : s.m_Status.find id = some ⟨d, x, c, m⟩) :
    SndMgr.OnNofity zeroState mci d MCI_NOTIFY_SUCCESSFUL s =
      if wrapInt32 (c + 1) < m ∨ m = -1 then
        ({ s with m_Status := (s.m_Status.insert id
            ⟨d, SndState.Play, wrapInt32 (c + 1), m⟩) },
         [SndEffect.mci (MciCommand.MCI_SEEK d),
          SndEffect.mci (MciCommand.MCI_PLAY d s.m_Handle)])
      else
        ({ s with m_Status := (s.m_Status.insert id
            ⟨d, SndState.Done, wrapInt32 (c + 1), m⟩) },
         [SndEffect.mci (MciCommand.MCI_SEEK d)]) := by
  have h1 : s.m_Status id = some ⟨d, x, c, m⟩ := hreg
  by_cases hc : wrapInt32 (c + 1) < m ∨ m = -1
  · simp [SndMgr.OnNofity, hdev, SndMgr.touchStatus, SndMgr.statusAt,
      SndMgr.setStatus, Map.touch_of_find _ h1, Map.index_of_find _ h1, hok,
      ShowError, Map.insert_insert, Map.index_of_find _ (Map.insert_self _ _ _), hc]
  · simp [SndMgr.OnNofity, hdev, SndMgr.touchStatus, SndMgr.statusAt,
      SndMgr.setStatus, Map.touch_of_find _ h1, Map.index_of_find _ h1,
      Map.insert_insert, Map.index_of_find _ (Map.insert_self _ _ _), hc]

/-- After `Play(id, n)` with `1 <= n`, the first `k < n` successful
notifications leave the status at Play with counter `k`, and each of them
has sent one `MCI_PLAY`. -/
theorem SndMgr.notifySuccessful_below (zeroState : SndState) (mci : MciDriver)
    (hok : ∀ c, mci.send c = 0) (id : Nat) (s : SndMgr) (st : Status) (n : Nat)
    (hreg : s.m_Status.find id = some st)
    (hdev : s.m_UserIds.find st.DeviceId = some id) (hn : n < 2 ^ 31) (k : Nat)
    (hk : k < n) :
    (SndMgr.notifySuccessful zeroState mci st.DeviceId k
        (SndMgr.Play zeroState mci id n s).1).1 =
      { s with m_Status := (s.m_Status.insert id
          ⟨st.DeviceId, SndState.Play, k, n⟩) } ∧
    playCount (SndMgr.notifySuccessful zeroState mci st.DeviceId k
        (SndMgr.Play zeroState mci id n s).1).2 = k := by
  induction k with
  | zero =>
    rw [SndMgr.Play_of_registered zeroState mci hok id n s st hreg]
    exact ⟨rfl, rfl⟩
  | succ j ih =>
    obtain ⟨ih1, ih2⟩ := ih (by omega)
    have hw : wrapInt32 ((j : Int) + 1) = (j : Int) + 1 :=
      wrapInt32_of_range _ (by omega) (by omega)
    have hlt : (j : Int) + 1 < (n : Int) ∨ (n : Int) = -1 := Or.inl (by omega)
    have hstep := SndMgr.OnNofity_successful zeroState mci hok id st.DeviceId
      { s with m_Status := (s.m_Status.insert id ⟨st.DeviceId, SndState.Play, j, n⟩) }
      SndState.Play j n hdev (Map.insert_self _ _ _)
    rw [hw, if_pos hlt] at hstep
    simp only [SndMgr.notifySuccessful, ih1, hstep, Map.insert_insert]
    refine ⟨by simp, ?_⟩
    have hp : ∀ (l : List SndEffect) (a b : Nat),
        playCount (l ++ [SndEffect.mci (MciCommand.MCI_SEEK a),
          SndEffect.mci (MciCommand.MCI_PLAY a b)]) = playCount l + 1 := by
      intro l a b
      induction l with
      | nil => rfl
      | cons e l ihl =>
        cases e with
        | mci cmd => cases cmd <;> simp [playCount, ihl]
        | errorLog r => simp [playCount, ihl]
    rw [hp, ih2]

/-- After `Play(id, -1)` every number of successful notifications leaves the
status at Play with loop count -1. -/
theorem SndMgr.notifySuccessful_endless (zeroState : SndState) (mci : MciDriver)
    (hok : ∀ c, mci.send c = 0) (id : Nat) (s : SndMgr) (st : Status)
    (hreg : s.m_Status.find id = some st)
    (hdev : s.m_UserIds.find st.DeviceId = some id) (k : Nat) :
    ∃ c : Int, (SndMgr.notifySuccessful zeroState mci st.DeviceId k
        (SndMgr.Play zeroState mci id (-1) s).1).1 =
      { s with m_Status := (s.m_Status.insert id
          ⟨st.DeviceId, SndState.Play, c, -1⟩) } := by
  induction k with
  | zero =>
    rw [SndMgr.Play_of_registered zeroState mci hok id (-1) s st hreg]
    exact ⟨0, rfl⟩
  | succ j ih =>
    obtain ⟨c, ih1⟩ := ih
    have hstep := SndMgr.OnNofity_successful zeroState mci hok id st.DeviceId
      { s with m_Status := (s.m_Status.insert id ⟨st.DeviceId, SndState.Play, c, -1⟩) }
      SndState.Play c (-1) hdev (Map.insert_self _ _ _)
    rw [if_pos (Or.inr rfl)] at hstep
    refine ⟨wrapInt32 (c + 1), ?_⟩
    simp only [SndMgr.notifySuccessful, ih1, hstep, Map.insert_insert]

/-- `GetState` of an id whose status was just stored. -/
theorem SndMgr.GetState_insert (zeroState : SndState) (id : Nat) (s : SndMgr)
    (x : Status) :
    (SndMgr.GetState zeroState id
      { s with m_Status := (s.m_Status.insert id x) }).1 = x.State := by
  simp [SndMgr.GetState, Map.find, Map.insert_self, SndMgr.touchStatus,
    SndMgr.statusAt, Map.touch_of_find _ (Map.insert_self _ _ _),
    Map.index_of_find _ (Map.insert_self _ _ _)]

/-- C6: every MCI command succeeds, `id` is registered with status `st` and
the device-id map sends the device of `st` to `id`. After `Play(id, n)` with
`1 <= n` (an `int`), for every `k` with `1 <= k < n` the state after the
`k`-th successful notification is Play and that notification has sent a seek
and an `MCI_PLAY`; after the `n`-th the state is Done and that notification
has sent no `MCI_PLAY`; `Play` and the `n` notifications have sent `n`
`MCI_PLAY` commands in all. After `Play(id, -1)` the state after any number
of successful notifications is Play, never Done. -/
theorem C6_Play_loop_count (zeroState : SndState) (mci : MciDriver)
    (hok : ∀ c, mci.send c = 0) (id : Nat) (s : SndMgr) (st : Status) (n : Nat)
    (hreg : s.m_Status.find id = some st)
    (hdev : s.m_UserIds.find st.DeviceId = some id)
    (hn1 : 1 ≤ n) (hn2 : n < 2 ^ 31) :
    (∀ k, 1 ≤ k → k < n →
      (SndMgr.GetState zeroState id
        (SndMgr.notifySuccessful zeroState mci st.DeviceId k
          (SndMgr.Play zeroState mci id n s).1).1).1 = SndState.Play ∧
      (SndMgr.OnNofity zeroState mci st.DeviceId MCI_NOTIFY_SUCCESSFUL
        (SndMgr.notifySuccessful zeroState mci st.DeviceId (k - 1)
          (SndMgr.Play zeroState mci id n s).1).1).2 =
        [SndEffect.mci (MciCommand.MCI_SEEK st.DeviceId),
         SndEffect.mci (MciCommand.MCI_PLAY st.DeviceId s.m_Handle)]) ∧
    (SndMgr.GetState zeroState id
      (SndMgr.notifySuccessful zeroState mci st.DeviceId n
        (SndMgr.Play zeroState mci id n s).1).1).1 = SndState.Done ∧
    (SndMgr.OnNofity zeroState mci st.DeviceId MCI_NOTIFY_SUCCESSFUL
      (SndMgr.notifySuccessful zeroState mci st.DeviceId (n - 1)
        (SndMgr.Play zeroState mci id n s).1).1).2 =
      [SndEffect.mci (MciCommand.MCI_SEEK st.DeviceId)] ∧
    playCount ((SndMgr.Play zeroState mci id n s).2 ++
      (SndMgr.notifySuccessful zeroState mci st.DeviceId n
        (SndMgr.Play zeroState mci id n s).1).2) = n ∧
    (∀ k,
      (SndMgr.GetState zeroState id
        (SndMgr.notifySuccessful zeroState mci st.DeviceId k
          (SndMgr.Play zeroState mci id (-1) s).1).1).1 = SndState.Play ∧
      (SndMgr.GetState zeroState id
        (SndMgr.notifySuccessful zeroState mci st.DeviceId k
          (SndMgr.Play zeroState mci id (-1) s).1).1).1 ≠ SndState.Done) := by
  have below := SndMgr.notifySuccessful_below zeroState mci hok id s st n hreg hdev hn2
  -- the step taken by notification number `j + 1`, for `j < n`
  have step : ∀ j, j < n →
      SndMgr.OnNofity zeroState mci st.DeviceId MCI_NOTIFY_SUCCESSFUL
        (SndMgr.notifySuccessful zeroState mci st.DeviceId j
          (SndMgr.Play zeroState mci id n s).1).1 =
      if (j : Int) + 1 < (n : Int) ∨ (n : Int) = -1 then
        ({ s with m_Status := (s.m_Status.insert id
            ⟨st.DeviceId, SndState.Play, (j : Int) + 1, n⟩) },
         [SndEffect.mci (MciCommand.MCI_SEEK st.DeviceId),
          SndEffect.mci (MciCommand.MCI_PLAY st.DeviceId s.m_Handle)])
      else
        ({ s with m_Status := (s.m_Status.insert id
            ⟨st.DeviceId, SndState.Done, (j : Int) + 1, n⟩) },
         [SndEffect.mci (MciCommand.MCI_SEEK st.DeviceId)]) := by
    intro j hj
    have hw : wrapInt32 ((j : Int) + 1) = (j : Int) + 1 :=
      wrapInt32_of_range _ (by omega) (by omega)
    have hstep := SndMgr.OnNofity_successful zeroState mci hok id st.DeviceId
      { s with m_Status := (s.m_Status.insert id ⟨st.DeviceId, SndState.Play, j, n⟩) }
      SndState.Play j n hdev (Map.insert_self _ _ _)
    rw [hw] at hstep
    rw [(below j hj).1, hstep]
    simp only [Map.insert_insert]
  have last : ¬ (((n - 1 : Nat) : Int) + 1 < (n : Int) ∨ (n : Int) = -1) := by omega
  -- notification number `n` is the step after the first `n - 1`
  have unfoldN : ∀ t : SndMgr,
      SndMgr.notifySuccessful zeroState mci st.DeviceId n t =
        ((SndMgr.OnNofity zeroState mci st.DeviceId MCI_NOTIFY_SUCCESSFUL
            (SndMgr.notifySuccessful zeroState mci st.DeviceId (n - 1) t).1).1,
         (SndMgr.notifySuccessful zeroState mci st.DeviceId (n - 1) t).2 ++
          (SndMgr.OnNofity zeroState mci st.DeviceId MCI_NOTIFY_SUCCESSFUL
            (SndMgr.notifySuccessful zeroState mci st.DeviceId (n - 1) t).1).2) := by
    intro t
    obtain ⟨m, hm⟩ : ∃ m, n = m + 1 := ⟨n - 1, by omega⟩
    subst hm
    rfl
  refine ⟨?_, ?_, ?_, ?_, ?_⟩
  · intro k hk1 hk2
    refine ⟨?_, ?_⟩
    · rw [(below k hk2).1, SndMgr.GetState_insert]
    · rw [step (k - 1) (by omega), if_pos (Or.inl (by omega))]
  · rw [unfoldN, step (n - 1) (by omega), if_neg last, SndMgr.GetState_insert]
  · rw [step (n - 1) (by omega), if_neg last]
  · have hplay : (SndMgr.Play zeroState mci id n s).2 =
        [SndEffect.mci (MciCommand.MCI_PLAY st.DeviceId s.m_Handle)] := by
      rw [SndMgr.Play_of_registered zeroState mci hok id n s st hreg]
    have hcount := (below (n - 1) (by omega)).2
    have hp : ∀ (l : List SndEffect) (a : Nat),
        playCount (l ++ [SndEffect.mci (MciCommand.MCI_SEEK a)]) = playCount l := by
      intro l a
      induction l with
      | nil => rfl
      | cons e l ihl =>
        cases e with
        | mci cmd => cases cmd <;> simp [playCount, ihl]
        | errorLog r => simp [playCount, ihl]
    rw [unfoldN, step (n - 1) (by omega), if_neg last, hplay]
    show playCount ((SndMgr.notifySuccessful zeroState mci st.DeviceId (n - 1)
        (SndMgr.Play zeroState mci id n s).1).2 ++
      [SndEffect.mci (MciCommand.MCI_SEEK st.DeviceId)]) + 1 = n
    rw [hp, hcount]
    omega
  · intro k
    obtain ⟨c, hc⟩ := SndMgr.notifySuccessful_endless zeroState mci hok id s st hreg hdev k
    rw [hc, SndMgr.GetState_insert]
    simp

/-- C6 at a concrete manager: sound 7 opened on device 42, played with loop
count 3. The third successful notification sets Done, the first two leave
Play, and three `MCI_PLAY` commands are sent in all. -/
theorem C6_Play_loop_count_witness :
    (SndMgr.GetState SndState.Stop 7
      (SndMgr.notifySuccessful SndState.Stop mciAlwaysOk 42 2
        (SndMgr.Play SndState.Stop mciAlwaysOk 7 3 SndMgr.opened7).1).1).1
      = SndState.Play ∧
    (SndMgr.GetState SndState.Stop 7
      (SndMgr.notifySuccessful SndState.Stop mciAlwaysOk 42 3
        (SndMgr.Play SndState.Stop mciAlwaysOk 7 3 SndMgr.opened7).1).1).1
      = SndState.Done ∧
    playCount ((SndMgr.Play SndState.Stop mciAlwaysOk 7 3 SndMgr.opened7).2 ++
      (SndMgr.notifySuccessful SndState.Stop mciAlwaysOk 42 3
        (SndMgr.Play SndState.Stop mciAlwaysOk 7 3 SndMgr.opened7).1).2) = 3 :=
  have h := C6_Play_loop_count SndState.Stop mciAlwaysOk (fun _ => rfl) 7
    SndMgr.opened7 ⟨42, SndState.Stop, 0, 0⟩ 3 (by decide) (by decide)
    (by decide) (by norm_num)
  ⟨(h.1 2 (by decide) (by decide)).1, h.2.1, h.2.2.2.1⟩

/-- C9 (the code at the failing input): for `DepthState::WriteOnly` and every
comparison function the descriptor has `DepthEnable = FALSE` and
`DepthWriteMask = D3D11_DEPTH_WRITE_MASK_ZERO`, not
`D3D11_DEPTH_WRITE_MASK_ALL`: it is the descriptor of `DepthState::None`. -/
theorem C9_WriteOnly_has_write_mask_zero (compare : D3D11_COMPARISON_FUNC) :
    (GetDepthStencilDesc DepthState.WriteOnly compare).DepthEnable = false ∧
    (GetDepthStencilDesc DepthState.WriteOnly compare).DepthWriteMask =
      D3D11_DEPTH_WRITE_MASK.D3D11_DEPTH_WRITE_MASK_ZERO ∧
    (GetDepthStencilDesc DepthState.WriteOnly compare).DepthWriteMask ≠
      D3D11_DEPTH_WRITE_MASK.D3D11_DEPTH_WRITE_MASK_ALL ∧
    GetDepthStencilDesc DepthState.WriteOnly compare =
      GetDepthStencilDesc DepthState.None compare := by
  refine ⟨rfl, rfl, ?_, rfl⟩
  simp [GetDepthStencilDesc]

/-- C10: for every comparison function, `Default` gives depth test on and
write mask ALL, `ReadOnly` test on and write mask ZERO, `None` test off and
write mask ZERO; and for every `DepthState` the descriptor has
`DepthFunc = compare`, `StencilEnable = FALSE` and front and back face
`(KEEP, KEEP, KEEP, ALWAYS)`. -/
theorem C10_GetDepthStencilDesc_table (compare : D3D11_COMPARISON_FUNC) :
    ((GetDepthStencilDesc DepthState.Default compare).DepthEnable = true ∧
     (GetDepthStencilDesc DepthState.Default compare).DepthWriteMask =
       D3D11_DEPTH_WRITE_MASK.D3D11_DEPTH_WRITE_MASK_ALL) ∧
    ((GetDepthStencilDesc DepthState.ReadOnly compare).DepthEnable = true ∧
     (GetDepthStencilDesc DepthState.ReadOnly compare).DepthWriteMask =
       D3D11_DEPTH_WRITE_MASK.D3D11_DEPTH_WRITE_MASK_ZERO) ∧
    ((GetDepthStencilDesc DepthState.None compare).DepthEnable = false ∧
     (GetDepthStencilDesc DepthState.None compare).DepthWriteMask =
       D3D11_DEPTH_WRITE_MASK.D3D11_DEPTH_WRITE_MASK_ZERO) ∧
    ∀ type : DepthState,
      (GetDepthStencilDesc type compare).DepthFunc = compare ∧
      (GetDepthStencilDesc type compare).StencilEnable = false ∧
      (GetDepthStencilDesc type compare).FrontFace =
        ⟨D3D11_STENCIL_OP.D3D11_STENCIL_OP_KEEP, D3D11_STENCIL_OP.D3D11_STENCIL_OP_KEEP,
         D3D11_STENCIL_OP.D3D11_STENCIL_OP_KEEP,
         D3D11_COMPARISON_FUNC.D3D11_COMPARISON_ALWAYS⟩ ∧
      (GetDepthStencilDesc type compare).BackFace =
        (GetDepthStencilDesc type compare).FrontFace := by
  refine ⟨⟨rfl, rfl⟩, ⟨rfl, rfl⟩, ⟨rfl, rfl⟩, fun type => ?_⟩
  cases type <;> exact ⟨rfl, rfl, rfl, rfl⟩

/-- A point at `k` unit steps from `t` along a direction of length `L` is at
distance `k` from `t`. -/
theorem sumSq_scaled (tx ty tz dx dy dz L k : ℝ) (hL : 0 < L)
    (hLL : L * L = dx * dx + dy * dy + dz * dz) :
    (tx + dx / L * k - tx) * (tx + dx / L * k - tx) +
      (ty + dy / L * k - ty) * (ty + dy / L * k - ty) +
      (tz + dz / L * k - tz) * (tz + dz / L * k - tz) = k * k := by
  have hL0 : L ≠ 0 := ne_of_gt hL
  have h : (tx + dx / L * k - tx) * (tx + dx / L * k - tx) +
      (ty + dy / L * k - ty) * (ty + dy / L * k - ty) +
      (tz + dz / L * k - tz) * (tz + dz / L * k - tz) =
      k * k * (dx * dx + dy * dy + dz * dz) / (L * L) := by
    field_simp
    ring
  rw [h, ← hLL]
  field_simp

/-- With the real square root, the distance from `t + normalize(d) * k` to
`t` is `k`, for `d` of positive length and `k >= 0`. -/
theorem Vector3.Distance_add_scale_Normalize (m : FloatFns ℝ)
    (hs : m.sqrtf = Real.sqrt) (t d : Vector3 ℝ) (k : ℝ) (hk : 0 ≤ k)
    (hd : 0 < Vector3.LengthSq d) :
    Vector3.Distance m (Vector3.add t (Vector3.scale (Vector3.Normalize m d) k)) t
      = k := by
  have hpos : 0 < Real.sqrt (Vector3.LengthSq d) := Real.sqrt_pos.2 hd
  have hLL : Real.sqrt (Vector3.LengthSq d) * Real.sqrt (Vector3.LengthSq d) =
      d.x * d.x + d.y * d.y + d.z * d.z := Real.mul_self_sqrt (le_of_lt hd)
  simp only [Vector3.Distance, Vector3.Length, Vector3.sub, Vector3.add,
    Vector3.scale, Vector3.Normalize, hs]
  rw [Vector3.LengthSq]
  simp only []
  rw [sumSq_scaled _ _ _ _ _ _ _ k hpos hLL]
  exact Real.sqrt_mul_self hk

/-- `FLT_EPSILON` is positive. -/
theorem FLT_EPSILON_pos : (0 : ℝ) < FLT_EPSILON := by
  unfold FLT_EPSILON
  norm_num

/-- `UpdateByEvent` with `Flags = EVENT_DOLLY` runs the dolly branch alone. -/
theorem Camera.UpdateByEvent_dolly {F : Type} [LinearOrderedField F]
    (m : FloatFns F) (ev : CameraEvent F) (c : Camera F)
    (hf : ev.Flags = EVENT_DOLLY) :
    (Camera.UpdateByEvent m ev c).m_Param =
      { c.m_Param with
        Position := Vector3.add c.m_Param.Target
          (Vector3.scale
            (if Vector3.Distance m c.m_Param.Position c.m_Param.Target > FLT_EPSILON then
              (⟨(Vector3.sub c.m_Param.Position c.m_Param.Target).x *
                  (1 / Vector3.Distance m c.m_Param.Position c.m_Param.Target),
                (Vector3.sub c.m_Param.Position c.m_Param.Target).y *
                  (1 / Vector3.Distance m c.m_Param.Position c.m_Param.Target),
                (Vector3.sub c.m_Param.Position c.m_Param.Target).z *
                  (1 / Vector3.Distance m c.m_Param.Position c.m_Param.Target)⟩ :
                Vector3 F)
             else Vector3.sub c.m_Param.Position c.m_Param.Target)
            (if c.m_Param.MaxDist <
                (if c.m_Param.MinDist >
                    Vector3.Distance m c.m_Param.Position c.m_Param.Target + ev.Dolly
                  then c.m_Param.MinDist
                  else Vector3.Distance m c.m_Param.Position c.m_Param.Target + ev.Dolly)
              then c.m_Param.MaxDist
              else (if c.m_Param.MinDist >
                    Vector3.Distance m c.m_Param.Position c.m_Param.Target + ev.Dolly
                  then c.m_Param.MinDist
                  else Vector3.Distance m c.m_Param.Position c.m_Param.Target + ev.Dolly))) } := by
  have h1 : EVENT_DOLLY &&& EVENT_ROTATE = 0 := by decide
  have h2 : EVENT_DOLLY &&& EVENT_DOLLY ≠ 0 := by decide
  have h3 : EVENT_DOLLY &&& EVENT_TRUCK = 0 := by decide
  have h4 : EVENT_DOLLY &&& EVENT_PANTILT = 0 := by decide
  have h5 : EVENT_DOLLY &&& EVENT_TWIST = 0 := by decide
  have h6 : EVENT_DOLLY &&& EVENT_RESET = 0 := by decide
  simp only [Camera.UpdateByEvent, hf, h1, h2, h3, h4, h5, h6, ne_eq,
    not_true_eq_false, not_false_eq_true, if_true, if_false]

/-- With the real square root, the distance from `t + d * k` to `t` is the
length of `d` times `k`, for `k >= 0`. -/
theorem Vector3.Distance_add_scale (m : FloatFns ℝ)
    (hs : m.sqrtf = Real.sqrt) (t d : Vector3 ℝ) (k : ℝ) (hk : 0 ≤ k) :
    Vector3.Distance m (Vector3.add t (Vector3.scale d k)) t =
      Vector3.Length m d * k := by
  simp only [Vector3.Distance, Vector3.Length, Vector3.LengthSq, Vector3.sub,
    Vector3.add, Vector3.scale, hs]
  have h : (t.x + d.x * k - t.x) * (t.x + d.x * k - t.x) +
      (t.y + d.y * k - t.y) * (t.y + d.y * k - t.y) +
      (t.z + d.z * k - t.z) * (t.z + d.z * k - t.z) =
      (d.x * d.x + d.y * d.y + d.z * d.z) * (k * k) := by ring
  have h0 : 0 ≤ d.x * d.x + d.y * d.y + d.z * d.z := by
    nlinarith [mul_self_nonneg d.x, mul_self_nonneg d.y, mul_self_nonneg d.z]
  rw [h, Real.sqrt_mul h0, Real.sqrt_mul_self hk]

/-- Moving from a point along the difference of the point with itself stays
on the point. -/
theorem Vector3.add_scale_sub_self (t : Vector3 ℝ) (k : ℝ) :
    Vector3.add t (Vector3.scale (Vector3.sub t t) k) = t := by
  simp [Vector3.add, Vector3.scale, Vector3.sub]

/-- With the real square root a point is at distance 0 from itself. -/
theorem Vector3.Distance_self (m : FloatFns ℝ) (hs : m.sqrtf = Real.sqrt)
    (t : Vector3 ℝ) : Vector3.Distance m t t = 0 := by
  simp [Vector3.Distance, Vector3.Length, Vector3.LengthSq, Vector3.sub, hs]

/-- With the real square root the distance is not negative and its square is
the squared length of the difference. -/
theorem Vector3.Distance_sq (m : FloatFns ℝ) (hs : m.sqrtf = Real.sqrt)
    (a b : Vector3 ℝ) :
    0 ≤ Vector3.Distance m a b ∧
    Vector3.Distance m a b * Vector3.Distance m a b =
      Vector3.LengthSq (Vector3.sub a b) := by
  have h0 : 0 ≤ Vector3.LengthSq (Vector3.sub a b) := by
    unfold Vector3.LengthSq
    nlinarith [mul_self_nonneg (Vector3.sub a b).x, mul_self_nonneg (Vector3.sub a b).y,
      mul_self_nonneg (Vector3.sub a b).z]
  simp only [Vector3.Distance, Vector3.Length, hs]
  exact ⟨Real.sqrt_nonneg _, Real.mul_self_sqrt h0⟩

/-- The two clamping assignments of the dolly branch give
`min(MaxDist, max(MinDist, x))`. -/
theorem dollyClamp_eq (lo hi x : ℝ) :
    (if hi < (if lo > x then lo else x) then hi
      else (if lo > x then lo else x)) = min hi (max lo x) := by
  simp only [min_def, max_def, gt_iff_lt]
  split_ifs <;> first | rfl | linarith

/-- The distance after a dolly event, in closed form. -/
theorem Camera.UpdateByEvent_dolly_distance (m : FloatFns ℝ)
    (hs : m.sqrtf = Real.sqrt) (c : Camera ℝ) (ev : CameraEvent ℝ)
    (hmin : 0 < c.m_Param.MinDist) (hle : c.m_Param.MinDist ≤ c.m_Param.MaxDist)
    (hf : ev.Flags = EVENT_DOLLY) :
    Vector3.Distance m (Camera.UpdateByEvent m ev c).m_Param.Position
        (Camera.UpdateByEvent m ev c).m_Param.Target =
      (if FLT_EPSILON < Vector3.Distance m c.m_Param.Position c.m_Param.Target then
        min c.m_Param.MaxDist (max c.m_Param.MinDist
          (Vector3.Distance m c.m_Param.Position c.m_Param.Target + ev.Dolly))
       else
        Vector3.Distance m c.m_Param.Position c.m_Param.Target *
          min c.m_Param.MaxDist (max c.m_Param.MinDist
            (Vector3.Distance m c.m_Param.Position c.m_Param.Target + ev.Dolly))) := by
  obtain ⟨p, preset⟩ := c
  simp only at hmin hle ⊢
  have hk : 0 ≤ min p.MaxDist (max p.MinDist
      (Vector3.Distance m p.Position p.Target + ev.Dolly)) :=
    le_min (le_trans (le_of_lt hmin) hle) (le_trans (le_of_lt hmin) (le_max_left _ _))
  rw [Camera.UpdateByEvent_dolly m ev ⟨p, preset⟩ hf]
  simp only [dollyClamp_eq, gt_iff_lt]
  by_cases hdist : FLT_EPSILON < Vector3.Distance m p.Position p.Target
  · have hd : 0 < Vector3.LengthSq (Vector3.sub p.Position p.Target) := by
      have h0 : 0 < Vector3.Distance m p.Position p.Target :=
        lt_trans FLT_EPSILON_pos hdist
      simp only [Vector3.Distance, Vector3.Length, hs] at h0
      exact Real.sqrt_pos.1 h0
    have hn : (⟨(Vector3.sub p.Position p.Target).x *
          (1 / Vector3.Distance m p.Position p.Target),
        (Vector3.sub p.Position p.Target).y *
          (1 / Vector3.Distance m p.Position p.Target),
        (Vector3.sub p.Position p.Target).z *
          (1 / Vector3.Distance m p.Position p.Target)⟩ : Vector3 ℝ) =
        Vector3.Normalize m (Vector3.sub p.Position p.Target) := by
      simp only [Vector3.Normalize, Vector3.Distance, mul_one_div]
    simp only [hdist, if_true]
    rw [hn, Vector3.Distance_add_scale_Normalize m hs _ _ _ hk hd]
  · simp only [hdist, if_false]
    rw [Vector3.Distance_add_scale m hs _ _ _ hk]
    rfl

/-- The parameters after `ClampDist`, by cases on the distance. -/
theorem Camera.ClampDist_cases (m : FloatFns ℝ) (p : Param ℝ)
    (hle : p.MinDist ≤ p.MaxDist) :
    Camera.ClampDist m p =
      (if p.MaxDist < Vector3.Distance m p.Position p.Target then
        { p with Position := Vector3.add p.Target (Vector3.scale
            (if FLT_EPSILON < Vector3.LengthSq (Vector3.sub p.Position p.Target)
              then Vector3.Normalize m (Vector3.sub p.Position p.Target)
              else Vector3.sub p.Position p.Target) p.MaxDist) }
       else if Vector3.Distance m p.Position p.Target < p.MinDist then
        { p with Position := Vector3.add p.Target (Vector3.scale
            (if FLT_EPSILON < Vector3.LengthSq (Vector3.sub p.Position p.Target)
              then Vector3.Normalize m (Vector3.sub p.Position p.Target)
              else Vector3.sub p.Position p.Target) p.MinDist) }
       else p) := by
  by_cases h1 : p.MaxDist < Vector3.Distance m p.Position p.Target
  · have h2 : ¬ (Vector3.Distance m p.Position p.Target < p.MinDist) :=
      not_lt.2 (le_trans hle (le_of_lt h1))
    simp only [Camera.ClampDist, gt_iff_lt, h1, if_true, h2, if_false]
  · by_cases h2 : Vector3.Distance m p.Position p.Target < p.MinDist
    · simp only [Camera.ClampDist, gt_iff_lt, h1, if_false, h2, if_true]
    · simp only [Camera.ClampDist, gt_iff_lt, h1, if_false, h2]

/-- The distance after `ClampDist`, in closed form. -/
theorem Camera.ClampDist_distance (m : FloatFns ℝ) (hs : m.sqrtf = Real.sqrt)
    (p : Param ℝ) (hmin : 0 < p.MinDist) (hle : p.MinDist ≤ p.MaxDist) :
    Vector3.Distance m (Camera.ClampDist m p).Position (Camera.ClampDist m p).Target =
      (if p.MaxDist < Vector3.Distance m p.Position p.Target then
        (if FLT_EPSILON < Vector3.LengthSq (Vector3.sub p.Position p.Target)
          then p.MaxDist
          else Vector3.Distance m p.Position p.Target * p.MaxDist)
       else if Vector3.Distance m p.Position p.Target < p.MinDist then
        (if FLT_EPSILON < Vector3.LengthSq (Vector3.sub p.Position p.Target)
          then p.MinDist
          else Vector3.Distance m p.Position p.Target * p.MinDist)
       else Vector3.Distance m p.Position p.Target) := by
  have hmax : 0 ≤ p.MaxDist := le_trans (le_of_lt hmin) hle
  rw [Camera.ClampDist_cases m p hle]
  by_cases h1 : p.MaxDist < Vector3.Distance m p.Position p.Target
  · simp only [h1, if_true]
    by_cases h3 : FLT_EPSILON < Vector3.LengthSq (Vector3.sub p.Position p.Target)
    · simp only [h3, if_true]
      exact Vector3.Distance_add_scale_Normalize m hs _ _ _ hmax
        (lt_trans FLT_EPSILON_pos h3)
    · simp only [h3, if_false]
      exact Vector3.Distance_add_scale m hs _ _ _ hmax
  · simp only [h1, if_false]
    by_cases h2 : Vector3.Distance m p.Position p.Target < p.MinDist
    · simp only [h2, if_true]
      by_cases h3 : FLT_EPSILON < Vector3.LengthSq (Vector3.sub p.Position p.Target)
      · simp only [h3, if_true]
        exact Vector3.Distance_add_scale_Normalize m hs _ _ _ (le_of_lt hmin)
          (lt_trans FLT_EPSILON_pos h3)
      · simp only [h3, if_false]
        exact Vector3.Distance_add_scale m hs _ _ _ (le_of_lt hmin)
    · simp only [h2, if_false]

/-- `FLT_EPSILON` is below 1. -/
theorem FLT_EPSILON_lt_one : (FLT_EPSILON : ℝ) < 1 := by
  unfold FLT_EPSILON
  norm_num

/-- C8 as stated fails with the camera on its target: `Position = Target`,
`MinDist = 1`, `MaxDist = 2`. The zero-division guards skip the
normalisation, the direction stays the zero vector, and both `ClampDist` and
a dolly event leave the distance at 0, below `MinDist`. -/
theorem C8_counterexample_on_target :
    (0 : ℝ) < (Param.onTarget : Param ℝ).MinDist ∧
    (Param.onTarget : Param ℝ).MinDist ≤ (Param.onTarget : Param ℝ).MaxDist ∧
    Vector3.Distance ⟨Real.sqrt, Real.sin, Real.cos, Real.arcsin, Real.pi⟩
      (Camera.ClampDist ⟨Real.sqrt, Real.sin, Real.cos, Real.arcsin, Real.pi⟩
        Param.onTarget).Position
      (Camera.ClampDist ⟨Real.sqrt, Real.sin, Real.cos, Real.arcsin, Real.pi⟩
        Param.onTarget).Target
      < (Param.onTarget : Param ℝ).MinDist ∧
    Vector3.Distance ⟨Real.sqrt, Real.sin, Real.cos, Real.arcsin, Real.pi⟩
      (Camera.UpdateByEvent ⟨Real.sqrt, Real.sin, Real.cos, Real.arcsin, Real.pi⟩
        (CameraEvent.dolly 1) ⟨Param.onTarget, Param.onTarget⟩).m_Param.Position
      (Camera.UpdateByEvent ⟨Real.sqrt, Real.sin, Real.cos, Real.arcsin, Real.pi⟩
        (CameraEvent.dolly 1) ⟨Param.onTarget, Param.onTarget⟩).m_Param.Target
      < (Param.onTarget : Param ℝ).MinDist := by
  have he : ¬ ((0 : ℝ) > FLT_EPSILON) := not_lt.2 (le_of_lt FLT_EPSILON_pos)
  refine ⟨by norm_num [Param.onTarget], by norm_num [Param.onTarget], ?_, ?_⟩
  · simp [Camera.ClampDist, Param.onTarget, Vector3.Distance, Vector3.Length,
      Vector3.LengthSq, Vector3.sub, Vector3.add, Vector3.scale, he]
  · rw [Camera.UpdateByEvent_dolly _ _ _ rfl]
    simp [Param.onTarget, CameraEvent.dolly, Vector3.Distance, Vector3.Length,
      Vector3.LengthSq, Vector3.sub, Vector3.add, Vector3.scale, he]

/-- C8, amended: real arithmetic, `0 < MinDist <= MaxDist`, `d` the distance
between Position and Target before the operation.

Dolly (`UpdateByEvent` with `Flags = EVENT_DOLLY`), with
`k = min(MaxDist, max(MinDist, d + Dolly))`: if `d > FLT_EPSILON` the new
distance is `k`, which lies in `[MinDist, MaxDist]`; if `d <= FLT_EPSILON`
it is `d * k`; so the new distance lies in `[MinDist, MaxDist]` exactly when
`d > FLT_EPSILON` or `MinDist <= d * k`.

`ClampDist`: if `MinDist <= d <= MaxDist` nothing changes; if the squared
distance exceeds `FLT_EPSILON` the new distance is
`min(MaxDist, max(MinDist, d))`, which lies in `[MinDist, MaxDist]`; if it
does not, the new distance is `d * MinDist` for `d < MinDist` and
`d * MaxDist` for `d > MaxDist`; so the new distance lies in
`[MinDist, MaxDist]` exactly when the squared distance exceeds `FLT_EPSILON`,
or `MinDist <= d <= MaxDist`, or `d > MaxDist` and `MinDist <= d * MaxDist`.

With Position equal to Target both operations leave Position on Target, at
distance 0. Neither operation changes Target, MinDist or MaxDist. -/
theorem C8_distance_after_dolly_and_ClampDist (m : FloatFns ℝ)
    (hs : m.sqrtf = Real.sqrt) (c : Camera ℝ) (ev : CameraEvent ℝ)
    (hmin : 0 < c.m_Param.MinDist)
    (hle : c.m_Param.MinDist ≤ c.m_Param.MaxDist) :
    (ev.Flags = EVENT_DOLLY →
      (FLT_EPSILON < Vector3.Distance m c.m_Param.Position c.m_Param.Target →
        Vector3.Distance m (Camera.UpdateByEvent m ev c).m_Param.Position
            (Camera.UpdateByEvent m ev c).m_Param.Target =
          min c.m_Param.MaxDist (max c.m_Param.MinDist
            (Vector3.Distance m c.m_Param.Position c.m_Param.Target + ev.Dolly)) ∧
        c.m_Param.MinDist ≤
          Vector3.Distance m (Camera.UpdateByEvent m ev c).m_Param.Position
            (Camera.UpdateByEvent m ev c).m_Param.Target ∧
        Vector3.Distance m (Camera.UpdateByEvent m ev c).m_Param.Position
            (Camera.UpdateByEvent m ev c).m_Param.Target ≤ c.m_Param.MaxDist) ∧
      (Vector3.Distance m c.m_Param.Position c.m_Param.Target ≤ FLT_EPSILON →
        Vector3.Distance m (Camera.UpdateByEvent m ev c).m_Param.Position
            (Camera.UpdateByEvent m ev c).m_Param.Target =
          Vector3.Distance m c.m_Param.Position c.m_Param.Target *
            min c.m_Param.MaxDist (max c.m_Param.MinDist
              (Vector3.Distance m c.m_Param.Position c.m_Param.Target + ev.Dolly))) ∧
      ((c.m_Param.MinDist ≤
          Vector3.Distance m (Camera.UpdateByEvent m ev c).m_Param.Position
            (Camera.UpdateByEvent m ev c).m_Param.Target ∧
        Vector3.Distance m (Camera.UpdateByEvent m ev c).m_Param.Position
            (Camera.UpdateByEvent m ev c).m_Param.Target ≤ c.m_Param.MaxDist) ↔
        (FLT_EPSILON < Vector3.Distance m c.m_Param.Position c.m_Param.Target ∨
          c.m_Param.MinDist ≤
            Vector3.Distance m c.m_Param.Position c.m_Param.Target *
              min c.m_Param.MaxDist (max c.m_Param.MinDist
                (Vector3.Distance m c.m_Param.Position c.m_Param.Target +
                  ev.Dolly)))) ∧
      (c.m_Param.Position = c.m_Param.Target →
        (Camera.UpdateByEvent m ev c).m_Param.Position = c.m_Param.Target ∧
        Vector3.Distance m (Camera.UpdateByEvent m ev c).m_Param.Position
            (Camera.UpdateByEvent m ev c).m_Param.Target = 0) ∧
      (Camera.UpdateByEvent m ev c).m_Param.Target = c.m_Param.Target ∧
      (Camera.UpdateByEvent m ev c).m_Param.MinDist = c.m_Param.MinDist ∧
      (Camera.UpdateByEvent m ev c).m_Param.MaxDist = c.m_Param.MaxDist) ∧
    ((c.m_Param.MinDist ≤ Vector3.Distance m c.m_Param.Position c.m_Param.Target →
        Vector3.Distance m c.m_Param.Position c.m_Param.Target ≤ c.m_Param.MaxDist →
        Camera.ClampDist m c.m_Param = c.m_Param) ∧
      (FLT_EPSILON <
          Vector3.LengthSq (Vector3.sub c.m_Param.Position c.m_Param.Target) →
        Vector3.Distance m (Camera.ClampDist m c.m_Param).Position
            (Camera.ClampDist m c.m_Param).Target =
          min c.m_Param.MaxDist (max c.m_Param.MinDist
            (Vector3.Distance m c.m_Param.Position c.m_Param.Target)) ∧
        c.m_Param.MinDist ≤
          Vector3.Distance m (Camera.ClampDist m c.m_Param).Position
            (Camera.ClampDist m c.m_Param).Target ∧
        Vector3.Distance m (Camera.ClampDist m c.m_Param).Position
            (Camera.ClampDist m c.m_Param).Target ≤ c.m_Param.MaxDist) ∧
      (Vector3.LengthSq (Vector3.sub c.m_Param.Position c.m_Param.Target) ≤
          FLT_EPSILON →
        (Vector3.Distance m c.m_Param.Position c.m_Param.Target < c.m_Param.MinDist →
          Vector3.Distance m (Camera.ClampDist m c.m_Param).Position
              (Camera.ClampDist m c.m_Param).Target =
            Vector3.Distance m c.m_Param.Position c.m_Param.Target *
              c.m_Param.MinDist) ∧
        (c.m_Param.MaxDist < Vector3.Distance m c.m_Param.Position c.m_Param.Target →
          Vector3.Distance m (Camera.ClampDist m c.m_Param).Position
              (Camera.ClampDist m c.m_Param).Target =
            Vector3.Distance m c.m_Param.Position c.m_Param.Target *
              c.m_Param.MaxDist)) ∧
      ((c.m_Param.MinDist ≤
          Vector3.Distance m (Camera.ClampDist m c.m_Param).Position
            (Camera.ClampDist m c.m_Param).Target ∧
        Vector3.Distance m (Camera.ClampDist m c.m_Param).Position
            (Camera.ClampDist m c.m_Param).Target ≤ c.m_Param.MaxDist) ↔
        (FLT_EPSILON <
            Vector3.LengthSq (Vector3.sub c.m_Param.Position c.m_Param.Target) ∨
          (c.m_Param.MinDist ≤
              Vector3.Distance m c.m_Param.Position c.m_Param.Target ∧
            Vector3.Distance m c.m_Param.Position c.m_Param.Target ≤
              c.m_Param.MaxDist) ∨
          (c.m_Param.MaxDist <
              Vector3.Distance m c.m_Param.Position c.m_Param.Target ∧
            c.m_Param.MinDist ≤
              Vector3.Distance m c.m_Param.Position c.m_Param.Target *
                c.m_Param.MaxDist))) ∧
      (c.m_Param.Position = c.m_Param.Target →
        (Camera.ClampDist m c.m_Param).Position = c.m_Param.Target ∧
        Vector3.Distance m (Camera.ClampDist m c.m_Param).Position
            (Camera.ClampDist m c.m_Param).Target = 0) ∧
      (Camera.ClampDist m c.m_Param).Target = c.m_Param.Target ∧
      (Camera.ClampDist m c.m_Param).MinDist = c.m_Param.MinDist ∧
      (Camera.ClampDist m c.m_Param).MaxDist = c.m_Param.MaxDist) := by
  obtain ⟨p, preset⟩ := c
  simp only at hmin hle ⊢
  obtain ⟨hD0, hDD⟩ := Vector3.Distance_sq m hs p.Position p.Target
  have he1 : (FLT_EPSILON : ℝ) < 1 := FLT_EPSILON_lt_one
  have he0 : (0 : ℝ) < FLT_EPSILON := FLT_EPSILON_pos
  constructor
  · intro hf
    have hdist := Camera.UpdateByEvent_dolly_distance m hs ⟨p, preset⟩ ev hmin hle hf
    have hpar := Camera.UpdateByEvent_dolly m ev ⟨p, preset⟩ hf
    simp only at hdist hpar
    have hK1 : p.MinDist ≤ min p.MaxDist (max p.MinDist
        (Vector3.Distance m p.Position p.Target + ev.Dolly)) :=
      le_min hle (le_max_left _ _)
    have hK2 : min p.MaxDist (max p.MinDist
        (Vector3.Distance m p.Position p.Target + ev.Dolly)) ≤ p.MaxDist :=
      min_le_left _ _
    refine ⟨?_, ?_, ?_, ?_, ?_, ?_, ?_⟩
    · intro h
      rw [hdist, if_pos h]
      exact ⟨rfl, hK1, hK2⟩
    · intro h
      rw [hdist, if_neg (not_lt.2 h)]
    · rw [hdist]
      by_cases h : FLT_EPSILON < Vector3.Distance m p.Position p.Target
      · rw [if_pos h]
        exact ⟨fun _ => Or.inl h, fun _ => ⟨hK1, hK2⟩⟩
      · rw [if_neg h]
        constructor
        · intro hh
          exact Or.inr hh.1
        · rintro (h1 | h1)
          · exact absurd h1 h
          · refine ⟨h1, ?_⟩
            have hD1 : Vector3.Distance m p.Position p.Target ≤ 1 := by
              linarith [not_lt.1 h]
            have hK0 : 0 ≤ min p.MaxDist (max p.MinDist
                (Vector3.Distance m p.Position p.Target + ev.Dolly)) := by
              linarith
            calc Vector3.Distance m p.Position p.Target *
                  min p.MaxDist (max p.MinDist
                    (Vector3.Distance m p.Position p.Target + ev.Dolly))
                ≤ 1 * min p.MaxDist (max p.MinDist
                    (Vector3.Distance m p.Position p.Target + ev.Dolly)) :=
                  mul_le_mul_of_nonneg_right hD1 hK0
              _ ≤ p.MaxDist := by rw [one_mul]; exact hK2
    · intro hPT
      have hz : Vector3.Distance m p.Position p.Target = 0 := by
        rw [hPT]
        exact Vector3.Distance_self m hs _
      have hne : ¬ (FLT_EPSILON < Vector3.Distance m p.Position p.Target) := by
        rw [hz]
        exact not_lt.2 (le_of_lt he0)
      refine ⟨?_, ?_⟩
      · rw [hpar]
        simp only [gt_iff_lt, if_neg hne]
        rw [hPT]
        exact Vector3.add_scale_sub_self _ _
      · rw [hdist, if_neg hne, hz, zero_mul]
    · rw [hpar]
    · rw [hpar]
    · rw [hpar]
  · have hdist := Camera.ClampDist_distance m hs p hmin hle
    have hpar := Camera.ClampDist_cases m p hle
    have hmax : 0 < p.MaxDist := lt_of_lt_of_le hmin hle
    have hsmall : Vector3.LengthSq (Vector3.sub p.Position p.Target) ≤ FLT_EPSILON →
        Vector3.Distance m p.Position p.Target < 1 := by
      intro h
      by_contra hc
      have h1 : 1 ≤ Vector3.Distance m p.Position p.Target := not_lt.1 hc
      nlinarith
    refine ⟨?_, ?_, ?_, ?_, ?_, ?_, ?_, ?_⟩
    · intro h1 h2
      rw [hpar, if_neg (not_lt.2 h2), if_neg (not_lt.2 h1)]
    · intro h
      rw [hdist]
      simp only [h, if_true]
      by_cases h1 : p.MaxDist < Vector3.Distance m p.Position p.Target
      · rw [if_pos h1, max_eq_right (le_trans hle (le_of_lt h1)),
          min_eq_left (le_of_lt h1)]
        exact ⟨rfl, hle, le_refl _⟩
      · rw [if_neg h1]
        by_cases h2 : Vector3.Distance m p.Position p.Target < p.MinDist
        · rw [if_pos h2, max_eq_left (le_of_lt h2), min_eq_right hle]
          exact ⟨rfl, le_refl _, hle⟩
        · rw [if_neg h2, max_eq_right (not_lt.1 h2), min_eq_right (not_lt.1 h1)]
          exact ⟨rfl, not_lt.1 h2, not_lt.1 h1⟩
    · intro h
      have hn : ¬ (FLT_EPSILON <
          Vector3.LengthSq (Vector3.sub p.Position p.Target)) := not_lt.2 h
      refine ⟨?_, ?_⟩
      · intro h2
        have h1 : ¬ (p.MaxDist < Vector3.Distance m p.Position p.Target) :=
          not_lt.2 (le_trans (le_of_lt h2) hle)
        rw [hdist, if_neg h1, if_pos h2, if_neg hn]
      · intro h1
        rw [hdist, if_pos h1, if_neg hn]
    · rw [hdist]
      by_cases h3 : FLT_EPSILON < Vector3.LengthSq (Vector3.sub p.Position p.Target)
      · simp only [h3, if_true, true_or, iff_true]
        by_cases h1 : p.MaxDist < Vector3.Distance m p.Position p.Target
        · rw [if_pos h1]
          exact ⟨hle, le_refl _⟩
        · rw [if_neg h1]
          by_cases h2 : Vector3.Distance m p.Position p.Target < p.MinDist
          · rw [if_pos h2]
            exact ⟨le_refl _, hle⟩
          · rw [if_neg h2]
            exact ⟨not_lt.1 h2, not_lt.1 h1⟩
      · have hlt := hsmall (not_lt.1 h3)
        simp only [h3, if_false, false_or]
        by_cases h1 : p.MaxDist < Vector3.Distance m p.Position p.Target
        · rw [if_pos h1]
          constructor
          · intro hh
            exact Or.inr ⟨h1, hh.1⟩
          · rintro (⟨_, h5⟩ | ⟨_, h5⟩)
            · exact absurd h1 (not_lt.2 h5)
            · refine ⟨h5, ?_⟩
              nlinarith
        · rw [if_neg h1]
          by_cases h2 : Vector3.Distance m p.Position p.Target < p.MinDist
          · rw [if_pos h2]
            constructor
            · intro hh
              exfalso
              nlinarith [hh.1]
            · rintro (⟨h5, _⟩ | ⟨h5, _⟩)
              · exact absurd h2 (not_lt.2 h5)
              · exact absurd h5 h1
          · rw [if_neg h2]
            exact ⟨fun hh => Or.inl hh, fun _ => ⟨not_lt.1 h2, not_lt.1 h1⟩⟩
    · intro hPT
      have hz : Vector3.Distance m p.Position p.Target = 0 := by
        rw [hPT]
        exact Vector3.Distance_self m hs _
      have hl : ¬ (FLT_EPSILON <
          Vector3.LengthSq (Vector3.sub p.Position p.Target)) := by
        rw [← hDD, hz, mul_zero]
        exact not_lt.2 (le_of_lt he0)
      have h1 : ¬ (p.MaxDist < Vector3.Distance m p.Position p.Target) := by
        rw [hz]
        exact not_lt.2 (le_of_lt hmax)
      have h2 : Vector3.Distance m p.Position p.Target < p.MinDist := by
        rw [hz]
        exact hmin
      refine ⟨?_, ?_⟩
      · rw [hpar, if_neg h1, if_pos h2, if_neg hl]
        show Vector3.add p.Target (Vector3.scale (Vector3.sub p.Position p.Target)
          p.MinDist) = p.Target
        rw [hPT]
        exact Vector3.add_scale_sub_self _ _
      · rw [hdist, if_neg h1, if_pos h2, if_neg hl, hz, zero_mul]
    · rw [hpar]
      split_ifs <;> rfl
    · rw [hpar]
      split_ifs <;> rfl
    · rw [hpar]
      split_ifs <;> rfl

/-- C8 (amended) at the default camera `Param()`: Position `(0, 0, 5)`,
Target the origin, range `[0.01, 1000]`, and a dolly by 1. -/
theorem C8_distance_after_dolly_and_ClampDist_witness :
    ((Param.default : Param ℝ).MinDist ≤
      Vector3.Distance ⟨Real.sqrt, Real.sin, Real.cos, Real.arcsin, Real.pi⟩
        (Camera.UpdateByEvent ⟨Real.sqrt, Real.sin, Real.cos, Real.arcsin, Real.pi⟩
          (CameraEvent.dolly 1) ⟨Param.default, Param.default⟩).m_Param.Position
        (Camera.UpdateByEvent ⟨Real.sqrt, Real.sin, Real.cos, Real.arcsin, Real.pi⟩
          (CameraEvent.dolly 1) ⟨Param.default, Param.default⟩).m_Param.Target) ∧
    ((Param.default : Param ℝ).MinDist ≤
      Vector3.Distance ⟨Real.sqrt, Real.sin, Real.cos, Real.arcsin, Real.pi⟩
        (Camera.ClampDist ⟨Real.sqrt, Real.sin, Real.cos, Real.arcsin, Real.pi⟩
          Param.default).Position
        (Camera.ClampDist ⟨Real.sqrt, Real.sin, Real.cos, Real.arcsin, Real.pi⟩
          Param.default).Target) :=
  have h := C8_distance_after_dolly_and_ClampDist
    ⟨Real.sqrt, Real.sin, Real.cos, Real.arcsin, Real.pi⟩ rfl
    ⟨Param.default, Param.default⟩ (CameraEvent.dolly 1)
    (by norm_num [Param.default]) (by norm_num [Param.default])
  ⟨((h.1 rfl).1 (by
      simp only [Vector3.Distance, Vector3.Length, Vector3.LengthSq, Vector3.sub,
        Param.default, FLT_EPSILON]
      rw [Real.lt_sqrt (by norm_num)]
      norm_num)).2.1,
   (h.2.2.1 (by norm_num [Param.default, FLT_EPSILON, Vector3.LengthSq, Vector3.sub])).2.1⟩

/-- The loop of `CalcFnv1` from index `pre.length` over the remaining bytes
`rest` is the left fold of the FNV-1 step over `rest`. -/
theorem fnv1Loop_eq_foldl (kPrime w : Nat) (rest pre : List (Fin 256)) (hash : Nat) :
    fnv1Loop kPrime w (pre ++ rest) rest.length pre.length hash =
      rest.foldl (fun h x => ((h * kPrime) % 2 ^ w) ^^^ x.val) hash := by
  induction rest generalizing pre hash with
  | nil => rfl
  | cons x xs ih =>
    have hread : readByte (pre ++ x :: xs) pre.length = x.val := by
      simp [readByte, List.getD_eq_getElem?_getD, List.getElem_append_right]
    have happ : pre ++ x :: xs = (pre ++ [x]) ++ xs := by simp
    have hlen : pre.length + 1 = (pre ++ [x]).length := by simp
    simp only [List.length_cons, fnv1Loop, List.foldl_cons, hread]
    rw [happ, hlen, ih, Nat.mul_comm kPrime hash]

/-- The FNV-1 fold stays below `2^w` when it starts below `2^w` and `w` has
room for a byte. -/
theorem Fnv1Spec_lt (w offsetBasis prime : Nat) (hw : 8 ≤ w)
    (ho : offsetBasis < 2 ^ w) (b : List (Fin 256)) :
    Fnv1Spec w offsetBasis prime b < 2 ^ w := by
  unfold Fnv1Spec
  induction b generalizing offsetBasis with
  | nil => exact ho
  | cons x xs ih =>
    simp only [List.foldl_cons]
    apply ih
    apply Nat.xor_lt_two_pow (Nat.mod_lt _ (by positivity))
    calc x.val < 256 := x.isLt
      _ = 2 ^ 8 := by norm_num
      _ ≤ 2 ^ w := Nat.pow_le_pow_right (by norm_num) hw

/-- C11: for every byte sequence `b`, called with `size = b.length`, the
32-bit `CalcFnv1` is the FNV-1 fold with offset basis 0x811c9dc5, prime
0x01000193 and arithmetic mod 2^32, and the 64-bit overload is the fold with
offset basis 0xcbf29ce484222325, prime 0x100000001b3 and arithmetic mod 2^64;
both results fit their return type. The empty input yields the offset
basis, and appending a byte `x` gives `(prime * CalcFnv1(b) mod 2^w) xor x`. -/
theorem C11_CalcFnv1_is_fnv1 (b : List (Fin 256)) (x : Fin 256) :
    (CalcFnv1_u32 b b.length = Fnv1Spec 32 0x811c9dc5 0x01000193 b ∧
      CalcFnv1_u32 b b.length < 2 ^ 32) ∧
    (CalcFnv1_u64 b b.length = Fnv1Spec 64 0xcbf29ce484222325 0x100000001b3 b ∧
      CalcFnv1_u64 b b.length < 2 ^ 64) ∧
    (CalcFnv1_u32 [] 0 = 0x811c9dc5 ∧ CalcFnv1_u64 [] 0 = 0xcbf29ce484222325) ∧
    CalcFnv1_u32 (b ++ [x]) (b ++ [x]).length =
      ((0x01000193 * CalcFnv1_u32 b b.length) % 2 ^ 32) ^^^ x.val ∧
    CalcFnv1_u64 (b ++ [x]) (b ++ [x]).length =
      ((0x100000001b3 * CalcFnv1_u64 b b.length) % 2 ^ 64) ^^^ x.val := by
  have h32 : ∀ l : List (Fin 256),
      CalcFnv1_u32 l l.length = Fnv1Spec 32 0x811c9dc5 0x01000193 l := by
    intro l
    exact fnv1Loop_eq_foldl 0x01000193 32 l [] 0x811c9dc5
  have h64 : ∀ l : List (Fin 256),
      CalcFnv1_u64 l l.length = Fnv1Spec 64 0xcbf29ce484222325 0x100000001b3 l := by
    intro l
    exact fnv1Loop_eq_foldl 0x100000001b3 64 l [] 0xcbf29ce484222325
  have hsnoc : ∀ (w o p : Nat) (l : List (Fin 256)) (y : Fin 256),
      Fnv1Spec w o p (l ++ [y]) = ((p * Fnv1Spec w o p l) % 2 ^ w) ^^^ y.val := by
    intro w o p l y
    simp only [Fnv1Spec, List.foldl_append, List.foldl_cons, List.foldl_nil]
    rw [Nat.mul_comm]
  refine ⟨⟨h32 b, ?_⟩, ⟨h64 b, ?_⟩, ⟨rfl, rfl⟩, ?_, ?_⟩
  · rw [h32 b]
    exact Fnv1Spec_lt 32 _ _ (by norm_num) (by norm_num) b
  · rw [h64 b]
    exact Fnv1Spec_lt 64 _ _ (by norm_num) (by norm_num) b
  · rw [h32 (b ++ [x]), h32 b, hsnoc]
  · rw [h64 (b ++ [x]), h64 b, hsnoc]

/-- `UpdateByEvent` with `Flags = EVENT_TRUCK` runs the truck branch alone. -/
theorem Camera.UpdateByEvent_truck {F : Type} [LinearOrderedField F]
    (m : FloatFns F) (ev : CameraEvent F) (c : Camera F)
    (hf : ev.Flags = EVENT_TRUCK) :
    Camera.UpdateByEvent m ev c =
      { c with m_Param :=
          ({ c.m_Param with
             Position := Vector3.add c.m_Param.Position ev.Truck,
             Target := Vector3.add c.m_Param.Target ev.Truck } : Param F) } := by
  have h1 : EVENT_TRUCK &&& EVENT_ROTATE = 0 := by decide
  have h2 : EVENT_TRUCK &&& EVENT_DOLLY = 0 := by decide
  have h3 : EVENT_TRUCK &&& EVENT_TRUCK ≠ 0 := by decide
  have h4 : EVENT_TRUCK &&& EVENT_PANTILT = 0 := by decide
  have h5 : EVENT_TRUCK &&& EVENT_TWIST = 0 := by decide
  have h6 : EVENT_TRUCK &&& EVENT_RESET = 0 := by decide
  simp only [Camera.UpdateByEvent, hf, h1, h2, h3, h4, h5, h6, ne_eq,
    not_true_eq_false, not_false_eq_true, if_true, if_false]

/-- C19: for every camera state and every event with `Flags = EVENT_TRUCK`
and truck vector `t`, in exact arithmetic over any ordered field (the reals
among them), `UpdateByEvent` adds `t` to Position and to Target; the offset
Position - Target and the distance are unchanged; Upward, Rotate, PanTilt,
Twist, MinDist, MaxDist and the preset are untouched. -/
theorem C19_truck_translates {F : Type} [LinearOrderedField F] (m : FloatFns F)
    (ev : CameraEvent F) (c : Camera F) (hf : ev.Flags = EVENT_TRUCK) :
    (Camera.UpdateByEvent m ev c).m_Param.Position =
      Vector3.add c.m_Param.Position ev.Truck ∧
    (Camera.UpdateByEvent m ev c).m_Param.Target =
      Vector3.add c.m_Param.Target ev.Truck ∧
    Vector3.sub (Camera.UpdateByEvent m ev c).m_Param.Position
        (Camera.UpdateByEvent m ev c).m_Param.Target =
      Vector3.sub c.m_Param.Position c.m_Param.Target ∧
    Vector3.Distance m (Camera.UpdateByEvent m ev c).m_Param.Position
        (Camera.UpdateByEvent m ev c).m_Param.Target =
      Vector3.Distance m c.m_Param.Position c.m_Param.Target ∧
    (Camera.UpdateByEvent m ev c).m_Param.Upward = c.m_Param.Upward ∧
    (Camera.UpdateByEvent m ev c).m_Param.Rotate = c.m_Param.Rotate ∧
    (Camera.UpdateByEvent m ev c).m_Param.PanTilt = c.m_Param.PanTilt ∧
    (Camera.UpdateByEvent m ev c).m_Param.Twist = c.m_Param.Twist ∧
    (Camera.UpdateByEvent m ev c).m_Param.MinDist = c.m_Param.MinDist ∧
    (Camera.UpdateByEvent m ev c).m_Param.MaxDist = c.m_Param.MaxDist ∧
    (Camera.UpdateByEvent m ev c).m_Preset = c.m_Preset := by
  rw [Camera.UpdateByEvent_truck m ev c hf]
  have hsub : Vector3.sub (Vector3.add c.m_Param.Position ev.Truck)
      (Vector3.add c.m_Param.Target ev.Truck) =
      Vector3.sub c.m_Param.Position c.m_Param.Target := by
    simp only [Vector3.sub, Vector3.add, add_sub_add_right_eq_sub]
  refine ⟨rfl, rfl, hsub, ?_, rfl, rfl, rfl, rfl, rfl, rfl, rfl⟩
  simp only [Vector3.Distance, hsub]

/-- C19 at the default camera `Param()` over the rationals, trucked by
`(1, 2, 3)`: Position and Target both move by it. -/
theorem C19_truck_translates_witness :
    (Camera.UpdateByEvent FloatFns.rational (CameraEvent.truck ⟨1, 2, 3⟩)
        ⟨Param.default, Param.default⟩).m_Param.Position =
      Vector3.add (Param.default : Param ℚ).Position ⟨1, 2, 3⟩ ∧
    (Camera.UpdateByEvent FloatFns.rational (CameraEvent.truck ⟨1, 2, 3⟩)
        ⟨Param.default, Param.default⟩).m_Param.Target =
      Vector3.add (Param.default : Param ℚ).Target ⟨1, 2, 3⟩ :=
  have h := C19_truck_translates FloatFns.rational (CameraEvent.truck ⟨1, 2, 3⟩)
    ⟨Param.default, Param.default⟩ rfl
  ⟨h.1, h.2.1⟩

/-- `UpdateByEvent` with no flag set changes nothing. -/
theorem Camera.UpdateByEvent_no_flags {F : Type} [LinearOrderedField F]
    (m : FloatFns F) (ev : CameraEvent F) (c : Camera F) (hf : ev.Flags = 0) :
    Camera.UpdateByEvent m ev c = c := by
  simp [Camera.UpdateByEvent, hf]

/-- C16: for every key code and every `isKeyDown`, `isAltDown`,
`MakeEventFromKey` returns the all-zero event with `Flags = EVENT_RESET` if
`nChar = 0x46` and the key is down, and the all-zero event with `Flags = 0`
otherwise; the result is the same for both values of `isAltDown`. `OnKey`
sets the projection parameters (field of view, aspect ratio) to the preset
when that flag is set, leaves them as they are when it is not, and never
changes the preset. -/
theorem C16_key_reset {F : Type} [LinearOrderedField F] (m : FloatFns F)
    (nChar : Nat) (isKeyDown isAltDown : Bool) (vc : ViewerCamera F) :
    (ViewerCamera.MakeEventFromKey nChar isKeyDown isAltDown : CameraEvent F) =
      { (CameraEvent.default : CameraEvent F) with
        Flags := if nChar = 0x46 ∧ isKeyDown = true then EVENT_RESET else 0 } ∧
    (ViewerCamera.MakeEventFromKey nChar isKeyDown true : CameraEvent F) =
      ViewerCamera.MakeEventFromKey nChar isKeyDown false ∧
    ((nChar = 0x46 ∧ isKeyDown = true) →
      (ViewerCamera.OnKey m nChar isKeyDown isAltDown vc).m_ProjParam = vc.m_ProjPreset) ∧
    (¬ (nChar = 0x46 ∧ isKeyDown = true) →
      (ViewerCamera.OnKey m nChar isKeyDown isAltDown vc).m_ProjParam = vc.m_ProjParam ∧
      (ViewerCamera.OnKey m nChar isKeyDown isAltDown vc).toCamera = vc.toCamera) ∧
    (ViewerCamera.OnKey m nChar isKeyDown isAltDown vc).m_ProjPreset = vc.m_ProjPreset := by
  have hr : (0 ||| EVENT_RESET) = EVENT_RESET := by decide
  have hr2 : EVENT_RESET &&& EVENT_RESET ≠ 0 := by decide
  have hev : (ViewerCamera.MakeEventFromKey nChar isKeyDown isAltDown : CameraEvent F) =
      { (CameraEvent.default : CameraEvent F) with
        Flags := if nChar = 0x46 ∧ isKeyDown = true then EVENT_RESET else 0 } := by
    by_cases h1 : nChar = 0x46
    · cases isKeyDown
      · simp [ViewerCamera.MakeEventFromKey, h1, CameraEvent.default]
      · simp [ViewerCamera.MakeEventFromKey, h1, CameraEvent.default, hr]
    · simp [ViewerCamera.MakeEventFromKey, h1, CameraEvent.default]
  refine ⟨hev, rfl, ?_, ?_, ?_⟩
  · intro h
    simp only [ViewerCamera.OnKey, hev, if_pos h, hr2, ne_eq, not_false_eq_true, if_true]
  · intro h
    have h0 : ({ (CameraEvent.default : CameraEvent F) with Flags := 0 } : CameraEvent F).Flags
        = 0 := rfl
    simp only [ViewerCamera.OnKey, hev, if_neg h, Nat.zero_and, ne_eq,
      not_true_eq_false, if_false]
    exact ⟨trivial, Camera.UpdateByEvent_no_flags m _ vc.toCamera h0⟩
  · simp only [ViewerCamera.OnKey]
    split <;> rfl

/-- `FAILED` and `SUCCEEDED` are complementary. -/
theorem FAILED_eq_false_iff (hr : HRESULT) : FAILED hr = false ↔ SUCCEEDED hr = true := by
  simp [FAILED, SUCCEEDED]

/-- C12: `Create` on a target that holds no texture and no view, for every
answer of the device to the three creation calls and every descriptor. For
`ColorTarget2D`, `ColorTarget3D` and `DepthTarget2D` alike: the result is
true iff the three creations succeed; when it is false the target is as
before (no texture, no target view, no shader resource view, the stored
descriptor `d` unchanged); when it is true `GetDesc()` is the descriptor
passed in and the three pointers are the ones the device returned. The two
2D classes run this body whenever their `assert(desc.ArraySize >= 1)`
holds. -/
theorem C12_Create_all_or_nothing (texture view srv : DeviceResult)
    (desc2 d2 : TargetDesc2D) (desc3 d3 : TargetDesc3D) :
    (((ColorTarget2D.CreateBody texture view srv desc2 ⟨none, none, none, d2⟩).1 = true ↔
        (SUCCEEDED texture.hr = true ∧ SUCCEEDED view.hr = true ∧ SUCCEEDED srv.hr = true)) ∧
      ((ColorTarget2D.CreateBody texture view srv desc2 ⟨none, none, none, d2⟩).1 = false →
        (ColorTarget2D.CreateBody texture view srv desc2 ⟨none, none, none, d2⟩).2.1 =
          ⟨none, none, none, d2⟩) ∧
      ((ColorTarget2D.CreateBody texture view srv desc2 ⟨none, none, none, d2⟩).1 = true →
        (ColorTarget2D.CreateBody texture view srv desc2 ⟨none, none, none, d2⟩).2.1 =
          ⟨some texture.ptr, some srv.ptr, some view.ptr, desc2⟩ ∧
        (ColorTarget2D.CreateBody texture view srv desc2 ⟨none, none, none, d2⟩).2.1.GetDesc
          = desc2) ∧
      (1 ≤ desc2.ArraySize →
        ColorTarget2D.Create texture view srv desc2 ⟨none, none, none, d2⟩ =
          some (ColorTarget2D.CreateBody texture view srv desc2 ⟨none, none, none, d2⟩))) ∧
    (((ColorTarget3D.Create texture view srv desc3 ⟨none, none, none, d3⟩).1 = true ↔
        (SUCCEEDED texture.hr = true ∧ SUCCEEDED view.hr = true ∧ SUCCEEDED srv.hr = true)) ∧
      ((ColorTarget3D.Create texture view srv desc3 ⟨none, none, none, d3⟩).1 = false →
        (ColorTarget3D.Create texture view srv desc3 ⟨none, none, none, d3⟩).2.1 =
          ⟨none, none, none, d3⟩) ∧
      ((ColorTarget3D.Create texture view srv desc3 ⟨none, none, none, d3⟩).1 = true →
        (ColorTarget3D.Create texture view srv desc3 ⟨none, none, none, d3⟩).2.1 =
          ⟨some texture.ptr, some srv.ptr, some view.ptr, desc3⟩ ∧
        (ColorTarget3D.Create texture view srv desc3 ⟨none, none, none, d3⟩).2.1.GetDesc
          = desc3)) ∧
    (((DepthTarget2D.CreateBody texture view srv desc2 ⟨none, none, none, d2⟩).1 = true ↔
        (SUCCEEDED texture.hr = true ∧ SUCCEEDED view.hr = true ∧ SUCCEEDED srv.hr = true)) ∧
      ((DepthTarget2D.CreateBody texture view srv desc2 ⟨none, none, none, d2⟩).1 = false →
        (DepthTarget2D.CreateBody texture view srv desc2 ⟨none, none, none, d2⟩).2.1 =
          ⟨none, none, none, d2⟩) ∧
      ((DepthTarget2D.CreateBody texture view srv desc2 ⟨none, none, none, d2⟩).1 = true →
        (DepthTarget2D.CreateBody texture view srv desc2 ⟨none, none, none, d2⟩).2.1 =
          ⟨some texture.ptr, some srv.ptr, some view.ptr, desc2⟩ ∧
        (DepthTarget2D.CreateBody texture view srv desc2 ⟨none, none, none, d2⟩).2.1.GetDesc
          = desc2) ∧
      (1 ≤ desc2.ArraySize →
        DepthTarget2D.Create texture view srv desc2 ⟨none, none, none, d2⟩ =
          some (DepthTarget2D.CreateBody texture view srv desc2 ⟨none, none, none, d2⟩))) := by
  have e1 := FAILED_eq_false_iff texture.hr
  have e2 := FAILED_eq_false_iff view.hr
  have e3 := FAILED_eq_false_iff srv.hr
  refine ⟨⟨?_, ?_, ?_, ?_⟩, ⟨?_, ?_, ?_⟩, ⟨?_, ?_, ?_, ?_⟩⟩
  all_goals
    first
    | (intro h
       simp only [ColorTarget2D.Create, DepthTarget2D.Create, ge_iff_le, h, if_true])
    | (cases h1 : FAILED texture.hr <;> cases h2 : FAILED view.hr <;>
        cases h3 : FAILED srv.hr <;>
        simp_all [ColorTarget2D.CreateBody, ColorTarget3D.Create, DepthTarget2D.CreateBody,
          DeviceResult.out, ColorTarget2D.GetDesc, ColorTarget3D.GetDesc,
          DepthTarget2D.GetDesc])

/-- C13 as stated fails for a stride that does not fit 32 bits (a `size_t`
of 64 bits): `Init(device, 12, 4294967296, nullptr)` with a device that
creates the buffer returns true, and `GetStride()` is then 0, not the stride
passed. -/
theorem C13_counterexample_stride_truncated :
    (VertexBuffer.Init ⟨S_OK, 1⟩ ⟨S_OK, 2⟩ (some 1) 12 4294967296 none false false
      ⟨none, none, 0⟩).1 = true ∧
    (VertexBuffer.Init ⟨S_OK, 1⟩ ⟨S_OK, 2⟩ (some 1) 12 4294967296 none false false
      ⟨none, none, 0⟩).2.1.GetStride = 0 ∧
    (VertexBuffer.Init ⟨S_OK, 1⟩ ⟨S_OK, 2⟩ (some 1) 12 4294967296 none false false
      ⟨none, none, 0⟩).2.1.GetStride ≠ 4294967296 := by
  decide

/-- C13, amended. For `VertexBuffer`, `IndexBuffer`, `ConstantBuffer`,
`StructuredBuffer` and `RawBuffer`: with a null device or `size = 0`, `Init`
returns false, the only effect is the error log (no device call) and the
object is unchanged. For `VertexBuffer`: after an `Init` that returns true
`GetStride()` is the stride passed converted to `uint32_t`, that is
`stride mod 2^32`, which is the stride itself when it is below `2^32`; an
`Init` that returns false leaves `GetStride()` as it was; after `Term` it
is 0. -/
theorem C13_Init_guard_and_stride (buffer srv uavView : DeviceResult)
    (pDevice : Option Nat) (size stride : Nat) (pInitData : Option Nat)
    (flag1 flag2 : Bool) (vb : VertexBuffer) (ib : IndexBuffer)
    (cb : ConstantBuffer) (sb : StructuredBuffer) (rb : RawBuffer) :
    ((pDevice = none ∨ size = 0) →
      VertexBuffer.Init buffer srv pDevice size stride pInitData flag1 flag2 vb =
        (false, vb, [DeviceEffect.ELOG "Error : Invalid Argument."]) ∧
      IndexBuffer.Init buffer srv pDevice size pInitData flag1 ib =
        (false, ib, [DeviceEffect.ELOG "Error : Invalid Argument."]) ∧
      ConstantBuffer.Init buffer pDevice size flag1 cb =
        (false, cb, [DeviceEffect.ELOG "Error : Invalid Argument."]) ∧
      StructuredBuffer.Init buffer srv uavView pDevice size stride pInitData flag1 sb =
        some (false, sb, [DeviceEffect.ELOG "Error : Invalid Argument."]) ∧
      RawBuffer.Init buffer srv uavView pDevice size pInitData flag1 rb =
        (false, rb, [DeviceEffect.ELOG "Error : Invalid Argument."]) ∧
      deviceCalls [DeviceEffect.ELOG "Error : Invalid Argument."] = []) ∧
    ((VertexBuffer.Init buffer srv pDevice size stride pInitData flag1 flag2 vb).1 = true →
      (VertexBuffer.Init buffer srv pDevice size stride pInitData flag1 flag2 vb).2.1.GetStride
        = stride % 2 ^ 32 ∧
      (stride < 2 ^ 32 →
        (VertexBuffer.Init buffer srv pDevice size stride pInitData flag1 flag2
          vb).2.1.GetStride = stride)) ∧
    ((VertexBuffer.Init buffer srv pDevice size stride pInitData flag1 flag2 vb).1 = false →
      (VertexBuffer.Init buffer srv pDevice size stride pInitData flag1 flag2 vb).2.1.GetStride
        = vb.GetStride) ∧
    vb.Term.GetStride = 0 := by
  refine ⟨?_, ?_, ?_, rfl⟩
  · intro h
    simp [VertexBuffer.Init, IndexBuffer.Init, ConstantBuffer.Init, StructuredBuffer.Init,
      RawBuffer.Init, h, deviceCalls]
  · intro h
    have hs : (VertexBuffer.Init buffer srv pDevice size stride pInitData flag1 flag2
        vb).2.1.GetStride = stride % 2 ^ 32 := by
      unfold VertexBuffer.Init at h ⊢
      simp only [VertexBuffer.GetStride]
      split_ifs at h ⊢ <;> simp_all
    exact ⟨hs, fun hlt => by rw [hs, Nat.mod_eq_of_lt hlt]⟩
  · intro h
    unfold VertexBuffer.Init at h ⊢
    simp only [VertexBuffer.GetStride]
    split_ifs at h ⊢ <;> simp_all

/-- `SUCCEEDED` is false exactly when `FAILED` is true. -/
theorem SUCCEEDED_eq_false_iff (hr : HRESULT) : SUCCEEDED hr = false ↔ FAILED hr = true := by
  simp [FAILED, SUCCEEDED]

/-- The creation attempts of a concatenation of effects. -/
theorem createAttempts_append (a b : List InitEffect) :
    createAttempts (a ++ b) = createAttempts a ++ createAttempts b := by
  induction a with
  | nil => rfl
  | cons e es ih => cases e <;> simp [createAttempts, ih]

/-- The steps after the loop make no creation attempt. -/
theorem createAttempts_laterSteps (world : InitWorld) (l : List (InitStep × String)) :
    createAttempts (DeviceContext.laterSteps world l).2 = [] := by
  induction l with
  | nil => rfl
  | cons p ps ih =>
    obtain ⟨s, message⟩ := p
    unfold DeviceContext.laterSteps
    by_cases hf : FAILED (world.step s) = true
    · simp [hf, createAttempts]
    · rw [if_neg hf]
      by_cases hs : s = InitStep.createRasterizerState <;>
        simp [hs, createAttempts, createAttempts_append, ih]

/-- The creation attempts of `Init` are those of its loop, which runs unless
`InitD3D12()` fails, and `m_DriverType` after `Init` is the one the loop
leaves. -/
theorem DeviceContext.Init_attempts (world : InitWorld) (on12 debug : Bool)
    (dc : DeviceContext) (h : ¬ (on12 = true ∧ world.initD3D12 = false)) :
    createAttempts (DeviceContext.Init world on12 debug dc).2.2 =
      createAttempts (DeviceContext.createLoop world on12
        ((if debug then 0 ||| D3D11_CREATE_DEVICE_DEBUG else 0)
          ||| D3D11_CREATE_DEVICE_BGRA_SUPPORT)
        DeviceContext.driverTypes S_OK dc).2.2 ∧
    (DeviceContext.Init world on12 debug dc).2.1 =
      (DeviceContext.createLoop world on12
        ((if debug then 0 ||| D3D11_CREATE_DEVICE_DEBUG else 0)
          ||| D3D11_CREATE_DEVICE_BGRA_SUPPORT)
        DeviceContext.driverTypes S_OK dc).2.1 ∧
    (FAILED (DeviceContext.createLoop world on12
        ((if debug then 0 ||| D3D11_CREATE_DEVICE_DEBUG else 0)
          ||| D3D11_CREATE_DEVICE_BGRA_SUPPORT)
        DeviceContext.driverTypes S_OK dc).1 = true →
      (DeviceContext.Init world on12 debug dc).1 = false) := by
  have h0 : ¬ (on12 = true ∧ ¬ world.initD3D12 = true) := by
    simpa using h
  have hfx0 : createAttempts (if on12 = true then [InitEffect.InitD3D12] else []) = [] := by
    cases on12 <;> rfl
  unfold DeviceContext.Init
  rw [if_neg h0]
  simp only []
  split_ifs <;>
    simp [createAttempts_append, createAttempts, hfx0, createAttempts_laterSteps] <;>
    simp_all

/-- C14: `DeviceContext::Init` in either build, for every answer of
Direct3D. If `InitD3D12()` fails (D3D11On12 build) no creation is attempted
and `Init` returns false. Otherwise the creation attempts are made with
`m_DriverType` HARDWARE, WARP, REFERENCE in that order and stop at the first
success: if HARDWARE succeeds it is the only attempt; if it fails and WARP
succeeds the attempts are HARDWARE, WARP; otherwise all three are made, and
if all three fail `Init` returns false. After a successful creation
`GetDriverType()` is the first type whose creation succeeded. -/
theorem C14_Init_driver_type_order (world : InitWorld) (on12 debug : Bool)
    (dc : DeviceContext) :
    ((on12 = true ∧ world.initD3D12 = false) →
      (DeviceContext.Init world on12 debug dc).1 = false ∧
      createAttempts (DeviceContext.Init world on12 debug dc).2.2 = [] ∧
      (DeviceContext.Init world on12 debug dc).2.1 = dc) ∧
    (¬ (on12 = true ∧ world.initD3D12 = false) →
      (SUCCEEDED (world.createDevice D3D_DRIVER_TYPE.D3D_DRIVER_TYPE_HARDWARE) = true →
        createAttempts (DeviceContext.Init world on12 debug dc).2.2 =
          [D3D_DRIVER_TYPE.D3D_DRIVER_TYPE_HARDWARE] ∧
        (DeviceContext.Init world on12 debug dc).2.1.GetDriverType =
          D3D_DRIVER_TYPE.D3D_DRIVER_TYPE_HARDWARE) ∧
      (SUCCEEDED (world.createDevice D3D_DRIVER_TYPE.D3D_DRIVER_TYPE_HARDWARE) = false →
        SUCCEEDED (world.createDevice D3D_DRIVER_TYPE.D3D_DRIVER_TYPE_WARP) = true →
        createAttempts (DeviceContext.Init world on12 debug dc).2.2 =
          [D3D_DRIVER_TYPE.D3D_DRIVER_TYPE_HARDWARE, D3D_DRIVER_TYPE.D3D_DRIVER_TYPE_WARP] ∧
        (DeviceContext.Init world on12 debug dc).2.1.GetDriverType =
          D3D_DRIVER_TYPE.D3D_DRIVER_TYPE_WARP) ∧
      (SUCCEEDED (world.createDevice D3D_DRIVER_TYPE.D3D_DRIVER_TYPE_HARDWARE) = false →
        SUCCEEDED (world.createDevice D3D_DRIVER_TYPE.D3D_DRIVER_TYPE_WARP) = false →
        SUCCEEDED (world.createDevice D3D_DRIVER_TYPE.D3D_DRIVER_TYPE_REFERENCE) = true →
        createAttempts (DeviceContext.Init world on12 debug dc).2.2 =
          [D3D_DRIVER_TYPE.D3D_DRIVER_TYPE_HARDWARE, D3D_DRIVER_TYPE.D3D_DRIVER_TYPE_WARP,
           D3D_DRIVER_TYPE.D3D_DRIVER_TYPE_REFERENCE] ∧
        (DeviceContext.Init world on12 debug dc).2.1.GetDriverType =
          D3D_DRIVER_TYPE.D3D_DRIVER_TYPE_REFERENCE) ∧
      (SUCCEEDED (world.createDevice D3D_DRIVER_TYPE.D3D_DRIVER_TYPE_HARDWARE) = false →
        SUCCEEDED (world.createDevice D3D_DRIVER_TYPE.D3D_DRIVER_TYPE_WARP) = false →
        SUCCEEDED (world.createDevice D3D_DRIVER_TYPE.D3D_DRIVER_TYPE_REFERENCE) = false →
        createAttempts (DeviceContext.Init world on12 debug dc).2.2 =
          [D3D_DRIVER_TYPE.D3D_DRIVER_TYPE_HARDWARE, D3D_DRIVER_TYPE.D3D_DRIVER_TYPE_WARP,
           D3D_DRIVER_TYPE.D3D_DRIVER_TYPE_REFERENCE] ∧
        (DeviceContext.Init world on12 debug dc).1 = false)) := by
  constructor
  · rintro ⟨h1, h2⟩
    simp [DeviceContext.Init, h1, h2, createAttempts]
  · intro h
    obtain ⟨ha, hd, hfail⟩ := DeviceContext.Init_attempts world on12 debug dc h
    rw [ha, hd]
    refine ⟨?_, ?_, ?_, ?_⟩
    · intro h1
      simp [DeviceContext.createLoop, DeviceContext.driverTypes, h1, createAttempts,
        DeviceContext.GetDriverType]
    · intro h1 h2
      simp [DeviceContext.createLoop, DeviceContext.driverTypes, h1, h2, createAttempts,
        DeviceContext.GetDriverType]
    · intro h1 h2 h3
      simp [DeviceContext.createLoop, DeviceContext.driverTypes, h1, h2, h3, createAttempts,
        DeviceContext.GetDriverType]
    · intro h1 h2 h3
      refine ⟨?_, hfail ?_⟩
      · simp [DeviceContext.createLoop, DeviceContext.driverTypes, h1, h2, h3,
          createAttempts]
      · simp [DeviceContext.createLoop, DeviceContext.driverTypes, h1, h2, h3,
          (SUCCEEDED_eq_false_iff _).1 h3]

/-- `Max a b` is the maximum. -/
theorem Max_eq_max (a b : Nat) : Max a b = max a b := by
  unfold Max
  split_ifs with h
  · exact (max_eq_left (le_of_lt h)).symm
  · exact (max_eq_right (not_lt.1 h)).symm

/-- The leading bit: `2^(ilog2Fuel fuel n) <= n < 2^(ilog2Fuel fuel n + 1)`
for a positive `n` within the fuel. -/
theorem Binary32.ilog2Fuel_spec (fuel : Nat) :
    ∀ n : Nat, 0 < n → n ≤ fuel →
      2 ^ Binary32.ilog2Fuel fuel n ≤ n ∧ n < 2 ^ (Binary32.ilog2Fuel fuel n + 1) := by
  induction fuel with
  | zero =>
    intro n h0 h1
    omega
  | succ fuel ih =>
    intro n h0 h1
    by_cases h2 : 2 ≤ n
    · obtain ⟨ha, hb⟩ := ih (n / 2) (by omega) (by omega)
      simp only [Binary32.ilog2Fuel, if_pos h2]
      rw [pow_succ, pow_succ] at *
      constructor
      · omega
      · omega
    · simp only [Binary32.ilog2Fuel, if_neg h2]
      constructor
      · simp
        omega
      · simp
        omega

/-- The leading bit of a positive integer. -/
theorem Binary32.ilog2_spec (n : Nat) (h0 : 0 < n) :
    2 ^ Binary32.ilog2 n ≤ n ∧ n < 2 ^ (Binary32.ilog2 n + 1) :=
  Binary32.ilog2Fuel_spec n n h0 (le_refl n)

/-- The exponent of a positive integer is the position of its leading bit. -/
theorem Binary32.exponent_natCast (n : Nat) (h0 : 0 < n) :
    Binary32.exponent n 1 = (Binary32.ilog2 n : Int) := by
  have hle : 2 ^ Binary32.ilog2 n ≤ n := (Binary32.ilog2_spec n h0).1
  have h1 : Binary32.ilog2 1 = 0 := by decide
  have hb : (-((Binary32.ilog2 n : Int))).toNat = 0 := by simp
  unfold Binary32.exponent Binary32.scaleDen Binary32.scaleNum
  simp only [h1, Nat.cast_zero, sub_zero, neg_neg, Int.toNat_natCast, hb, pow_zero,
    mul_one, one_mul, if_pos hle]

/-- An integer below `2^24` is a binary32 number: rounding leaves it as it
is. -/
theorem Binary32.roundMagnitude_natCast (n : Nat) (h0 : 0 < n) (h : n < 2 ^ 24) :
    Binary32.roundMagnitude n 1 = (n : ℚ) := by
  have hlog : Binary32.ilog2 n < 24 := by
    have h1 := (Binary32.ilog2_spec n h0).1
    by_contra hc
    have h2 : 2 ^ 24 ≤ 2 ^ Binary32.ilog2 n :=
      Nat.pow_le_pow_right (by decide) (not_lt.1 hc)
    omega
  have hmax : max (Binary32.ilog2 n : Int) (-126) = (Binary32.ilog2 n : Int) :=
    max_eq_left (by omega)
  have hs : (23 - (Binary32.ilog2 n : Int)).toNat = 23 - Binary32.ilog2 n := by omega
  have hs1 : (-(23 - (Binary32.ilog2 n : Int))).toNat = 0 := by omega
  have hs2 : (-(-(23 - (Binary32.ilog2 n : Int)))).toNat = 23 - Binary32.ilog2 n := by
    omega
  unfold Binary32.roundMagnitude
  simp only [Binary32.exponent_natCast n h0, hmax, Binary32.scaleNum,
    Binary32.scaleDen, hs, hs1, hs2, pow_zero, mul_one, one_mul, Nat.div_one,
    Nat.mod_one, Nat.mul_zero, Nat.lt_one_iff, if_true, Nat.zero_lt_one]
  push_cast
  field_simp

/-- The conversion of a `uint32_t` below `2^24` to `float` is exact. -/
theorem Binary32.ofUInt32_exact (n : Nat) (h : n < 2 ^ 24) :
    Binary32.ofUInt32 n = Binary32.finite false (n : ℚ) := by
  unfold Binary32.ofUInt32 Binary32.round
  by_cases h0 : n = 0
  · simp [h0]
  · have hpos : 0 < n := Nat.pos_of_ne_zero h0
    have hlt : ¬ ((2 : ℚ) ^ 128 ≤ (n : ℚ)) := by
      have h2 : (n : ℚ) < 2 ^ 24 := by exact_mod_cast h
      have h3 : (2 : ℚ) ^ 24 ≤ 2 ^ 128 := by norm_num
      exact not_le.2 (lt_of_lt_of_le h2 h3)
    rw [if_neg h0, Binary32.roundMagnitude_natCast n hpos h, if_neg hlt]

/-- Two integers below `2^24`, the second positive, converted to `float` and
divided as `float`s, give their exact quotient rounded once. -/
theorem Binary32.div_ofUInt32 (a b : Nat) (ha : a < 2 ^ 24) (hb : b < 2 ^ 24)
    (hb0 : 0 < b) :
    Binary32.div (Binary32.ofUInt32 a) (Binary32.ofUInt32 b) =
      Binary32.round false a b := by
  have hq : ¬ ((b : ℚ) = 0) := by exact_mod_cast (Nat.pos_iff_ne_zero.1 hb0)
  rw [Binary32.ofUInt32_exact a ha, Binary32.ofUInt32_exact b hb]
  simp only [Binary32.div, if_neg hq, Rat.num_natCast, Rat.den_natCast,
    Int.natAbs_ofNat, mul_one, one_mul, bne_self_eq_false]

/-- The aspect ratio of 1280 by 720 as a `float`: `0x3FE38E39`, not the
exact 16/9. -/
theorem Binary32.round_1280_720 :
    Binary32.round false 1280 720 = Binary32.finite false (14913081 / 8388608) := by
  have h1 : Binary32.ilog2 1280 = 10 := by decide
  have h2 : Binary32.ilog2 720 = 9 := by decide
  have t1 : (-1 : Int).toNat = 0 := rfl
  have t2 : (-(23 : Int)).toNat = 0 := rfl
  have t3 : (23 : Int).toNat = 23 := rfl
  have he : Binary32.exponent 1280 720 = 0 := by
    unfold Binary32.exponent Binary32.scaleNum Binary32.scaleDen
    rw [h1, h2]
    norm_num [t1]
  have hm : Binary32.roundMagnitude 1280 720 = 14913081 / 8388608 := by
    unfold Binary32.roundMagnitude Binary32.scaleNum Binary32.scaleDen
    rw [he]
    norm_num [t2, t3]
  rw [Binary32.round, hm]
  norm_num

/-- C15: for every `WM_SIZE` message, with `w = LOWORD(lp)` and
`h = HIWORD(lp)` (for 16-bit words `w`, `h` packed as `w + 65536 * h` these
are `w` and `h`), the arguments passed to `ResizeEvent` have
`Width = max(w, 8)`, `Height = max(h, 8)` and `AspectRatio` the `float`
quotient of `float(Width)` by `float(Height)`, whatever the `float`
arithmetic is; they are never 1 by 1, so `ResizeEvent` stores them in
`m_Width`, `m_Height`, `m_AspectRatio` and ends with `OnResize`. A direct
`ResizeEvent` with `Width = 1` and `Height = 1` changes nothing and has no
effect at all, so it does not call `OnResize`. In IEEE 754 binary32 both
conversions are exact and `AspectRatio` is the exact quotient
`Width / Height` rounded once to the nearest `float`; for 1280 by 720 that
is 14913081 / 8388608. -/
theorem C15_WM_SIZE_resize {F : Type} (fl : FloatArith F) (world : ResizeWorld)
    (lp : Nat) (app : AppWindow F) (param : ResizeEventArgs F) :
    ((resizeArgsOfSize fl lp).Width = max (LOWORD lp) 8 ∧
      (resizeArgsOfSize fl lp).Height = max (HIWORD lp) 8 ∧
      (resizeArgsOfSize fl lp).AspectRatio =
        fl.div (fl.ofUInt32 (resizeArgsOfSize fl lp).Width)
          (fl.ofUInt32 (resizeArgsOfSize fl lp).Height)) ∧
    (∀ w h : Nat, w < 65536 → h < 65536 →
      LOWORD (w + 65536 * h) = w ∧ HIWORD (w + 65536 * h) = h) ∧
    ¬ ((resizeArgsOfSize fl lp).Width = 1 ∧ (resizeArgsOfSize fl lp).Height = 1) ∧
    ((MsgProc_WM_SIZE fl world lp (some app)).1.map (fun a => a.m_Width) =
        some (max (LOWORD lp) 8) ∧
      (MsgProc_WM_SIZE fl world lp (some app)).1.map (fun a => a.m_Height) =
        some (max (HIWORD lp) 8) ∧
      (MsgProc_WM_SIZE fl world lp (some app)).1.map (fun a => a.m_AspectRatio) =
        some (fl.div (fl.ofUInt32 (max (LOWORD lp) 8))
          (fl.ofUInt32 (max (HIWORD lp) 8))) ∧
      (MsgProc_WM_SIZE fl world lp (some app)).2.getLast? =
        some (ResizeEffect.OnResize (resizeArgsOfSize fl lp))) ∧
    ((param.Width = 1 ∧ param.Height = 1) →
      ResizeEvent fl world param app = (app, [])) ∧
    ((resizeArgsOfSize binary32 lp).AspectRatio =
        Binary32.round false (max (LOWORD lp) 8) (max (HIWORD lp) 8) ∧
      (resizeArgsOfSize binary32 (1280 + 65536 * 720)).AspectRatio =
        Binary32.finite false (14913081 / 8388608)) := by
  have hW : (resizeArgsOfSize fl lp).Width = max (LOWORD lp) 8 := Max_eq_max _ _
  have hH : (resizeArgsOfSize fl lp).Height = max (HIWORD lp) 8 := Max_eq_max _ _
  have hne : ¬ ((resizeArgsOfSize fl lp).Width = 1 ∧
      (resizeArgsOfSize fl lp).Height = 1) := by
    rw [hW]
    intro h
    have : 8 ≤ max (LOWORD lp) 8 := le_max_right _ _
    omega
  have h32 : ∀ l : Nat, (resizeArgsOfSize binary32 l).AspectRatio =
      Binary32.round false (max (LOWORD l) 8) (max (HIWORD l) 8) := by
    intro l
    have h1 : LOWORD l < 2 ^ 24 := by
      unfold LOWORD
      omega
    have h2 : HIWORD l < 2 ^ 24 := by
      unfold HIWORD
      omega
    show Binary32.div (Binary32.ofUInt32 (Max (LOWORD l) 8))
      (Binary32.ofUInt32 (Max (HIWORD l) 8)) = _
    rw [Max_eq_max, Max_eq_max]
    exact Binary32.div_ofUInt32 _ _ (max_lt h1 (by decide)) (max_lt h2 (by decide))
      (lt_of_lt_of_le (by decide) (le_max_right _ 8))
  refine ⟨⟨hW, hH, rfl⟩, ?_, hne, ?_, ?_, h32 lp, ?_⟩
  · intro w h hw hh
    constructor
    · unfold LOWORD
      omega
    · unfold HIWORD
      omega
  · have hA : (resizeArgsOfSize fl lp).AspectRatio =
        fl.div (fl.ofUInt32 (max (LOWORD lp) 8)) (fl.ofUInt32 (max (HIWORD lp) 8)) := by
      show fl.div (fl.ofUInt32 (Max (LOWORD lp) 8)) (fl.ofUInt32 (Max (HIWORD lp) 8)) = _
      rw [Max_eq_max, Max_eq_max]
    simp only [MsgProc_WM_SIZE, ResizeEvent, if_neg hne, Option.map_some']
    split_ifs <;> simp [hW, hH, hA]
  · intro h
    simp [ResizeEvent, h]
  · have hl : LOWORD (1280 + 65536 * 720) = 1280 := by decide
    have hh : HIWORD (1280 + 65536 * 720) = 720 := by decide
    rw [h32, hl, hh]
    exact Binary32.round_1280_720

end asdx
